import Mathlib

/-!
# FunctionJITTimeInfo (lib/Backend/FunctionJITTimeInfo.cpp)

A shallow embedding of the JIT-time snapshot builder `BuildJITTimeData` and of the
read-only accessors of `FunctionJITTimeInfo`, followed by theorems about them.

Conventions of the embedding
* a nullable pointer is an `Option`; an arena array is a `List`;
* a call that can crash returns `Except Fault _`: `Fault.nullDeref` is a read through a
  null pointer, `Fault.outOfBounds` a read past the end of an array, `Fault.assertion`
  a failed `Assert`;
* `Assert` only fires in a checked build; every function that asserts takes the
  build kind `dbg : Bool` as its first argument;
* the recursive calls of `BuildJITTimeData` leave out the `isInlinee` argument, whose
  default value is part of the function's declaration in the header: the builder takes
  that default as its second argument, and the theorems hold for both values of it;
* addresses (`intptr_t`) are plain integers that are compared and never dereferenced.
-/

namespace JITTimeInfo

/-! ## Faults -/

/-- The ways a call of this file can fail to return. -/
inductive Fault where
  | assertion
  | nullDeref
  | outOfBounds
  deriving DecidableEq, Repr

/-- `Assert(cond)`: fatal in a checked build, compiled out otherwise. -/
def Assert (dbg : Bool) (cond : Bool) : Except Fault Unit :=
  if dbg && !cond then .error .assertion else .ok ()

/-- Reading through a pointer: a null pointer is a fault. -/
def deref {α : Type} : Option α → Except Fault α
  | none => .error .nullDeref
  | some a => .ok a

/-- Reading `arr[i]` of an arena array: past the end is a fault. -/
def readAt {α : Type} : List α → Nat → Except Fault α
  | [], _ => .error .outOfBounds
  | x :: _, 0 => .ok x
  | _ :: xs, i + 1 => readAt xs i

/-- A per-site table of nullable children (`inlinees ? inlinees[i] : nullptr`): the
entry at `i`, null when the table has no entry there. -/
def slotAt {α : Type} : List (Option α) → Nat → Option α
  | [], _ => none
  | x :: _, 0 => x
  | _ :: xs, i + 1 => slotAt xs i

/-! ## Upstream (consumed) data -/

abbrev intptr_t := Int

abbrev PropertyId := Int

/-- `ProfileDataIDL`: the profile record filled by the external profile materializer,
identified by the dynamic profile it was read from. -/
structure ProfileDataIDL where
  source : Nat
  deriving DecidableEq, Repr

/-- `FunctionBodyDataIDL`: the per-body static data behind `GetJITBody()` / `GetBody()`. -/
structure FunctionBodyDataIDL where
  functionBodyAddr : intptr_t := 0
  profiledCallSiteCount : Nat := 0
  inlineCacheCount : Nat := 0
  isGenerator : Bool := false
  hasTry : Bool := false
  sourceContextId : Nat := 0
  functionNumber : Nat := 0
  profileData : Option ProfileDataIDL := none
  deriving DecidableEq, Repr

/-- `Js::FunctionCodeGenRuntimeData`: the runtime-profiling context of an inlinee. -/
inductive FunctionCodeGenRuntimeData where
  | mk (inlinees : List (Option FunctionCodeGenRuntimeData))
       (ldFldInlinees : List (Option FunctionCodeGenRuntimeData))
       (next : Option FunctionCodeGenRuntimeData)
       (clonedInlineCaches : Option (List intptr_t))

namespace FunctionCodeGenRuntimeData

/-- `runtimeData->GetInlinee(i)`. -/
def GetInlinee : FunctionCodeGenRuntimeData → Nat → Option FunctionCodeGenRuntimeData
  | .mk inl _ _ _, i => slotAt inl i

/-- `runtimeData->GetLdFldInlinee(i)`. -/
def GetLdFldInlinee : FunctionCodeGenRuntimeData → Nat → Option FunctionCodeGenRuntimeData
  | .mk _ ldf _ _, i => slotAt ldf i

/-- `runtimeData->GetNext()`. -/
def GetNext : FunctionCodeGenRuntimeData → Option FunctionCodeGenRuntimeData
  | .mk _ _ nxt _ => nxt

/-- `runtimeData->ClonedInlineCaches()->HasInlineCaches()`. -/
def HasInlineCaches : FunctionCodeGenRuntimeData → Bool
  | .mk _ _ _ caches => caches.isSome

/-- `(intptr_t)runtimeData->ClonedInlineCaches()->GetInlineCache(j)`. -/
def GetInlineCache : FunctionCodeGenRuntimeData → Nat → intptr_t
  | .mk _ _ _ caches, j => (caches.getD []).getD j 0

end FunctionCodeGenRuntimeData

/-- `Js::FunctionEntryPointInfo` as reached through `GetDefaultEntryPointInfo()`: the
address of its call counter and its shared property-guard dictionary, given by its keys
in iteration order (null when the entry point has none). -/
structure FunctionEntryPointInfo where
  isFunctionEntryPointInfo : Bool := true
  callsCountAddr : intptr_t := 0
  sharedPropertyGuards : Option (List PropertyId) := none

/-- `Js::FunctionBody`, as far as the builder reads it. -/
structure FunctionBody where
  dynamicProfileInfo : Option Nat := none
  defaultEntryPointInfo : FunctionEntryPointInfo := {}
  inlineeCodeGenRuntimeData : List (Option FunctionCodeGenRuntimeData) := []
  ldFldInlineeCodeGenRuntimeData : List (Option FunctionCodeGenRuntimeData) := []
  codeGenRuntimeDataWithLock : List (Option FunctionCodeGenRuntimeData) := []

namespace FunctionBody

/-- `functionBody->HasDynamicProfileInfo()`. -/
def HasDynamicProfileInfo (fb : FunctionBody) : Bool := fb.dynamicProfileInfo.isSome

/-- `functionBody->GetInlineeCodeGenRuntimeData(i)`. -/
def GetInlineeCodeGenRuntimeData (fb : FunctionBody) (i : Nat) :
    Option FunctionCodeGenRuntimeData :=
  slotAt fb.inlineeCodeGenRuntimeData i

/-- `functionBody->GetLdFldInlineeCodeGenRuntimeData(i)`. -/
def GetLdFldInlineeCodeGenRuntimeData (fb : FunctionBody) (i : Nat) :
    Option FunctionCodeGenRuntimeData :=
  slotAt fb.ldFldInlineeCodeGenRuntimeData i

end FunctionBody

/-- `Js::FunctionInfo`: `HasBody()` holds iff a function body is attached. -/
structure FunctionInfo where
  addr : intptr_t := 0
  localFunctionId : Nat := 0
  functionBody : Option FunctionBody := none

/-- `functionInfo->HasBody()`. -/
def FunctionInfo.HasBody (fi : FunctionInfo) : Bool := fi.functionBody.isSome

/-- The fields of `Js::FunctionCodeGenJitTimeData` that are not child contexts. -/
structure CodeGenFields where
  functionInfo : FunctionInfo := {}
  bodyData : Option FunctionBodyDataIDL := none
  isAggressiveInliningEnabled : Bool := false
  isInlined : Bool := false
  weakFuncRef : intptr_t := 0
  inlineesBv : intptr_t := 0
  objTypeSpecFldInfoArray : Option (List Nat) := none
  globalObjTypeSpecFldInfoCount : Nat := 0
  globalObjTypeSpecFldInfoArray : Option (List Nat) := none

/-- `Js::FunctionCodeGenJitTimeData`: the code-gen-time context of one function, with
its per-call-site children, its per-inline-cache children and its polymorphic successor. -/
inductive FunctionCodeGenJitTimeData where
  | mk (fields : CodeGenFields)
       (inlinees : List (Option FunctionCodeGenJitTimeData))
       (ldFldInlinees : List (Option FunctionCodeGenJitTimeData))
       (next : Option FunctionCodeGenJitTimeData)

namespace FunctionCodeGenJitTimeData

/-- The fields of a context that are not child contexts. -/
def fields : FunctionCodeGenJitTimeData → CodeGenFields
  | .mk f _ _ _ => f

/-- `codeGenData->GetFunctionInfo()`. -/
def GetFunctionInfo (c : FunctionCodeGenJitTimeData) : FunctionInfo := c.fields.functionInfo

/-- `codeGenData->GetJITBody()`. -/
def GetJITBody (c : FunctionCodeGenJitTimeData) : Option FunctionBodyDataIDL :=
  c.fields.bodyData

/-- `codeGenData->GetInlinee(i)`. -/
def GetInlinee : FunctionCodeGenJitTimeData → Nat → Option FunctionCodeGenJitTimeData
  | .mk _ inl _ _, i => slotAt inl i

/-- `codeGenData->GetLdFldInlinee(i)`. -/
def GetLdFldInlinee : FunctionCodeGenJitTimeData → Nat → Option FunctionCodeGenJitTimeData
  | .mk _ _ ldf _, i => slotAt ldf i

/-- `codeGenData->GetNext()`. -/
def GetNext : FunctionCodeGenJitTimeData → Option FunctionCodeGenJitTimeData
  | .mk _ _ _ nxt => nxt

end FunctionCodeGenJitTimeData

/-! ## The snapshot record -/

/-- `FunctionJITRuntimeIDL`: the runtime-data record of a node. -/
structure FunctionJITRuntimeIDL where
  clonedCacheCount : Nat := 0
  clonedInlineCaches : Option (List intptr_t) := none
  deriving DecidableEq, Repr

/-- The fields of `FunctionJITTimeDataIDL` that are not child nodes; the defaults are the
zero-initialised record of `AnewStructZ`. -/
structure JITTimeDataFields where
  bodyData : Option FunctionBodyDataIDL := none
  functionInfoAddr : intptr_t := 0
  localFuncId : Nat := 0
  isAggressiveInliningEnabled : Bool := false
  isInlined : Bool := false
  weakFuncRef : intptr_t := 0
  inlineesBv : intptr_t := 0
  callsCountAddress : intptr_t := 0
  sharedPropGuardCount : Nat := 0
  sharedPropertyGuards : Option (List PropertyId) := none
  inlineeCount : Nat := 0
  profiledRuntimeData : Option FunctionJITRuntimeIDL := none
  ldFldInlineeCount : Nat := 0
  objTypeSpecFldInfoCount : Nat := 0
  objTypeSpecFldInfoArray : Option (List Nat) := none
  globalObjTypeSpecFldInfoCount : Nat := 0
  globalObjTypeSpecFldInfoArray : Option (List Nat) := none
  deriving DecidableEq, Repr

/-- `FunctionJITTimeDataIDL`: one snapshot node (`m_data` of a `FunctionJITTimeInfo`). -/
inductive FunctionJITTimeDataIDL where
  | mk (data : JITTimeDataFields)
       (inlinees : Option (List (Option FunctionJITTimeDataIDL)))
       (ldFldInlinees : Option (List (Option FunctionJITTimeDataIDL)))
       (next : Option FunctionJITTimeDataIDL)

namespace FunctionJITTimeDataIDL

/-- The fields of a node that are not child nodes. -/
def data : FunctionJITTimeDataIDL → JITTimeDataFields
  | .mk d _ _ _ => d

/-- The call-site child array `m_data.inlinees`, null when never allocated. -/
def inlinees : FunctionJITTimeDataIDL → Option (List (Option FunctionJITTimeDataIDL))
  | .mk _ inl _ _ => inl

/-- The field-access child array `m_data.ldFldInlinees`, null when never allocated. -/
def ldFldInlinees : FunctionJITTimeDataIDL → Option (List (Option FunctionJITTimeDataIDL))
  | .mk _ _ ldf _ => ldf

/-- The polymorphic successor `m_data.next`. -/
def next : FunctionJITTimeDataIDL → Option FunctionJITTimeDataIDL
  | .mk _ _ _ nxt => nxt

end FunctionJITTimeDataIDL

/-! ## BuildJITTimeData -/

/-- The `while (sharedGuardIter.IsValid())` loop: the iterator's remaining keys are
written to `sharedPropertyGuards[i]`, `sharedPropertyGuards[i+1]`, ... -/
def drainSharedGuards : List PropertyId → Nat → List PropertyId → List PropertyId
  | [], _, arr => arr
  | key :: rest, i, arr => drainSharedGuards rest (i + 1) (arr.set i key)

/-- Lines 34-68: the profile slot of the body and, for an inlinee, the call-count
address and the shared property guards of its default entry point. -/
def captureProfileData (dbg : Bool) (functionBody : FunctionBody) (isInlinee : Bool)
    (jitData : JITTimeDataFields) : Except Fault JITTimeDataFields :=
  match functionBody.dynamicProfileInfo with
  | none => .ok jitData
  | some profile => do
    Assert dbg jitData.bodyData.isSome
    let body ← deref jitData.bodyData
    let jitData := { jitData with bodyData := some { body with profileData := some ⟨profile⟩ } }
    if isInlinee then do
      let entryPoint := functionBody.defaultEntryPointInfo
      Assert dbg entryPoint.isFunctionEntryPointInfo
      let jitData := { jitData with callsCountAddress := entryPoint.callsCountAddr }
      match entryPoint.sharedPropertyGuards with
      | none => pure jitData
      | some sharedGuards =>
        pure { jitData with
          sharedPropGuardCount := sharedGuards.length
          sharedPropertyGuards :=
            some (drainSharedGuards sharedGuards 0 (List.replicate sharedGuards.length 0)) }
    else pure jitData

/-- The runtime child of call site `i`:
`isInlinee ? runtimeData->GetInlinee(i) : functionBody->GetInlineeCodeGenRuntimeData(i)`. -/
def inlineeRuntimeData (isInlinee : Bool) (runtimeData : Option FunctionCodeGenRuntimeData)
    (functionBody : FunctionBody) (i : Nat) : Except Fault (Option FunctionCodeGenRuntimeData) :=
  if isInlinee then do
    let rt ← deref runtimeData
    pure (rt.GetInlinee i)
  else pure (functionBody.GetInlineeCodeGenRuntimeData i)

/-- The runtime child of inline cache `i`:
`isInlinee ? runtimeData->GetLdFldInlinee(i) : functionBody->GetLdFldInlineeCodeGenRuntimeData(i)`. -/
def ldFldInlineeRuntimeData (isInlinee : Bool)
    (runtimeData : Option FunctionCodeGenRuntimeData)
    (functionBody : FunctionBody) (i : Nat) : Except Fault (Option FunctionCodeGenRuntimeData) :=
  if isInlinee then do
    let rt ← deref runtimeData
    pure (rt.GetLdFldInlinee i)
  else pure (functionBody.GetLdFldInlineeCodeGenRuntimeData i)

/-- The runtime counterpart of the polymorphic successor:
`isInlinee ? runtimeData->GetNext() : functionBody->GetCodeGenRuntimeDataWithLock()[1]`. -/
def nextRuntimeData (isInlinee : Bool) (runtimeData : Option FunctionCodeGenRuntimeData)
    (functionBody : FunctionBody) : Except Fault (Option FunctionCodeGenRuntimeData) :=
  if isInlinee then do
    let rt ← deref runtimeData
    pure rt.GetNext
  else pure (slotAt functionBody.codeGenRuntimeDataWithLock 1)

/-- Lines 85-96: the runtime-data record, with the cloned inline-cache addresses of an
inlinee that has them. -/
def buildRuntimeInfo (isInlinee : Bool) (runtimeData : Option FunctionCodeGenRuntimeData)
    (body : FunctionBodyDataIDL) : Except Fault FunctionJITRuntimeIDL :=
  if isInlinee then do
    let rt ← deref runtimeData
    if rt.HasInlineCaches then
      pure { clonedCacheCount := body.inlineCacheCount
             clonedInlineCaches :=
               some ((List.range body.inlineCacheCount).map rt.GetInlineCache) }
    else pure {}
  else pure {}

/-- Modelled from the spec: the external type-specialization materializer
`JITObjTypeSpecFldInfo::BuildObjTypeSpecFldInfoArray`, which "fills a destination array
from a source array + count"; entries are descriptor handles. -/
def BuildObjTypeSpecFldInfoArray (source : List Nat) (count : Nat) : List Nat :=
  (List.range count).map (fun i => source.getD i 0)

/-- The iterations of a child loop that find no child context: the runtime child is
still selected, the zero-filled slot stays empty. -/
def skipSlots (sel : Nat → Except Fault (Option FunctionCodeGenRuntimeData)) :
    Nat → Nat → Except Fault (List (Option FunctionJITTimeDataIDL))
  | _, 0 => pure []
  | i, k + 1 => do
    let _ ← sel i
    let rest ← skipSlots sel (i + 1) k
    pure (none :: rest)

/-- Lines 19-28: the zero-initialised node with the scalar fields copied. -/
def copyScalars (codeGenData : CodeGenFields) : JITTimeDataFields :=
  { bodyData := codeGenData.bodyData
    functionInfoAddr := codeGenData.functionInfo.addr
    localFuncId := codeGenData.functionInfo.localFunctionId
    isAggressiveInliningEnabled := codeGenData.isAggressiveInliningEnabled
    isInlined := codeGenData.isInlined
    weakFuncRef := codeGenData.weakFuncRef
    inlineesBv := codeGenData.inlineesBv }

/-- Lines 32-71: the consistency assertion, the profile capture, and the call-site count. -/
def beginBody (dbg : Bool) (codeGenData : CodeGenFields) (functionBody : FunctionBody)
    (runtimeData : Option FunctionCodeGenRuntimeData) (isInlinee : Bool) :
    Except Fault (JITTimeDataFields × FunctionBodyDataIDL) := do
  Assert dbg (isInlinee == runtimeData.isSome)
  let jitData ← captureProfileData dbg functionBody isInlinee (copyScalars codeGenData)
  let body ← deref jitData.bodyData
  if 0 < body.profiledCallSiteCount then
    pure ({ jitData with inlineeCount := body.profiledCallSiteCount }, body)
  else pure (jitData, body)

/-- Lines 85-108: the runtime-data record, the field-access count and the per-slot
type-specialization array. -/
def middleBody (codeGenData : CodeGenFields)
    (runtimeData : Option FunctionCodeGenRuntimeData) (isInlinee : Bool)
    (body : FunctionBodyDataIDL) (jitData : JITTimeDataFields) : Except Fault JITTimeDataFields := do
  let runtimeInfo ← buildRuntimeInfo isInlinee runtimeData body
  let jitData := { jitData with profiledRuntimeData := some runtimeInfo }
  if 0 < body.inlineCacheCount then
    let jitData := { jitData with ldFldInlineeCount := body.inlineCacheCount }
    match codeGenData.objTypeSpecFldInfoArray with
    | none => pure jitData
    | some objTypeSpecInfo =>
      pure { jitData with
        objTypeSpecFldInfoCount := body.inlineCacheCount
        objTypeSpecFldInfoArray :=
          some (BuildObjTypeSpecFldInfoArray objTypeSpecInfo body.inlineCacheCount) }
  else pure jitData

/-- Lines 120-128: the global type-specialization array. -/
def globalBody (dbg : Bool) (codeGenData : CodeGenFields) (jitData : JITTimeDataFields) :
    Except Fault JITTimeDataFields :=
  if 0 < codeGenData.globalObjTypeSpecFldInfoCount then do
    Assert dbg codeGenData.globalObjTypeSpecFldInfoArray.isSome
    pure { jitData with
      globalObjTypeSpecFldInfoCount := codeGenData.globalObjTypeSpecFldInfoCount
      globalObjTypeSpecFldInfoArray :=
        some (BuildObjTypeSpecFldInfoArray
          (codeGenData.globalObjTypeSpecFldInfoArray.getD [])
          codeGenData.globalObjTypeSpecFldInfoCount) }
  else pure jitData

/-- The guarded child array of lines 69-83 and 97-119: allocated and filled only when the
body records at least one site, null otherwise. -/
def childArray (count : Nat) (loop : Except Fault (List (Option FunctionJITTimeDataIDL))) :
    Except Fault (Option (List (Option FunctionJITTimeDataIDL))) :=
  if 0 < count then do
    let arr ← loop
    pure (some arr)
  else pure none

mutual

/-- `FunctionJITTimeInfo::BuildJITTimeData(alloc, codeGenData, runtimeData, isInlinee)`.

The three recursive calls (lines 80, 116 and 132) pass `alloc`, the child context and the
child's runtime data and leave out the fourth argument. Its default value belongs to the
declaration of the function in the header, so it is the parameter `defaultIsInlinee` here:
every recursive call runs with `isInlinee = defaultIsInlinee`. -/
def BuildJITTimeData (dbg : Bool) (defaultIsInlinee : Bool) :
    FunctionCodeGenJitTimeData → Option FunctionCodeGenRuntimeData → Bool →
      Except Fault FunctionJITTimeDataIDL
  | .mk codeGenData inl ldf nxt, runtimeData, isInlinee =>
    match codeGenData.functionInfo.functionBody with
    | none => pure (.mk (copyScalars codeGenData) none none none)
    | some functionBody => do
      let (jitData, body) ← beginBody dbg codeGenData functionBody runtimeData isInlinee
      let inlinees ← childArray body.profiledCallSiteCount
        (buildSlots dbg defaultIsInlinee
          (inlineeRuntimeData isInlinee runtimeData functionBody)
          inl 0 body.profiledCallSiteCount)
      let jitData ← middleBody codeGenData runtimeData isInlinee body jitData
      let ldFldInlinees ← childArray body.inlineCacheCount
        (buildSlots dbg defaultIsInlinee
          (ldFldInlineeRuntimeData isInlinee runtimeData functionBody)
          ldf 0 body.inlineCacheCount)
      let jitData ← globalBody dbg codeGenData jitData
      let next ← buildNext dbg defaultIsInlinee
        (nextRuntimeData isInlinee runtimeData functionBody) nxt
      pure (.mk jitData inlinees ldFldInlinees next)
termination_by structural c => c

/-- Lines 129-133: the polymorphic successor, built by the three-argument call of line 132
when the source has a next candidate. -/
def buildNext (dbg : Bool) (defaultIsInlinee : Bool)
    (sel : Except Fault (Option FunctionCodeGenRuntimeData)) :
    Option FunctionCodeGenJitTimeData → Except Fault (Option FunctionJITTimeDataIDL)
  | none => pure none
  | some nextData => do
    let nextRuntime ← sel
    let nextNode ← BuildJITTimeData dbg defaultIsInlinee nextData nextRuntime defaultIsInlinee
    pure (some nextNode)
termination_by structural nxt => nxt

/-- The child loops of lines 74-82 and 109-118, at index `i` with `k` iterations left and
the source's child table from `i` on: the runtime child is selected, and a child context
that exists is built by the three-argument call of line 80 (line 116). -/
def buildSlots (dbg : Bool) (defaultIsInlinee : Bool)
    (sel : Nat → Except Fault (Option FunctionCodeGenRuntimeData)) :
    List (Option FunctionCodeGenJitTimeData) → Nat → Nat →
      Except Fault (List (Option FunctionJITTimeDataIDL))
  | _, _, 0 => pure []
  | [], i, k + 1 => skipSlots sel i (k + 1)
  | none :: rest, i, k + 1 => do
    let _ ← sel i
    let others ← buildSlots dbg defaultIsInlinee sel rest (i + 1) k
    pure (none :: others)
  | some inlineeJITData :: rest, i, k + 1 => do
    let inlineeRuntime ← sel i
    let node ← BuildJITTimeData dbg defaultIsInlinee inlineeJITData inlineeRuntime
      defaultIsInlinee
    let others ← buildSlots dbg defaultIsInlinee sel rest (i + 1) k
    pure (some node :: others)
termination_by structural tbl => tbl

end
/-! ## Accessors of `FunctionJITTimeInfo` (the node is `m_data`) -/

/-- `Assert(cond)` whose condition itself reads through pointers: the condition is only
evaluated in a checked build. -/
def AssertM (dbg : Bool) (cond : Except Fault Bool) : Except Fault Unit :=
  if dbg then do
    let holds ← cond
    if holds then pure () else .error .assertion
  else pure ()

namespace FunctionJITTimeInfo

def GetInlineeCount (m_data : FunctionJITTimeDataIDL) : Nat := m_data.data.inlineeCount

def IsLdFldInlineePresent (m_data : FunctionJITTimeDataIDL) : Bool :=
  m_data.data.ldFldInlineeCount != 0

def HasSharedPropertyGuards (m_data : FunctionJITTimeDataIDL) : Bool :=
  m_data.data.sharedPropGuardCount != 0

/-- The `for` loop of `HasSharedPropertyGuard`, at index `i` with `k` iterations left. -/
def guardScan (guards : Option (List PropertyId)) (id : PropertyId) :
    Nat → Nat → Except Fault Bool
  | _, 0 => pure false
  | i, k + 1 => do
    let arr ← deref guards
    let guard ← readAt arr i
    if guard = id then pure true else guardScan guards id (i + 1) k

def HasSharedPropertyGuard (m_data : FunctionJITTimeDataIDL) (id : PropertyId) :
    Except Fault Bool :=
  guardScan m_data.data.sharedPropertyGuards id 0 m_data.data.sharedPropGuardCount

def GetFunctionInfoAddr (m_data : FunctionJITTimeDataIDL) : intptr_t :=
  m_data.data.functionInfoAddr

def GetWeakFuncRef (m_data : FunctionJITTimeDataIDL) : intptr_t := m_data.data.weakFuncRef

def GetLocalFunctionId (m_data : FunctionJITTimeDataIDL) : Nat := m_data.data.localFuncId

def IsAggressiveInliningEnabled (m_data : FunctionJITTimeDataIDL) : Bool :=
  m_data.data.isAggressiveInliningEnabled

def IsInlined (m_data : FunctionJITTimeDataIDL) : Bool := m_data.data.isInlined

def GetInlineesBV (m_data : FunctionJITTimeDataIDL) : intptr_t := m_data.data.inlineesBv

def GetNext (m_data : FunctionJITTimeDataIDL) : Option FunctionJITTimeDataIDL := m_data.next

def GetBody (m_data : FunctionJITTimeDataIDL) : Option FunctionBodyDataIDL :=
  m_data.data.bodyData

def HasBody (m_data : FunctionJITTimeDataIDL) : Bool := m_data.data.bodyData.isSome

def GetRuntimeInfo (m_data : FunctionJITTimeDataIDL) : Option FunctionJITRuntimeIDL :=
  m_data.data.profiledRuntimeData

/-- `GetJitTimeDataFromFunctionInfoAddr`: the `while (next && ...)` loop, entered at the
non-null `next = this`. -/
def GetJitTimeDataFromFunctionInfoAddr :
    FunctionJITTimeDataIDL → intptr_t → Option FunctionJITTimeDataIDL
  | .mk d inl ldf nxt, polyFuncInfo =>
    if d.functionInfoAddr ≠ polyFuncInfo then
      match nxt with
      | none => none
      | some successor => GetJitTimeDataFromFunctionInfoAddr successor polyFuncInfo
    else some (.mk d inl ldf nxt)

def GetInlinee (dbg : Bool) (m_data : FunctionJITTimeDataIDL) (profileId : Nat) :
    Except Fault (Option FunctionJITTimeDataIDL) := do
  AssertM dbg (do
    let body ← deref m_data.data.bodyData
    pure (decide (profileId < body.profiledCallSiteCount)))
  match m_data.inlinees with
  | none => pure none
  | some inlinees => do
    Assert dbg (decide (profileId < m_data.data.inlineeCount))
    readAt inlinees profileId

def GetLdFldInlinee (dbg : Bool) (m_data : FunctionJITTimeDataIDL) (inlineCacheIndex : Nat) :
    Except Fault (Option FunctionJITTimeDataIDL) := do
  AssertM dbg (do
    let body ← deref m_data.data.bodyData
    pure (decide (inlineCacheIndex < body.inlineCacheCount)))
  match m_data.ldFldInlinees with
  | none => pure none
  | some ldFldInlinees => do
    Assert dbg (decide (inlineCacheIndex < m_data.data.ldFldInlineeCount))
    readAt ldFldInlinees inlineCacheIndex

/-- The `while` loop and the final `inlineeData->GetRuntimeInfo()` of
`GetInlineeForTargetInlineeRuntimeData`, at a non-null `inlineeData`. -/
def targetScan : FunctionJITTimeDataIDL → intptr_t → Except Fault (Option FunctionJITRuntimeIDL)
  | .mk d _ _ nxt, inlineeFuncBodyAddr => do
    let body ← deref d.bodyData
    if body.functionBodyAddr ≠ inlineeFuncBodyAddr then
      match nxt with
      | none => .error .nullDeref
      | some successor => targetScan successor inlineeFuncBodyAddr
    else pure d.profiledRuntimeData

def GetInlineeForTargetInlineeRuntimeData (dbg : Bool) (m_data : FunctionJITTimeDataIDL)
    (profiledCallSiteId : Nat) (inlineeFuncBodyAddr : intptr_t) :
    Except Fault (Option FunctionJITRuntimeIDL) := do
  let inlineeData ← GetInlinee dbg m_data profiledCallSiteId
  match inlineeData with
  | none => .error .nullDeref
  | some first => targetScan first inlineeFuncBodyAddr

def GetInlineeRuntimeData (dbg : Bool) (m_data : FunctionJITTimeDataIDL)
    (profiledCallSiteId : Nat) : Except Fault (Option FunctionJITRuntimeIDL) := do
  let tested ← GetInlinee dbg m_data profiledCallSiteId
  if tested.isSome then do
    let inlinee ← GetInlinee dbg m_data profiledCallSiteId
    let node ← deref inlinee
    pure (GetRuntimeInfo node)
  else pure none

def GetLdFldInlineeRuntimeData (dbg : Bool) (m_data : FunctionJITTimeDataIDL)
    (inlineCacheIndex : Nat) : Except Fault (Option FunctionJITRuntimeIDL) := do
  let tested ← GetLdFldInlinee dbg m_data inlineCacheIndex
  if tested.isSome then do
    let inlinee ← GetLdFldInlinee dbg m_data inlineCacheIndex
    let node ← deref inlinee
    pure (GetRuntimeInfo node)
  else pure none

def IsPolymorphicCallSite (dbg : Bool) (m_data : FunctionJITTimeDataIDL)
    (profiledCallSiteId : Nat) : Except Fault Bool := do
  AssertM dbg (do
    let body ← deref m_data.data.bodyData
    pure (decide (profiledCallSiteId < body.profiledCallSiteCount)))
  match m_data.inlinees with
  | none => pure false
  | some inlinees => do
    Assert dbg (decide (profiledCallSiteId < m_data.data.inlineeCount))
    let slot ← readAt inlinees profiledCallSiteId
    let inlinee ← deref slot
    pure inlinee.next.isSome

end FunctionJITTimeInfo

/-- The phases consulted by `ForceJITLoopBody`. -/
inductive Phase where
  | JITLoopBodyPhase
  | FullJitPhase
  deriving DecidableEq, Repr

/-- The global configuration read by `ForceJITLoopBody`: the `PHASE_OFF` and `PHASE_FORCE`
queries and the `Prejit` flag, which exists only in a build with `ENABLE_PREJIT`. -/
structure ConfigFlags where
  PHASE_OFF : Phase → FunctionJITTimeDataIDL → Bool
  PHASE_FORCE : Phase → FunctionJITTimeDataIDL → Bool
  Prejit : Option Bool

namespace FunctionJITTimeInfo

def ForceJITLoopBody (flags : ConfigFlags) (m_data : FunctionJITTimeDataIDL) :
    Except Fault Bool :=
  if flags.PHASE_OFF .JITLoopBodyPhase m_data then pure false
  else if flags.PHASE_OFF .FullJitPhase m_data then pure false
  else do
    let body ← deref m_data.data.bodyData
    if body.isGenerator then pure false
    else do
      let body ← deref m_data.data.bodyData
      if body.hasTry then pure false
      else pure (flags.PHASE_FORCE .JITLoopBodyPhase m_data || flags.Prejit == some true)

end FunctionJITTimeInfo

/-! ## Positions in a tree -/

/-- An edge of a snapshot tree, and of the code-gen context tree it mirrors. -/
inductive Edge where
  | callSite (i : Nat)
  | ldFld (i : Nat)
  | next
  deriving DecidableEq, Repr

/-- The entry `i` of a nullable child array of a node, null when the array is null, the
slot is empty or there is no such slot. -/
def arraySlot (arr : Option (List (Option FunctionJITTimeDataIDL))) (i : Nat) :
    Option FunctionJITTimeDataIDL :=
  match arr with
  | none => none
  | some slots => slotAt slots i

/-- The number of slots of a nullable child array, none for a null array. -/
def slotCount (arr : Option (List (Option FunctionJITTimeDataIDL))) : Nat :=
  match arr with
  | none => 0
  | some slots => slots.length

namespace FunctionJITTimeDataIDL

/-- The node one edge below a node. -/
def child (n : FunctionJITTimeDataIDL) : Edge → Option FunctionJITTimeDataIDL
  | .callSite i => arraySlot n.inlinees i
  | .ldFld i => arraySlot n.ldFldInlinees i
  | .next => n.next

/-- The node at the end of a path of edges. -/
def follow (n : FunctionJITTimeDataIDL) : List Edge → Option FunctionJITTimeDataIDL
  | [] => some n
  | e :: path =>
    match n.child e with
    | none => none
    | some m => m.follow path

/-- The polymorphic chain that starts at a node: the node, its `next`, and so on. -/
def chain : FunctionJITTimeDataIDL → List FunctionJITTimeDataIDL
  | .mk d inl ldf none => [.mk d inl ldf none]
  | .mk d inl ldf (some successor) => .mk d inl ldf (some successor) :: chain successor

end FunctionJITTimeDataIDL

namespace FunctionCodeGenJitTimeData

/-- The context one edge below a context. -/
def child (c : FunctionCodeGenJitTimeData) : Edge → Option FunctionCodeGenJitTimeData
  | .callSite i => c.GetInlinee i
  | .ldFld i => c.GetLdFldInlinee i
  | .next => c.GetNext

/-- The context at the end of a path of edges. -/
def follow (c : FunctionCodeGenJitTimeData) : List Edge → Option FunctionCodeGenJitTimeData
  | [] => some c
  | e :: path =>
    match c.child e with
    | none => none
    | some c1 => c1.follow path

/-- The upstream candidate chain that starts at a context, linked by `GetNext()`. -/
def chain : FunctionCodeGenJitTimeData → List FunctionCodeGenJitTimeData
  | .mk f inl ldf none => [.mk f inl ldf none]
  | .mk f inl ldf (some successor) => .mk f inl ldf (some successor) :: chain successor

/-- The candidates of the upstream chain up to and including the first one whose
function has no body. -/
def chainToBodiless : FunctionCodeGenJitTimeData → List FunctionCodeGenJitTimeData
  | .mk f inl ldf none => [.mk f inl ldf none]
  | .mk f inl ldf (some successor) =>
    if f.functionInfo.HasBody then .mk f inl ldf (some successor) :: chainToBodiless successor
    else [.mk f inl ldf (some successor)]

end FunctionCodeGenJitTimeData

/-- The body address `GetBody()->GetAddr()` of a node, none for a node without a body. -/
def bodyAddr (n : FunctionJITTimeDataIDL) : Option intptr_t :=
  (FunctionJITTimeInfo.GetBody n).map (fun body => body.functionBodyAddr)

/-- The candidate chain of call site `i` of a node: the chain that starts at the slot's
head, empty when the slot holds no candidate. -/
def callSiteChain (n : FunctionJITTimeDataIDL) (i : Nat) : List FunctionJITTimeDataIDL :=
  match arraySlot n.inlinees i with
  | none => []
  | some head => head.chain

/-! ## Sample inputs -/

/-- A second polymorphic target: a script function at body address 200. -/
def sampleCallee2 : FunctionCodeGenJitTimeData :=
  .mk { functionInfo := { addr := 20, localFunctionId := 5, functionBody := some {} }
        bodyData := some { functionBodyAddr := 200 } } [] [] none

/-- A first polymorphic target, chained to `sampleCallee2`. -/
def sampleCallee1 : FunctionCodeGenJitTimeData :=
  .mk { functionInfo := { addr := 10, localFunctionId := 4, functionBody := some {} }
        bodyData := some { functionBodyAddr := 100 } } [] [] (some sampleCallee2)

/-- A built-in target: a function without a body. -/
def sampleBuiltin : FunctionCodeGenJitTimeData :=
  .mk { functionInfo := { addr := 30, localFunctionId := 6 } } [] [] none

/-- A root function with two profiled call sites (the first polymorphic, the second
without a candidate) and one inline cache whose candidate is a built-in. -/
def sampleRoot : FunctionCodeGenJitTimeData :=
  .mk { functionInfo :=
          { addr := 1, localFunctionId := 3, functionBody := some { dynamicProfileInfo := some 7 } }
        bodyData := some { functionBodyAddr := 50, profiledCallSiteCount := 2, inlineCacheCount := 1 } }
    [some sampleCallee1, none] [some sampleBuiltin] none

def sampleCallee2Node : FunctionJITTimeDataIDL :=
  .mk { bodyData := some { functionBodyAddr := 200 }, functionInfoAddr := 20, localFuncId := 5
        profiledRuntimeData := some {} } none none none

def sampleCallee1Node : FunctionJITTimeDataIDL :=
  .mk { bodyData := some { functionBodyAddr := 100 }, functionInfoAddr := 10, localFuncId := 4
        profiledRuntimeData := some {} } none none (some sampleCallee2Node)

def sampleBuiltinNode : FunctionJITTimeDataIDL :=
  .mk { functionInfoAddr := 30, localFuncId := 6 } none none none

/-- The snapshot of `sampleRoot`. -/
def sampleRootNode : FunctionJITTimeDataIDL :=
  .mk { bodyData := some { functionBodyAddr := 50, profiledCallSiteCount := 2,
                           inlineCacheCount := 1, profileData := some ⟨7⟩ }
        functionInfoAddr := 1, localFuncId := 3
        inlineeCount := 2, profiledRuntimeData := some {}, ldFldInlineeCount := 1 }
    (some [some sampleCallee1Node, none]) (some [some sampleBuiltinNode]) none

/-- A candidate chain whose head is a built-in (no body) followed by a script function. -/
def sampleMixedHead : FunctionCodeGenJitTimeData :=
  .mk { functionInfo := { addr := 30, localFunctionId := 6 } } [] [] (some sampleCallee2)

/-- A root whose only call site is headed by `sampleMixedHead`. -/
def sampleMixedRoot : FunctionCodeGenJitTimeData :=
  .mk { functionInfo := { addr := 1, localFunctionId := 3, functionBody := some {} }
        bodyData := some { functionBodyAddr := 50, profiledCallSiteCount := 1 } }
    [some sampleMixedHead] [] none

def sampleMixedHeadNode : FunctionJITTimeDataIDL :=
  .mk { functionInfoAddr := 30, localFuncId := 6 } none none none

/-- The snapshot of `sampleMixedRoot`. -/
def sampleMixedRootNode : FunctionJITTimeDataIDL :=
  .mk { bodyData := some { functionBodyAddr := 50, profiledCallSiteCount := 1 }
        functionInfoAddr := 1, localFuncId := 3
        inlineeCount := 1, profiledRuntimeData := some {} }
    (some [some sampleMixedHeadNode]) none none

/-- A node whose guard array is `[7, 42, 100]`. -/
def sampleGuardedNode : FunctionJITTimeDataIDL :=
  .mk { sharedPropGuardCount := 3, sharedPropertyGuards := some [7, 42, 100] } none none none

/-- An inlinee with profile data whose default entry point guards the properties
7, 42 and 100. -/
def sampleInlinee : FunctionCodeGenJitTimeData :=
  .mk { functionInfo :=
          { addr := 40, localFunctionId := 8
            functionBody := some
              { dynamicProfileInfo := some 9
                defaultEntryPointInfo :=
                  { callsCountAddr := 777, sharedPropertyGuards := some [7, 42, 100] } } }
        bodyData := some { functionBodyAddr := 400 } } [] [] none

/-- The runtime-profiling context of `sampleInlinee`: no children, no cloned caches. -/
def sampleInlineeRuntime : FunctionCodeGenRuntimeData := .mk [] [] none none

/-- The snapshot of `sampleInlinee` built as an inlinee. -/
def sampleInlineeNode : FunctionJITTimeDataIDL :=
  .mk { bodyData := some { functionBodyAddr := 400, profileData := some ⟨9⟩ }
        functionInfoAddr := 40, localFuncId := 8, callsCountAddress := 777
        sharedPropGuardCount := 3, sharedPropertyGuards := some [7, 42, 100]
        profiledRuntimeData := some {} } none none none

/-- A configuration with no phase switched off, none forced, and `Prejit` set. -/
def samplePrejitFlags : ConfigFlags :=
  { PHASE_OFF := fun _ _ => false, PHASE_FORCE := fun _ _ => false, Prejit := some true }

/-! ## GetDebugNumberSet -/

/-- The `(int)` cast of a `uint`: the value read as a two's-complement 32-bit integer. -/
def castToInt (u : Nat) : Int :=
  if u % 2 ^ 32 < 2 ^ 31 then ((u % 2 ^ 32 : Nat) : Int) else ((u % 2 ^ 32 : Nat) : Int) - 2 ^ 32

/-- The conversion `%d`: a signed decimal. -/
def formatD (i : Int) : String :=
  if i < 0 then "-" ++ Nat.repr i.natAbs else Nat.repr i.toNat

/-- The conversion `%u` of a `uint`: an unsigned decimal. -/
def formatU (u : Nat) : String := Nat.repr (u % 2 ^ 32)

/-- `swprintf_s(buffer, size, ...)` for an already formatted text: the text is written and
its length returned when it fits the buffer with its terminator; otherwise the call ends in
the invalid-parameter handler. -/
def swprintf_s (sizeOfBuffer : Nat) (text : String) : Except Fault (String × Int) :=
  if text.length < sizeOfBuffer then .ok (text, (text.length : Int)) else .error .outOfBounds

namespace FunctionJITTimeInfo

def GetSourceContextId (dbg : Bool) (m_data : FunctionJITTimeDataIDL) : Except Fault Nat := do
  Assert dbg (HasBody m_data)
  let body ← deref (GetBody m_data)
  pure body.sourceContextId

/-- `GetDebugNumberSet(bufferToWriteTo)`, for a buffer of
`MAX_FUNCTION_BODY_DEBUG_STRING_SIZE` characters: the returned value is the content of the
caller's buffer. -/
def GetDebugNumberSet (dbg : Bool) (MAX_FUNCTION_BODY_DEBUG_STRING_SIZE : Nat)
    (m_data : FunctionJITTimeDataIDL) : Except Fault String := do
  let sourceContextId ← GetSourceContextId dbg m_data
  let body ← deref (GetBody m_data)
  let (bufferToWriteTo, len) ← swprintf_s MAX_FUNCTION_BODY_DEBUG_STRING_SIZE
    (" (#" ++ formatD (castToInt sourceContextId) ++ "." ++
      formatU (GetLocalFunctionId m_data) ++ "), #" ++ formatU body.functionNumber)
  Assert dbg (decide (len > 8))
  pure bufferToWriteTo

end FunctionJITTimeInfo

/-- A node with source context id 3, local function id 12 and function number 99. -/
def sampleDebugNode : FunctionJITTimeDataIDL :=
  .mk { bodyData := some { sourceContextId := 3, functionNumber := 99 }, localFuncId := 12 }
    none none none

/-- A node whose source context id is the largest `uint`. -/
def sampleNoContextNode : FunctionJITTimeDataIDL :=
  .mk { bodyData := some { sourceContextId := 4294967295, functionNumber := 99 }
        localFuncId := 12 } none none none

/-! ## Removing a child context -/

/-- A child table with the entry at `j` made null. -/
def clearSlot {α : Type} : List (Option α) → Nat → List (Option α)
  | [], _ => []
  | _ :: rest, 0 => none :: rest
  | x :: rest, j + 1 => x :: clearSlot rest j

/-- The context with no child at call site `j`. -/
def FunctionCodeGenJitTimeData.withoutInlinee :
    FunctionCodeGenJitTimeData → Nat → FunctionCodeGenJitTimeData
  | .mk f inl ldf nxt, j => .mk f (clearSlot inl j) ldf nxt

/-- The context with no field-access child at inline cache `j`. -/
def FunctionCodeGenJitTimeData.withoutLdFldInlinee :
    FunctionCodeGenJitTimeData → Nat → FunctionCodeGenJitTimeData
  | .mk f inl ldf nxt, j => .mk f inl (clearSlot ldf j) nxt

/-- The node with call-site slot `j` emptied and everything else unchanged. -/
def FunctionJITTimeDataIDL.withoutInlinee :
    FunctionJITTimeDataIDL → Nat → FunctionJITTimeDataIDL
  | .mk d inl ldf nxt, j => .mk d (inl.map (fun arr => clearSlot arr j)) ldf nxt

/-- The node with field-access slot `j` emptied and everything else unchanged. -/
def FunctionJITTimeDataIDL.withoutLdFldInlinee :
    FunctionJITTimeDataIDL → Nat → FunctionJITTimeDataIDL
  | .mk d inl ldf nxt, j => .mk d inl (ldf.map (fun arr => clearSlot arr j)) nxt

/-- A runtime-profiling context with three cloned inline caches. -/
def sampleCachedRuntime : FunctionCodeGenRuntimeData := .mk [] [] none (some [900, 901, 902])

/-- An inlinee whose body has three inline caches and no profile data. -/
def sampleCachedInlinee : FunctionCodeGenJitTimeData :=
  .mk { functionInfo := { addr := 60, localFunctionId := 9, functionBody := some {} }
        bodyData := some { functionBodyAddr := 600, inlineCacheCount := 3 } } [] [] none

/-- The snapshot of `sampleCachedInlinee` built as an inlinee with `sampleCachedRuntime`. -/
def sampleCachedInlineeNode : FunctionJITTimeDataIDL :=
  .mk { bodyData := some { functionBodyAddr := 600, inlineCacheCount := 3 }
        functionInfoAddr := 60, localFuncId := 9
        profiledRuntimeData :=
          some { clonedCacheCount := 3, clonedInlineCaches := some [900, 901, 902] }
        ldFldInlineeCount := 3 }
    none (some [none, none, none]) none

/-- An inlinee with one profiled call site whose candidate is `sampleCallee2`. -/
def sampleInlineeParent : FunctionCodeGenJitTimeData :=
  .mk { functionInfo := { addr := 70, localFunctionId := 10, functionBody := some {} }
        bodyData := some { functionBodyAddr := 700, profiledCallSiteCount := 1 } }
    [some sampleCallee2] [] none

/-- The snapshot of `sampleInlineeParent` built as an inlinee with `sampleInlineeRuntime`. -/
def sampleInlineeParentNode : FunctionJITTimeDataIDL :=
  .mk { bodyData := some { functionBodyAddr := 700, profiledCallSiteCount := 1 }
        functionInfoAddr := 70, localFuncId := 10
        inlineeCount := 1, profiledRuntimeData := some {} }
    (some [some sampleCallee2Node]) none none

/-- A root function with one profiled call site whose candidate is `sampleInlinee` and
whose body records runtime data for the inlinee at that call site. -/
def sampleGuardedRoot : FunctionCodeGenJitTimeData :=
  .mk { functionInfo :=
          { addr := 90, localFunctionId := 12
            functionBody := some { inlineeCodeGenRuntimeData := [some sampleInlineeRuntime] } }
        bodyData := some { functionBodyAddr := 900, profiledCallSiteCount := 1 } }
    [some sampleInlinee] [] none

/-- The snapshot of `sampleGuardedRoot` whose call-site child was built as an inlinee. -/
def sampleGuardedRootNode : FunctionJITTimeDataIDL :=
  .mk { bodyData := some { functionBodyAddr := 900, profiledCallSiteCount := 1 }
        functionInfoAddr := 90, localFuncId := 12
        inlineeCount := 1, profiledRuntimeData := some {} }
    (some [some sampleInlineeNode]) none none

/-! ## Unfolding lemmas -/

theorem bind_eq_ok {α β : Type} (x : Except Fault α) (g : α → Except Fault β) (b : β) :
    (x >>= g) = .ok b ↔ ∃ a, x = .ok a ∧ g a = .ok b := by
  cases x with
  | error e => simp [bind, Except.bind]
  | ok a => simp [bind, Except.bind]

theorem pure_eq_ok {α : Type} (a b : α) : (pure a : Except Fault α) = .ok b ↔ a = b := by
  simp [pure, Except.pure]

theorem deref_eq_ok {α : Type} (o : Option α) (a : α) : deref o = .ok a ↔ o = some a := by
  cases o <;> simp [deref]

theorem Assert_eq_ok (dbg cond : Bool) (u : Unit) :
    Assert dbg cond = .ok u ↔ (dbg = true → cond = true) := by
  cases dbg <;> cases cond <;> simp [Assert]

theorem BuildJITTimeData_eq (dbg dflt : Bool) (codeGenData inl ldf nxt runtimeData isInlinee) :
    BuildJITTimeData dbg dflt (.mk codeGenData inl ldf nxt) runtimeData isInlinee =
    (match codeGenData.functionInfo.functionBody with
    | none => pure (.mk (copyScalars codeGenData) none none none)
    | some functionBody => do
      let (jitData, body) ← beginBody dbg codeGenData functionBody runtimeData isInlinee
      let inlinees ← childArray body.profiledCallSiteCount
        (buildSlots dbg dflt (inlineeRuntimeData isInlinee runtimeData functionBody)
          inl 0 body.profiledCallSiteCount)
      let jitData ← middleBody codeGenData runtimeData isInlinee body jitData
      let ldFldInlinees ← childArray body.inlineCacheCount
        (buildSlots dbg dflt (ldFldInlineeRuntimeData isInlinee runtimeData functionBody)
          ldf 0 body.inlineCacheCount)
      let jitData ← globalBody dbg codeGenData jitData
      let next ← buildNext dbg dflt (nextRuntimeData isInlinee runtimeData functionBody) nxt
      pure (.mk jitData inlinees ldFldInlinees next)) := by
  obtain ⟨⟨addr, lid, fb⟩, bd, ag, isI, wr, bv, ots, gc, ga⟩ := codeGenData
  cases fb <;> rfl

theorem buildNext_none (dbg dflt : Bool) (sel) : buildNext dbg dflt sel none = .ok none := rfl

theorem buildNext_some (dbg dflt : Bool) (sel c) :
    buildNext dbg dflt sel (some c) = (do
      let nextRuntime ← sel
      let nextNode ← BuildJITTimeData dbg dflt c nextRuntime dflt
      pure (some nextNode)) := rfl

theorem buildSlots_zero (dbg dflt : Bool) (sel tbl i) : buildSlots dbg dflt sel tbl i 0 = .ok [] := by
  cases tbl with
  | nil => rfl
  | cons x xs => cases x <;> rfl

theorem buildSlots_nil (dbg dflt : Bool) (sel i k) :
    buildSlots dbg dflt sel [] i (k + 1) = skipSlots sel i (k + 1) := rfl

theorem buildSlots_cons_none (dbg dflt : Bool) (sel rest i k) :
    buildSlots dbg dflt sel (none :: rest) i (k + 1) = (do
      let _ ← sel i
      let others ← buildSlots dbg dflt sel rest (i + 1) k
      pure (none :: others)) := rfl

theorem buildSlots_cons_some (dbg dflt : Bool) (sel c rest i k) :
    buildSlots dbg dflt sel (some c :: rest) i (k + 1) = (do
      let inlineeRuntime ← sel i
      let node ← BuildJITTimeData dbg dflt c inlineeRuntime dflt
      let others ← buildSlots dbg dflt sel rest (i + 1) k
      pure (some node :: others)) := rfl

/-! ## The child loops -/

theorem skipSlots_ok (sel : Nat → Except Fault (Option FunctionCodeGenRuntimeData))
    (k i : Nat) (arr : List (Option FunctionJITTimeDataIDL))
    (h : skipSlots sel i k = .ok arr) : arr = List.replicate k none := by
  induction k generalizing i arr with
  | zero =>
    simp only [skipSlots, pure_eq_ok] at h
    simp [← h]
  | succ k ih =>
    simp only [skipSlots, bind_eq_ok, pure_eq_ok] at h
    obtain ⟨_, _, rest, hrest, rfl⟩ := h
    rw [ih _ _ hrest]
    rfl

theorem slotAt_replicate_none {α : Type} (k j : Nat) :
    slotAt (List.replicate k (none : Option α)) j = none := by
  induction k generalizing j with
  | zero => rfl
  | succ k ih =>
    cases j with
    | zero => rfl
    | succ j => exact ih j

theorem buildSlots_length (dbg dflt : Bool)
    (sel : Nat → Except Fault (Option FunctionCodeGenRuntimeData))
    (tbl : List (Option FunctionCodeGenJitTimeData)) (i k : Nat)
    (arr : List (Option FunctionJITTimeDataIDL))
    (h : buildSlots dbg dflt sel tbl i k = .ok arr) : arr.length = k := by
  induction tbl generalizing i k arr with
  | nil =>
    cases k with
    | zero =>
      rw [buildSlots_zero] at h
      cases h
      rfl
    | succ k =>
      rw [buildSlots_nil] at h
      rw [skipSlots_ok _ _ _ _ h]
      simp
  | cons x rest ih =>
    cases k with
    | zero =>
      rw [buildSlots_zero] at h
      cases h
      rfl
    | succ k =>
      cases x with
      | none =>
        simp only [buildSlots_cons_none, bind_eq_ok, pure_eq_ok] at h
        obtain ⟨_, _, others, hothers, rfl⟩ := h
        simp [ih _ _ _ hothers]
      | some c =>
        simp only [buildSlots_cons_some, bind_eq_ok, pure_eq_ok] at h
        obtain ⟨_, _, node, _, others, hothers, rfl⟩ := h
        simp [ih _ _ _ hothers]

/-- Every candidate found in a built child array was built, with the default of the omitted
`isInlinee` argument, from the child context at the same index and the runtime child
selected there. -/
theorem buildSlots_slotAt (dbg dflt : Bool)
    (sel : Nat → Except Fault (Option FunctionCodeGenRuntimeData))
    (tbl : List (Option FunctionCodeGenJitTimeData)) (i k : Nat)
    (arr : List (Option FunctionJITTimeDataIDL))
    (h : buildSlots dbg dflt sel tbl i k = .ok arr) (j : Nat) (m : FunctionJITTimeDataIDL)
    (hm : slotAt arr j = some m) :
    ∃ c1 rt1, slotAt tbl j = some c1 ∧ sel (i + j) = .ok rt1 ∧
      BuildJITTimeData dbg dflt c1 rt1 dflt = .ok m := by
  induction tbl generalizing i k arr j with
  | nil =>
    cases k with
    | zero =>
      rw [buildSlots_zero] at h
      cases h
      simp [slotAt] at hm
    | succ k =>
      rw [buildSlots_nil] at h
      rw [skipSlots_ok _ _ _ _ h, slotAt_replicate_none] at hm
      cases hm
  | cons x rest ih =>
    cases k with
    | zero =>
      rw [buildSlots_zero] at h
      cases h
      simp [slotAt] at hm
    | succ k =>
      cases x with
      | none =>
        simp only [buildSlots_cons_none, bind_eq_ok, pure_eq_ok] at h
        obtain ⟨_, _, others, hothers, rfl⟩ := h
        cases j with
        | zero => simp [slotAt] at hm
        | succ j =>
          obtain ⟨c1, rt1, h1, h2, h3⟩ := ih _ _ _ hothers j hm
          refine ⟨c1, rt1, h1, ?_, h3⟩
          rw [← h2]
          congr 1
          omega
      | some c =>
        simp only [buildSlots_cons_some, bind_eq_ok, pure_eq_ok] at h
        obtain ⟨rt0, hrt0, node, hnode, others, hothers, rfl⟩ := h
        cases j with
        | zero =>
          simp only [slotAt, Option.some.injEq] at hm
          subst hm
          exact ⟨c, rt0, rfl, hrt0, hnode⟩
        | succ j =>
          obtain ⟨c1, rt1, h1, h2, h3⟩ := ih _ _ _ hothers j hm
          refine ⟨c1, rt1, h1, ?_, h3⟩
          rw [← h2]
          congr 1
          omega

/-! ## The node-local stages -/

theorem take_succ_set {α : Type} (arr : List α) (i : Nat) (key : α) (hi : i < arr.length) :
    (arr.set i key).take (i + 1) = arr.take i ++ [key] := by
  induction arr generalizing i with
  | nil => simp at hi
  | cons x xs ih =>
    cases i with
    | zero => simp
    | succ i =>
      simp only [List.length_cons, Nat.add_lt_add_iff_right] at hi
      simp [ih i hi]

theorem drainSharedGuards_eq (keys : List PropertyId) (i : Nat) (arr : List PropertyId)
    (h : arr.length = i + keys.length) :
    drainSharedGuards keys i arr = arr.take i ++ keys := by
  induction keys generalizing i arr with
  | nil =>
    simp only [drainSharedGuards, List.append_nil]
    rw [List.take_of_length_le]
    simp at h
    omega
  | cons key rest ih =>
    simp only [drainSharedGuards]
    simp only [List.length_cons] at h
    rw [ih (i + 1) (arr.set i key) (by simp; omega)]
    have hi : i < arr.length := by omega
    rw [take_succ_set arr i key hi]
    simp

theorem drainSharedGuards_replicate (keys : List PropertyId) :
    drainSharedGuards keys 0 (List.replicate keys.length 0) = keys := by
  rw [drainSharedGuards_eq _ _ _ (by simp)]
  simp

/-- What the profile capture changes: the profile slot of the body and, for an inlinee
with profile data, the call-count address and the guard set. -/
theorem captureProfileData_ok (dbg : Bool) (fb : FunctionBody) (f : Bool)
    (jd jd0 : JITTimeDataFields) (h : captureProfileData dbg fb f jd = .ok jd0) :
    jd0 = { jd with
      bodyData := jd0.bodyData
      callsCountAddress := jd0.callsCountAddress
      sharedPropGuardCount := jd0.sharedPropGuardCount
      sharedPropertyGuards := jd0.sharedPropertyGuards } ∧
    (∀ body, jd0.bodyData = some body →
      ∃ b0, jd.bodyData = some b0 ∧ body = { b0 with profileData := body.profileData }) ∧
    (f = false ∨ fb.dynamicProfileInfo = none →
      jd0.callsCountAddress = jd.callsCountAddress ∧
      jd0.sharedPropGuardCount = jd.sharedPropGuardCount ∧
      jd0.sharedPropertyGuards = jd.sharedPropertyGuards) ∧
    (f = true → fb.dynamicProfileInfo.isSome = true →
      jd0.callsCountAddress = fb.defaultEntryPointInfo.callsCountAddr ∧
      (∀ keys, fb.defaultEntryPointInfo.sharedPropertyGuards = some keys →
        jd0.sharedPropGuardCount = keys.length ∧ jd0.sharedPropertyGuards = some keys) ∧
      (fb.defaultEntryPointInfo.sharedPropertyGuards = none →
        jd0.sharedPropGuardCount = jd.sharedPropGuardCount ∧
        jd0.sharedPropertyGuards = jd.sharedPropertyGuards)) := by
  unfold captureProfileData at h
  cases hp : fb.dynamicProfileInfo with
  | none =>
    simp only [hp] at h
    cases h
    refine ⟨rfl, fun body hb => ⟨body, hb, rfl⟩, fun _ => ⟨rfl, rfl, rfl⟩, ?_⟩
    intro _ hsome
    simp at hsome
  | some profile =>
    simp only [hp, bind_eq_ok, deref_eq_ok] at h
    obtain ⟨_, _, b0, hb0, h⟩ := h
    cases f with
    | false =>
      simp only [Bool.false_eq_true, if_false, pure_eq_ok] at h
      subst h
      simp [hb0]
    | true =>
      simp only [if_true, bind_eq_ok] at h
      obtain ⟨_, _, h⟩ := h
      cases hg : fb.defaultEntryPointInfo.sharedPropertyGuards with
      | none =>
        simp only [hg, pure_eq_ok] at h
        subst h
        simp [hb0]
      | some keys =>
        simp only [hg, pure_eq_ok, drainSharedGuards_replicate] at h
        subst h
        simp [hb0]

theorem beginBody_ok (dbg : Bool) (cg : CodeGenFields) (fb : FunctionBody)
    (rt : Option FunctionCodeGenRuntimeData) (f : Bool) (jd : JITTimeDataFields)
    (body : FunctionBodyDataIDL) (h : beginBody dbg cg fb rt f = .ok (jd, body)) :
    (dbg = true → f = rt.isSome) ∧
    ∃ jd0, captureProfileData dbg fb f (copyScalars cg) = .ok jd0 ∧
      jd0.bodyData = some body ∧
      jd = { jd0 with inlineeCount := body.profiledCallSiteCount } := by
  unfold beginBody at h
  simp only [bind_eq_ok, Assert_eq_ok, deref_eq_ok] at h
  obtain ⟨_, hassert, jd0, hjd0, b, hb, h⟩ := h
  refine ⟨by simpa using hassert, jd0, hjd0, ?_⟩
  have hz : jd0.inlineeCount = 0 := by
    have := (captureProfileData_ok _ _ _ _ _ hjd0).1
    rw [this]
    rfl
  by_cases hpos : 0 < b.profiledCallSiteCount
  · simp only [hpos, if_true, pure_eq_ok, Prod.mk.injEq] at h
    obtain ⟨h1, h2⟩ := h
    subst h2
    exact ⟨hb, h1.symm⟩
  · simp only [hpos, if_false, pure_eq_ok, Prod.mk.injEq] at h
    obtain ⟨h1, h2⟩ := h
    subst h2
    subst h1
    refine ⟨hb, ?_⟩
    have : b.profiledCallSiteCount = 0 := by omega
    rw [this, ← hz]

theorem middleBody_ok (cg : CodeGenFields) (rt : Option FunctionCodeGenRuntimeData)
    (f : Bool) (body : FunctionBodyDataIDL) (jd jd1 : JITTimeDataFields)
    (hz : jd.ldFldInlineeCount = 0)
    (h : middleBody cg rt f body jd = .ok jd1) :
    ∃ ri otsCount otsArray, buildRuntimeInfo f rt body = .ok ri ∧
      jd1 = { jd with
        profiledRuntimeData := some ri
        ldFldInlineeCount := body.inlineCacheCount
        objTypeSpecFldInfoCount := otsCount
        objTypeSpecFldInfoArray := otsArray } := by
  unfold middleBody at h
  simp only [bind_eq_ok] at h
  obtain ⟨ri, hri, h⟩ := h
  by_cases hpos : 0 < body.inlineCacheCount
  · simp only [hpos, if_true] at h
    cases ho : cg.objTypeSpecFldInfoArray with
    | none =>
      simp only [ho, pure_eq_ok] at h
      exact ⟨ri, _, _, hri, h.symm⟩
    | some arr =>
      simp only [ho, pure_eq_ok] at h
      exact ⟨ri, _, _, hri, h.symm⟩
  · simp only [hpos, if_false, pure_eq_ok] at h
    subst h
    have : body.inlineCacheCount = 0 := by omega
    refine ⟨ri, jd.objTypeSpecFldInfoCount, jd.objTypeSpecFldInfoArray, hri, ?_⟩
    rw [this, ← hz]

theorem globalBody_ok (dbg : Bool) (cg : CodeGenFields) (jd jd2 : JITTimeDataFields)
    (h : globalBody dbg cg jd = .ok jd2) :
    ∃ globCount globArray, jd2 = { jd with
      globalObjTypeSpecFldInfoCount := globCount
      globalObjTypeSpecFldInfoArray := globArray } := by
  unfold globalBody at h
  by_cases hpos : 0 < cg.globalObjTypeSpecFldInfoCount
  · simp only [hpos, if_true, bind_eq_ok, pure_eq_ok] at h
    obtain ⟨_, _, h⟩ := h
    exact ⟨_, _, h.symm⟩
  · simp only [hpos, if_false, pure_eq_ok] at h
    subst h
    exact ⟨_, _, rfl⟩

theorem childArray_ok (count : Nat)
    (loop : Except Fault (List (Option FunctionJITTimeDataIDL)))
    (res : Option (List (Option FunctionJITTimeDataIDL)))
    (h : childArray count loop = .ok res) :
    (count = 0 ∧ res = none) ∨ (0 < count ∧ ∃ arr, loop = .ok arr ∧ res = some arr) := by
  unfold childArray at h
  by_cases hpos : 0 < count
  · simp only [hpos, if_true, bind_eq_ok, pure_eq_ok] at h
    obtain ⟨arr, harr, rfl⟩ := h
    exact Or.inr ⟨hpos, arr, harr, rfl⟩
  · simp only [hpos, if_false, pure_eq_ok] at h
    exact Or.inl ⟨by omega, h.symm⟩

/-! ## Shape of a built node -/

theorem BuildJITTimeData_nobody (dbg dflt : Bool) (cg : CodeGenFields)
    (inl ldf : List (Option FunctionCodeGenJitTimeData))
    (nxt : Option FunctionCodeGenJitTimeData) (rt : Option FunctionCodeGenRuntimeData)
    (f : Bool) (hb : cg.functionInfo.functionBody = none) :
    BuildJITTimeData dbg dflt (.mk cg inl ldf nxt) rt f =
      .ok (.mk (copyScalars cg) none none none) := by
  rw [BuildJITTimeData_eq]
  simp only [hb]
  rfl

/-- The stages of a successful build of a function with a body. -/
theorem BuildJITTimeData_body (dbg dflt : Bool) (cg : CodeGenFields)
    (inl ldf : List (Option FunctionCodeGenJitTimeData))
    (nxt : Option FunctionCodeGenJitTimeData) (rt : Option FunctionCodeGenRuntimeData)
    (f : Bool) (n : FunctionJITTimeDataIDL) (fb : FunctionBody)
    (h : BuildJITTimeData dbg dflt (.mk cg inl ldf nxt) rt f = .ok n)
    (hb : cg.functionInfo.functionBody = some fb) :
    ∃ jd0 body ri otsCount otsArray globCount globArray,
      (dbg = true → f = rt.isSome) ∧
      captureProfileData dbg fb f (copyScalars cg) = .ok jd0 ∧
      jd0.bodyData = some body ∧
      buildRuntimeInfo f rt body = .ok ri ∧
      n.data = { jd0 with
        inlineeCount := body.profiledCallSiteCount
        profiledRuntimeData := some ri
        ldFldInlineeCount := body.inlineCacheCount
        objTypeSpecFldInfoCount := otsCount
        objTypeSpecFldInfoArray := otsArray
        globalObjTypeSpecFldInfoCount := globCount
        globalObjTypeSpecFldInfoArray := globArray } ∧
      childArray body.profiledCallSiteCount
        (buildSlots dbg dflt (inlineeRuntimeData f rt fb) inl 0 body.profiledCallSiteCount)
        = .ok n.inlinees ∧
      childArray body.inlineCacheCount
        (buildSlots dbg dflt (ldFldInlineeRuntimeData f rt fb) ldf 0 body.inlineCacheCount)
        = .ok n.ldFldInlinees ∧
      buildNext dbg dflt (nextRuntimeData f rt fb) nxt = .ok n.next := by
  rw [BuildJITTimeData_eq] at h
  simp only [hb, bind_eq_ok, pure_eq_ok] at h
  obtain ⟨⟨jd, body⟩, hbegin, inlinees, hinl, jd1, hmid, ldFld, hldf, jd2, hglob, next, hnext, rfl⟩ := h
  obtain ⟨hassert, jd0, hcap, hbody, hjd⟩ := beginBody_ok _ _ _ _ _ _ _ hbegin
  have hz : jd.ldFldInlineeCount = 0 := by
    rw [hjd, (captureProfileData_ok _ _ _ _ _ hcap).1]
    rfl
  obtain ⟨ri, otsCount, otsArray, hri, hjd1⟩ := middleBody_ok _ _ _ _ _ _ hz hmid
  obtain ⟨globCount, globArray, hjd2⟩ := globalBody_ok _ _ _ _ hglob
  refine ⟨jd0, body, ri, otsCount, otsArray, globCount, globArray, hassert, hcap, hbody, hri,
    ?_, hinl, hldf, hnext⟩
  show jd2 = _
  rw [hjd2, hjd1, hjd]

/-- Every child of a built node was itself built, with the default of the omitted
`isInlinee` argument, from the source context's child along the same edge. -/
theorem BuildJITTimeData_child (dbg dflt : Bool) (c : FunctionCodeGenJitTimeData)
    (rt : Option FunctionCodeGenRuntimeData) (f : Bool) (n m : FunctionJITTimeDataIDL)
    (h : BuildJITTimeData dbg dflt c rt f = .ok n) (e : Edge) (hm : n.child e = some m) :
    ∃ c1 rt1, c.child e = some c1 ∧ BuildJITTimeData dbg dflt c1 rt1 dflt = .ok m := by
  obtain ⟨cg, inl, ldf, nxt⟩ := c
  cases hb : cg.functionInfo.functionBody with
  | none =>
    rw [BuildJITTimeData_nobody _ _ _ _ _ _ _ _ hb] at h
    cases h
    cases e <;> simp [FunctionJITTimeDataIDL.child, arraySlot,
      FunctionJITTimeDataIDL.inlinees, FunctionJITTimeDataIDL.ldFldInlinees,
      FunctionJITTimeDataIDL.next] at hm
  | some fb =>
    obtain ⟨jd0, body, ri, -, -, -, -, -, -, -, -, -, hinl, hldf, hnext⟩ :=
      BuildJITTimeData_body _ _ _ _ _ _ _ _ _ _ h hb
    cases e with
    | callSite i =>
      simp only [FunctionJITTimeDataIDL.child] at hm
      rcases childArray_ok _ _ _ hinl with ⟨-, hnone⟩ | ⟨-, arr, harr, hsome⟩
      · rw [hnone] at hm
        simp [arraySlot] at hm
      · rw [hsome] at hm
        obtain ⟨c1, rt1, h1, -, h3⟩ := buildSlots_slotAt _ _ _ _ _ _ _ harr i m hm
        exact ⟨c1, rt1, h1, h3⟩
    | ldFld i =>
      simp only [FunctionJITTimeDataIDL.child] at hm
      rcases childArray_ok _ _ _ hldf with ⟨-, hnone⟩ | ⟨-, arr, harr, hsome⟩
      · rw [hnone] at hm
        simp [arraySlot] at hm
      · rw [hsome] at hm
        obtain ⟨c1, rt1, h1, -, h3⟩ := buildSlots_slotAt _ _ _ _ _ _ _ harr i m hm
        exact ⟨c1, rt1, h1, h3⟩
    | next =>
      simp only [FunctionJITTimeDataIDL.child] at hm
      cases nxt with
      | none =>
        rw [buildNext_none] at hnext
        simp only [Except.ok.injEq] at hnext
        rw [← hnext] at hm
        cases hm
      | some c1 =>
        simp only [buildNext_some, bind_eq_ok, pure_eq_ok] at hnext
        obtain ⟨rt1, -, node, hnode, heq⟩ := hnext
        rw [← heq] at hm
        cases hm
        exact ⟨c1, rt1, rfl, hnode⟩

/-- Every node of a built tree was itself built from the source context at the same
position; below the root the build ran with the default of the omitted `isInlinee`
argument. -/
theorem BuildJITTimeData_follow (dbg dflt : Bool) (path : List Edge)
    (c : FunctionCodeGenJitTimeData) (rt : Option FunctionCodeGenRuntimeData) (f : Bool)
    (root m : FunctionJITTimeDataIDL)
    (h : BuildJITTimeData dbg dflt c rt f = .ok root) (hm : root.follow path = some m) :
    ∃ c1 rt1 f1, c.follow path = some c1 ∧ BuildJITTimeData dbg dflt c1 rt1 f1 = .ok m ∧
      (path = [] → c1 = c ∧ rt1 = rt ∧ f1 = f) ∧ (path ≠ [] → f1 = dflt) := by
  induction path generalizing c rt f root with
  | nil =>
    simp only [FunctionJITTimeDataIDL.follow, Option.some.injEq] at hm
    subst hm
    exact ⟨c, rt, f, rfl, h, fun _ => ⟨rfl, rfl, rfl⟩, fun hne => absurd rfl hne⟩
  | cons e path ih =>
    simp only [FunctionJITTimeDataIDL.follow] at hm
    cases hc : root.child e with
    | none => simp [hc] at hm
    | some m1 =>
      simp only [hc] at hm
      obtain ⟨c1, rt1, hc1, hb1⟩ := BuildJITTimeData_child _ _ _ _ _ _ _ h e hc
      obtain ⟨c2, rt2, f2, hc2, hb2, hroot, hne⟩ := ih c1 rt1 dflt m1 hb1 hm
      refine ⟨c2, rt2, f2, ?_, hb2, ?_, fun _ => ?_⟩
      · simp only [FunctionCodeGenJitTimeData.follow, hc1]
        exact hc2
      · intro hnil
        exact absurd hnil (List.cons_ne_nil e path)
      · by_cases hp : path = []
        · exact (hroot hp).2.2
        · exact hne hp

/-! ## Scalars and chains -/

/-- The scalar fields copied by lines 20-28 survive every later stage. -/
theorem BuildJITTimeData_scalars (dbg dflt : Bool) (c : FunctionCodeGenJitTimeData)
    (rt : Option FunctionCodeGenRuntimeData) (f : Bool) (n : FunctionJITTimeDataIDL)
    (h : BuildJITTimeData dbg dflt c rt f = .ok n) :
    n.data.functionInfoAddr = c.GetFunctionInfo.addr ∧
    n.data.localFuncId = c.GetFunctionInfo.localFunctionId ∧
    n.data.isAggressiveInliningEnabled = c.fields.isAggressiveInliningEnabled ∧
    n.data.isInlined = c.fields.isInlined ∧
    n.data.weakFuncRef = c.fields.weakFuncRef ∧
    n.data.inlineesBv = c.fields.inlineesBv ∧
    n.data.bodyData.isSome = c.GetJITBody.isSome := by
  obtain ⟨cg, inl, ldf, nxt⟩ := c
  cases hfb : cg.functionInfo.functionBody with
  | none =>
    rw [BuildJITTimeData_nobody _ _ _ _ _ _ _ _ hfb] at h
    simp only [Except.ok.injEq] at h
    subst h
    exact ⟨rfl, rfl, rfl, rfl, rfl, rfl, rfl⟩
  | some fb =>
    obtain ⟨jd0, body, ri, _, _, _, _, -, hcap, hbd, -, hdata, -, -, -⟩ :=
      BuildJITTimeData_body _ _ _ _ _ _ _ _ _ _ h hfb
    obtain ⟨hsame, hbody, -, -⟩ := captureProfileData_ok _ _ _ _ _ hcap
    obtain ⟨b0, hb0, -⟩ := hbody body hbd
    rw [hdata]
    refine ⟨?_, ?_, ?_, ?_, ?_, ?_, ?_⟩
    · show jd0.functionInfoAddr = _
      rw [hsame]
      rfl
    · show jd0.localFuncId = _
      rw [hsame]
      rfl
    · show jd0.isAggressiveInliningEnabled = _
      rw [hsame]
      rfl
    · show jd0.isInlined = _
      rw [hsame]
      rfl
    · show jd0.weakFuncRef = _
      rw [hsame]
      rfl
    · show jd0.inlineesBv = _
      rw [hsame]
      rfl
    · show jd0.bodyData.isSome = _
      rw [hbd]
      show _ = Option.isSome cg.bodyData
      have : cg.bodyData = some b0 := hb0
      rw [this]
      rfl

/-- The polymorphic successor of a built node: built from the source's next candidate when
the function has a body, absent otherwise. -/
theorem BuildJITTimeData_next (dbg dflt : Bool) (c : FunctionCodeGenJitTimeData)
    (rt : Option FunctionCodeGenRuntimeData) (f : Bool) (n : FunctionJITTimeDataIDL)
    (h : BuildJITTimeData dbg dflt c rt f = .ok n) :
    (c.GetFunctionInfo.HasBody = false → n.next = none) ∧
    (c.GetNext = none → n.next = none) ∧
    (c.GetFunctionInfo.HasBody = true → ∀ c1, c.GetNext = some c1 →
      ∃ rt1 m, n.next = some m ∧ BuildJITTimeData dbg dflt c1 rt1 dflt = .ok m) := by
  obtain ⟨cg, inl, ldf, nxt⟩ := c
  cases hfb : cg.functionInfo.functionBody with
  | none =>
    rw [BuildJITTimeData_nobody _ _ _ _ _ _ _ _ hfb] at h
    simp only [Except.ok.injEq] at h
    subst h
    refine ⟨fun _ => rfl, fun _ => rfl, fun hbody => ?_⟩
    simp [FunctionCodeGenJitTimeData.GetFunctionInfo, FunctionCodeGenJitTimeData.fields,
      FunctionInfo.HasBody, hfb] at hbody
  | some fb =>
    obtain ⟨jd0, body, ri, _, _, _, _, -, -, -, -, -, -, -, hnext⟩ :=
      BuildJITTimeData_body _ _ _ _ _ _ _ _ _ _ h hfb
    refine ⟨fun hbody => ?_, fun hnone => ?_, fun _ c1 hc1 => ?_⟩
    · simp [FunctionCodeGenJitTimeData.GetFunctionInfo, FunctionCodeGenJitTimeData.fields,
        FunctionInfo.HasBody, hfb] at hbody
    · simp only [FunctionCodeGenJitTimeData.GetNext] at hnone
      subst hnone
      rw [buildNext_none] at hnext
      simp only [Except.ok.injEq] at hnext
      exact hnext.symm
    · simp only [FunctionCodeGenJitTimeData.GetNext] at hc1
      subst hc1
      simp only [buildNext_some, bind_eq_ok, pure_eq_ok] at hnext
      obtain ⟨rt1, -, m, hm, heq⟩ := hnext
      exact ⟨rt1, m, heq.symm, hm⟩

theorem FunctionJITTimeDataIDL.chain_cons (n : FunctionJITTimeDataIDL) :
    n.chain = n :: (match n.next with
      | none => []
      | some m => m.chain) := by
  obtain ⟨d, inl, ldf, nxt⟩ := n
  cases nxt <;> rfl

theorem FunctionCodeGenJitTimeData.chain_eq (c : FunctionCodeGenJitTimeData) :
    c.chain = c :: (match c.GetNext with
      | none => []
      | some c1 => c1.chain) := by
  obtain ⟨d, inl, ldf, nxt⟩ := c
  cases nxt <;> rfl

theorem FunctionCodeGenJitTimeData.chainToBodiless_eq (c : FunctionCodeGenJitTimeData) :
    c.chainToBodiless = c :: (match c.GetNext with
      | none => []
      | some c1 => if c.GetFunctionInfo.HasBody then c1.chainToBodiless else []) := by
  obtain ⟨d, inl, ldf, nxt⟩ := c
  cases nxt with
  | none => rfl
  | some c1 =>
    simp only [chainToBodiless, GetNext, GetFunctionInfo, fields]
    split <;> rfl

/-- The chain of a built node carries the identity addresses of the source chain, candidate
by candidate, up to and including the first candidate without a body. -/
theorem BuildJITTimeData_chain (dbg dflt : Bool) (l : List FunctionJITTimeDataIDL) :
    ∀ (n : FunctionJITTimeDataIDL) (c : FunctionCodeGenJitTimeData)
      (rt : Option FunctionCodeGenRuntimeData) (f : Bool),
      n.chain = l → BuildJITTimeData dbg dflt c rt f = .ok n →
      l.map FunctionJITTimeInfo.GetFunctionInfoAddr =
        c.chainToBodiless.map (fun x => x.GetFunctionInfo.addr) := by
  induction l with
  | nil =>
    intro n c rt f hl _
    rw [FunctionJITTimeDataIDL.chain_cons] at hl
    cases hl
  | cons x rest ih =>
    intro n c rt f hl h
    rw [FunctionJITTimeDataIDL.chain_cons] at hl
    simp only [List.cons.injEq] at hl
    obtain ⟨hx, hrest⟩ := hl
    subst hx
    obtain ⟨hnobody, hnonext, hsucc⟩ := BuildJITTimeData_next _ _ _ _ _ _ h
    have haddr := (BuildJITTimeData_scalars _ _ _ _ _ _ h).1
    rw [FunctionCodeGenJitTimeData.chainToBodiless_eq]
    simp only [List.map_cons, List.cons.injEq]
    refine ⟨haddr, ?_⟩
    cases hc : c.GetNext with
    | none =>
      rw [hnonext hc] at hrest
      simp [← hrest]
    | some c1 =>
      cases hbody : c.GetFunctionInfo.HasBody with
      | false =>
        rw [hnobody hbody] at hrest
        simp [← hrest]
      | true =>
        obtain ⟨rt1, m, hm, hbuilt⟩ := hsucc hbody c1 hc
        rw [hm] at hrest
        simp only [if_true]
        exact ih m c1 rt1 dflt hrest hbuilt

theorem FunctionCodeGenJitTimeData.chainToBodiless_eq_chain :
    ∀ (l : List FunctionCodeGenJitTimeData) (c : FunctionCodeGenJitTimeData), c.chain = l →
      (∀ x ∈ l.dropLast, x.GetFunctionInfo.HasBody = true) → c.chainToBodiless = l := by
  intro l
  induction l with
  | nil =>
    intro c hl _
    rw [chain_eq] at hl
    cases hl
  | cons x rest ih =>
    intro c hl hall
    rw [chain_eq] at hl
    simp only [List.cons.injEq] at hl
    obtain ⟨hx, hrest⟩ := hl
    subst hx
    rw [chainToBodiless_eq]
    cases hc : c.GetNext with
    | none =>
      rw [hc] at hrest
      simp [← hrest]
    | some c1 =>
      rw [hc] at hrest
      simp only at hrest
      simp only [List.cons.injEq, true_and]
      have hne : rest ≠ [] := by
        rw [← hrest, chain_eq]
        exact List.cons_ne_nil _ _
      obtain ⟨y, ys, hys⟩ := List.exists_cons_of_ne_nil hne
      have hcbody : c.GetFunctionInfo.HasBody = true := by
        apply hall
        rw [hys]
        simp [List.dropLast]
      rw [hcbody]
      simp only [if_true]
      apply ih c1 hrest
      intro z hz
      apply hall
      rw [hys]
      rw [hys] at hz
      simp only [List.dropLast_cons₂, List.mem_cons]
      exact Or.inr hz

/-! ## Counts and structural lookups on built nodes -/

theorem readAt_eq_slotAt {α : Type} (arr : List (Option α)) (i : Nat) (hi : i < arr.length) :
    readAt arr i = .ok (slotAt arr i) := by
  induction arr generalizing i with
  | nil => simp at hi
  | cons x xs ih =>
    cases i with
    | zero => rfl
    | succ i =>
      simp only [List.length_cons, Nat.add_lt_add_iff_right] at hi
      exact ih i hi

theorem AssertM_eq_ok (dbg : Bool) (cond : Except Fault Bool) (u : Unit) :
    AssertM dbg cond = .ok u ↔ (dbg = true → cond = .ok true) := by
  cases dbg with
  | false => simp [AssertM, pure, Except.pure]
  | true =>
    cases cond with
    | error e => simp [AssertM, bind, Except.bind]
    | ok b => cases b <;> simp [AssertM, bind, Except.bind, pure, Except.pure]

/-- The counts and array sizes recorded by one successful build. -/
theorem BuildJITTimeData_counts (dbg dflt : Bool) (c : FunctionCodeGenJitTimeData)
    (rt : Option FunctionCodeGenRuntimeData) (f : Bool) (m : FunctionJITTimeDataIDL)
    (h : BuildJITTimeData dbg dflt c rt f = .ok m) :
    (c.GetFunctionInfo.HasBody = true →
      ∃ body jitBody, FunctionJITTimeInfo.GetBody m = some body ∧
        c.GetJITBody = some jitBody ∧
        body.profiledCallSiteCount = jitBody.profiledCallSiteCount ∧
        body.inlineCacheCount = jitBody.inlineCacheCount ∧
        m.data.inlineeCount = body.profiledCallSiteCount ∧
        slotCount m.inlinees = body.profiledCallSiteCount ∧
        m.data.ldFldInlineeCount = body.inlineCacheCount ∧
        slotCount m.ldFldInlinees = body.inlineCacheCount) ∧
    (c.GetFunctionInfo.HasBody = false →
      m.data.inlineeCount = 0 ∧ m.inlinees = none ∧
      m.data.ldFldInlineeCount = 0 ∧ m.ldFldInlinees = none) := by
  obtain ⟨cg, inl, ldf, nxt⟩ := c
  cases hfb : cg.functionInfo.functionBody with
  | none =>
    rw [BuildJITTimeData_nobody _ _ _ _ _ _ _ _ hfb] at h
    simp only [Except.ok.injEq] at h
    subst h
    refine ⟨fun hbody => ?_, fun _ => ⟨rfl, rfl, rfl, rfl⟩⟩
    simp [FunctionCodeGenJitTimeData.GetFunctionInfo, FunctionCodeGenJitTimeData.fields,
      FunctionInfo.HasBody, hfb] at hbody
  | some fb =>
    refine ⟨fun _ => ?_, fun hbody => ?_⟩
    · obtain ⟨jd0, body, ri, _, _, _, _, -, hcap, hbd, -, hdata, hinl, hldf, -⟩ :=
        BuildJITTimeData_body _ _ _ _ _ _ _ _ _ _ h hfb
      obtain ⟨b0, hb0, hbeq⟩ := (captureProfileData_ok _ _ _ _ _ hcap).2.1 body hbd
      refine ⟨body, b0, ?_, hb0, ?_, ?_, ?_, ?_, ?_, ?_⟩
      · simp [FunctionJITTimeInfo.GetBody, hdata, hbd]
      · rw [hbeq]
      · rw [hbeq]
      · rw [hdata]
      · rcases childArray_ok _ _ _ hinl with ⟨hz, hnone⟩ | ⟨-, arr, harr, hsome⟩
        · rw [hnone, hz]
          rfl
        · rw [hsome]
          exact buildSlots_length _ _ _ _ _ _ _ harr
      · rw [hdata]
      · rcases childArray_ok _ _ _ hldf with ⟨hz, hnone⟩ | ⟨-, arr, harr, hsome⟩
        · rw [hnone, hz]
          rfl
        · rw [hsome]
          exact buildSlots_length _ _ _ _ _ _ _ harr
    · simp [FunctionCodeGenJitTimeData.GetFunctionInfo, FunctionCodeGenJitTimeData.fields,
        FunctionInfo.HasBody, hfb] at hbody

/-- On a built node with a body, an in-range `GetInlinee(i)` passes both assertions and
returns the content of slot `i`. -/
theorem GetInlinee_built (dbg dflt : Bool) (c : FunctionCodeGenJitTimeData)
    (rt : Option FunctionCodeGenRuntimeData) (f : Bool) (n : FunctionJITTimeDataIDL)
    (h : BuildJITTimeData dbg dflt c rt f = .ok n) (dbg1 : Bool) (body : FunctionBodyDataIDL)
    (hbody : FunctionJITTimeInfo.GetBody n = some body) (i : Nat)
    (hi : i < body.profiledCallSiteCount) :
    FunctionJITTimeInfo.GetInlinee dbg1 n i = .ok (arraySlot n.inlinees i) := by
  have hassert : AssertM dbg1 (do
      let body ← deref n.data.bodyData
      pure (decide (i < body.profiledCallSiteCount))) = .ok () := by
    rw [AssertM_eq_ok]
    intro _
    have : n.data.bodyData = some body := hbody
    rw [this]
    simp [deref, bind, Except.bind, pure, Except.pure, hi]
  unfold FunctionJITTimeInfo.GetInlinee
  rw [hassert]
  obtain ⟨hhas, hno⟩ := BuildJITTimeData_counts _ _ _ _ _ _ h
  cases hb : c.GetFunctionInfo.HasBody with
  | false =>
    obtain ⟨-, hinl, -, -⟩ := hno hb
    simp [hinl, arraySlot, bind, Except.bind, pure, Except.pure]
  | true =>
    obtain ⟨body1, -, hbody1, -, -, -, hcount, hslots, -, -⟩ := hhas hb
    rw [hbody] at hbody1
    simp only [Option.some.injEq] at hbody1
    subst hbody1
    cases hinl : n.inlinees with
    | none =>
      simp [arraySlot, bind, Except.bind, pure, Except.pure]
    | some arr =>
      rw [hinl] at hslots
      simp only [slotCount] at hslots
      have hassert2 : Assert dbg1 (decide (i < n.data.inlineeCount)) = .ok () := by
        rw [Assert_eq_ok]
        intro _
        simp [hcount, hi]
      simp only [bind, Except.bind, hassert2, arraySlot]
      exact readAt_eq_slotAt arr i (by omega)

/-- In a built tree a node without a body ends its chain. -/
theorem BuildJITTimeData_bodiless_last (dbg dflt : Bool) (c : FunctionCodeGenJitTimeData)
    (rt : Option FunctionCodeGenRuntimeData) (f : Bool) (n : FunctionJITTimeDataIDL)
    (h : BuildJITTimeData dbg dflt c rt f = .ok n)
    (hnone : FunctionJITTimeInfo.GetBody n = none) : n.next = none := by
  cases hb : c.GetFunctionInfo.HasBody with
  | false => exact (BuildJITTimeData_next _ _ _ _ _ _ h).1 hb
  | true =>
    obtain ⟨body, -, hbody, -⟩ := (BuildJITTimeData_counts _ _ _ _ _ _ h).1 hb
    rw [hnone] at hbody
    cases hbody

theorem targetScan_eq (n : FunctionJITTimeDataIDL) (t : intptr_t) :
    FunctionJITTimeInfo.targetScan n t = (do
      let body ← deref n.data.bodyData
      if body.functionBodyAddr ≠ t then
        match n.next with
        | none => .error .nullDeref
        | some successor => FunctionJITTimeInfo.targetScan successor t
      else pure n.data.profiledRuntimeData) := by
  obtain ⟨d, inl, ldf, nxt⟩ := n
  cases nxt <;> rfl

/-- The address scan over the chain of a built node: the runtime info of the first
candidate whose body address is the target, a null dereference when there is none. -/
theorem targetScan_built (dbg dflt : Bool) (t : intptr_t) (l : List FunctionJITTimeDataIDL) :
    ∀ (n : FunctionJITTimeDataIDL) (c : FunctionCodeGenJitTimeData)
      (rt : Option FunctionCodeGenRuntimeData) (f : Bool),
      n.chain = l → BuildJITTimeData dbg dflt c rt f = .ok n →
      FunctionJITTimeInfo.targetScan n t =
        match l.find? (fun m => decide (bodyAddr m = some t)) with
        | some m => .ok (FunctionJITTimeInfo.GetRuntimeInfo m)
        | none => .error .nullDeref := by
  induction l with
  | nil =>
    intro n c rt f hl _
    rw [FunctionJITTimeDataIDL.chain_cons] at hl
    cases hl
  | cons x rest ih =>
    intro n c rt f hl h
    rw [FunctionJITTimeDataIDL.chain_cons] at hl
    simp only [List.cons.injEq] at hl
    obtain ⟨hx, hrest⟩ := hl
    subst hx
    rw [targetScan_eq, List.find?_cons]
    cases hbd : n.data.bodyData with
    | none =>
      have hlast := BuildJITTimeData_bodiless_last _ _ _ _ _ _ h hbd
      rw [hlast] at hrest
      simp [← hrest, bodyAddr, FunctionJITTimeInfo.GetBody, hbd, deref, bind, Except.bind]
    | some body =>
      by_cases ha : body.functionBodyAddr = t
      · simp [bodyAddr, FunctionJITTimeInfo.GetBody, hbd, deref, bind, Except.bind, ha,
          pure, Except.pure, FunctionJITTimeInfo.GetRuntimeInfo]
      · simp only [bodyAddr, FunctionJITTimeInfo.GetBody, hbd, deref, bind, Except.bind, ne_eq,
          ha, not_false_eq_true, if_true, Option.map_some', Option.some.injEq, decide_False]
        cases hn : n.next with
        | none =>
          rw [hn] at hrest
          simp [← hrest]
        | some m =>
          rw [hn] at hrest
          obtain ⟨c1, rt1, -, hb1⟩ := BuildJITTimeData_child _ _ _ _ _ _ _ h .next hn
          exact ih m c1 rt1 dflt hrest hb1

/-! ## The guard scan -/

theorem readAt_eq {α : Type} (arr : List α) (i : Nat) :
    readAt arr i = if h : i < arr.length then .ok (arr.get ⟨i, h⟩) else .error .outOfBounds := by
  induction arr generalizing i with
  | nil => simp [readAt]
  | cons x xs ih =>
    cases i with
    | zero => simp [readAt]
    | succ i =>
      simp only [readAt, ih, List.length_cons, Nat.add_lt_add_iff_right]
      split <;> simp

theorem guardScan_none (id : PropertyId) (i k : Nat) :
    FunctionJITTimeInfo.guardScan none id i k ≠ .ok true := by
  cases k with
  | zero => simp [FunctionJITTimeInfo.guardScan, pure, Except.pure]
  | succ k => simp [FunctionJITTimeInfo.guardScan, deref, bind, Except.bind]

theorem guardScan_some (arr : List PropertyId) (id : PropertyId) (k : Nat) :
    ∀ i : Nat,
      (FunctionJITTimeInfo.guardScan (some arr) id i k = .ok true ↔
        id ∈ (arr.drop i).take k) ∧
      (i + k ≤ arr.length →
        FunctionJITTimeInfo.guardScan (some arr) id i k =
          .ok (decide (id ∈ (arr.drop i).take k))) := by
  induction k with
  | zero =>
    intro i
    simp [FunctionJITTimeInfo.guardScan, pure, Except.pure]
  | succ k ih =>
    intro i
    simp only [FunctionJITTimeInfo.guardScan, deref, bind, Except.bind, readAt_eq]
    by_cases hi : i < arr.length
    · rw [List.drop_eq_getElem_cons hi]
      simp only [hi, dite_true, List.get_eq_getElem, List.take_succ_cons, List.mem_cons]
      by_cases hg : arr[i] = id
      · simp [hg, pure, Except.pure]
      · have hne : ¬ id = arr[i] := fun h => hg h.symm
        simp only [hg, if_false, hne, false_or]
        refine ⟨(ih (i + 1)).1, fun hle => ?_⟩
        exact (ih (i + 1)).2 (by omega)
    · have hdrop : arr.drop i = [] := List.drop_eq_nil_of_le (by omega)
      simp only [hi, dite_false, hdrop, List.take_nil, List.not_mem_nil, iff_false]
      refine ⟨by simp, fun hle => ?_⟩
      omega


/-! ## Guards of a built node -/

theorem BuildJITTimeData_guards (dbg dflt : Bool) (cg : CodeGenFields)
    (inl ldf : List (Option FunctionCodeGenJitTimeData))
    (nxt : Option FunctionCodeGenJitTimeData) (rt : Option FunctionCodeGenRuntimeData)
    (f : Bool) (n : FunctionJITTimeDataIDL) (fb : FunctionBody)
    (h : BuildJITTimeData dbg dflt (.mk cg inl ldf nxt) rt f = .ok n)
    (hfb : cg.functionInfo.functionBody = some fb) :
    ∃ jd0, captureProfileData dbg fb f (copyScalars cg) = .ok jd0 ∧
      n.data.callsCountAddress = jd0.callsCountAddress ∧
      n.data.sharedPropGuardCount = jd0.sharedPropGuardCount ∧
      n.data.sharedPropertyGuards = jd0.sharedPropertyGuards := by
  obtain ⟨jd0, body, ri, _, _, _, _, -, hcap, -, -, hdata, -, -, -⟩ :=
    BuildJITTimeData_body _ _ _ _ _ _ _ _ _ _ h hfb
  refine ⟨jd0, hcap, ?_, ?_, ?_⟩ <;> rw [hdata]

/-- A node built as a non-inlinee, without a body or without profile data has no guards and
no call-count address. -/
theorem BuildJITTimeData_no_guards (dbg dflt : Bool) (c : FunctionCodeGenJitTimeData)
    (rt : Option FunctionCodeGenRuntimeData) (f : Bool) (n : FunctionJITTimeDataIDL)
    (h : BuildJITTimeData dbg dflt c rt f = .ok n)
    (hcase : f = false ∨ c.GetFunctionInfo.HasBody = false ∨
      ∀ fb, c.GetFunctionInfo.functionBody = some fb → fb.HasDynamicProfileInfo = false) :
    n.data.callsCountAddress = 0 ∧ n.data.sharedPropGuardCount = 0 ∧
      n.data.sharedPropertyGuards = none := by
  obtain ⟨cg, inl, ldf, nxt⟩ := c
  cases hfb : cg.functionInfo.functionBody with
  | none =>
    rw [BuildJITTimeData_nobody _ _ _ _ _ _ _ _ hfb] at h
    simp only [Except.ok.injEq] at h
    subst h
    exact ⟨rfl, rfl, rfl⟩
  | some fb =>
    obtain ⟨jd0, hcap, h1, h2, h3⟩ := BuildJITTimeData_guards _ _ _ _ _ _ _ _ _ _ h hfb
    have hkeep := (captureProfileData_ok _ _ _ _ _ hcap).2.2.1
    have hcond : f = false ∨ fb.dynamicProfileInfo = none := by
      rcases hcase with hf | hnb | hnp
      · exact Or.inl hf
      · simp [FunctionCodeGenJitTimeData.GetFunctionInfo, FunctionCodeGenJitTimeData.fields,
          FunctionInfo.HasBody, hfb] at hnb
      · have := hnp fb hfb
        simp only [FunctionBody.HasDynamicProfileInfo] at this
        cases hd : fb.dynamicProfileInfo with
        | none => exact Or.inr rfl
        | some p => simp [hd] at this
    obtain ⟨k1, k2, k3⟩ := hkeep hcond
    rw [h1, h2, h3, k1, k2, k3]
    exact ⟨rfl, rfl, rfl⟩

/-! ## Sample builds -/

theorem sampleRoot_built (dbg : Bool) :
    BuildJITTimeData dbg false sampleRoot none false = .ok sampleRootNode := by
  cases dbg <;> rfl

/-! ## C1 -/

/-- C1: every node of a built tree sits at the position of a source context; when that
context's function has a body, the node's `inlineeCount` and the number of slots of its
`inlinees` array equal the body's `profiledCallSiteCount`, and `ldFldInlineeCount` and the
number of slots of `ldFldInlinees` equal the body's `inlineCacheCount`; when the function
has no body, both counts are 0 and both arrays are null. -/
theorem C1_child_arrays_match_body_counts (dbg dflt : Bool) (c : FunctionCodeGenJitTimeData)
    (rt : Option FunctionCodeGenRuntimeData) (f : Bool) (root : FunctionJITTimeDataIDL)
    (h : BuildJITTimeData dbg dflt c rt f = .ok root) (path : List Edge)
    (m : FunctionJITTimeDataIDL) (hm : root.follow path = some m) :
    ∃ c1, c.follow path = some c1 ∧
      (c1.GetFunctionInfo.HasBody = true →
        ∃ body jitBody, FunctionJITTimeInfo.GetBody m = some body ∧
          c1.GetJITBody = some jitBody ∧
          body.profiledCallSiteCount = jitBody.profiledCallSiteCount ∧
          body.inlineCacheCount = jitBody.inlineCacheCount ∧
          m.data.inlineeCount = body.profiledCallSiteCount ∧
          slotCount m.inlinees = body.profiledCallSiteCount ∧
          m.data.ldFldInlineeCount = body.inlineCacheCount ∧
          slotCount m.ldFldInlinees = body.inlineCacheCount) ∧
      (c1.GetFunctionInfo.HasBody = false →
        m.data.inlineeCount = 0 ∧ m.inlinees = none ∧
        m.data.ldFldInlineeCount = 0 ∧ m.ldFldInlinees = none) := by
  obtain ⟨c1, rt1, f1, hc1, hb1, -, -⟩ := BuildJITTimeData_follow dbg dflt path c rt f root m h hm
  exact ⟨c1, hc1, BuildJITTimeData_counts dbg dflt c1 rt1 f1 m hb1⟩

theorem C1_child_arrays_match_body_counts_witness :
    BuildJITTimeData true false sampleRoot none false = .ok sampleRootNode ∧
    sampleRootNode.follow [.callSite 0, .next] = some sampleCallee2Node ∧
    ∃ c1, sampleRoot.follow [.callSite 0, .next] = some c1 ∧
      (c1.GetFunctionInfo.HasBody = true →
        ∃ body jitBody, FunctionJITTimeInfo.GetBody sampleCallee2Node = some body ∧
          c1.GetJITBody = some jitBody ∧
          body.profiledCallSiteCount = jitBody.profiledCallSiteCount ∧
          body.inlineCacheCount = jitBody.inlineCacheCount ∧
          sampleCallee2Node.data.inlineeCount = body.profiledCallSiteCount ∧
          slotCount sampleCallee2Node.inlinees = body.profiledCallSiteCount ∧
          sampleCallee2Node.data.ldFldInlineeCount = body.inlineCacheCount ∧
          slotCount sampleCallee2Node.ldFldInlinees = body.inlineCacheCount) ∧
      (c1.GetFunctionInfo.HasBody = false →
        sampleCallee2Node.data.inlineeCount = 0 ∧ sampleCallee2Node.inlinees = none ∧
        sampleCallee2Node.data.ldFldInlineeCount = 0 ∧
        sampleCallee2Node.ldFldInlinees = none) :=
  ⟨sampleRoot_built true, rfl,
    C1_child_arrays_match_body_counts true false sampleRoot none false sampleRootNode
      (sampleRoot_built true) [.callSite 0, .next] sampleCallee2Node rfl⟩

/-! ## C2 -/

theorem sampleMixedRoot_built (dbg : Bool) :
    BuildJITTimeData dbg false sampleMixedRoot none false = .ok sampleMixedRootNode := by
  cases dbg <;> rfl

/-- C2, as stated, fails: the chain built for a call site whose upstream chain is a
built-in followed by a script function has one node, not two. -/
theorem C2_chain_truncated_counterexample :
    BuildJITTimeData true false sampleMixedRoot none false = .ok sampleMixedRootNode ∧
    sampleMixedRoot.child (.callSite 0) = some sampleMixedHead ∧
    sampleMixedRootNode.child (.callSite 0) = some sampleMixedHeadNode ∧
    sampleMixedHead.chain.length = 2 ∧
    sampleMixedHeadNode.chain.length = 1 :=
  ⟨rfl, rfl, rfl, rfl, rfl⟩

/-- C2 (amended): for the head of any child slot of a built node, the chain obtained by
following `GetNext` reproduces, in order, the identity addresses of the upstream candidates
up to and including the first candidate without a body; when every upstream candidate other
than the last has a body this is the whole upstream chain, same length and same order. -/
theorem C2_chain_reproduced_up_to_bodiless (dbg dflt : Bool) (c : FunctionCodeGenJitTimeData)
    (rt : Option FunctionCodeGenRuntimeData) (f : Bool) (parent : FunctionJITTimeDataIDL)
    (h : BuildJITTimeData dbg dflt c rt f = .ok parent) (e : Edge) (head : FunctionJITTimeDataIDL)
    (hhead : parent.child e = some head) :
    ∃ c1, c.child e = some c1 ∧
      head.chain.map FunctionJITTimeInfo.GetFunctionInfoAddr =
        c1.chainToBodiless.map (fun x => x.GetFunctionInfo.addr) ∧
      ((∀ x ∈ c1.chain.dropLast, x.GetFunctionInfo.HasBody = true) →
        head.chain.length = c1.chain.length ∧
        head.chain.map FunctionJITTimeInfo.GetFunctionInfoAddr =
          c1.chain.map (fun x => x.GetFunctionInfo.addr)) := by
  obtain ⟨c1, rt1, hc1, hb1⟩ := BuildJITTimeData_child _ _ _ _ _ _ _ h e hhead
  have hchain := BuildJITTimeData_chain dbg dflt head.chain head c1 rt1 dflt rfl hb1
  refine ⟨c1, hc1, hchain, fun hall => ?_⟩
  have heq := FunctionCodeGenJitTimeData.chainToBodiless_eq_chain c1.chain c1 rfl hall
  rw [heq] at hchain
  refine ⟨?_, hchain⟩
  have := congrArg List.length hchain
  simpa using this

theorem C2_chain_reproduced_up_to_bodiless_witness :
    BuildJITTimeData true false sampleRoot none false = .ok sampleRootNode ∧
    sampleRootNode.child (.callSite 0) = some sampleCallee1Node ∧
    ∃ c1, sampleRoot.child (.callSite 0) = some c1 ∧
      sampleCallee1Node.chain.map FunctionJITTimeInfo.GetFunctionInfoAddr =
        c1.chainToBodiless.map (fun x => x.GetFunctionInfo.addr) ∧
      ((∀ x ∈ c1.chain.dropLast, x.GetFunctionInfo.HasBody = true) →
        sampleCallee1Node.chain.length = c1.chain.length ∧
        sampleCallee1Node.chain.map FunctionJITTimeInfo.GetFunctionInfoAddr =
          c1.chain.map (fun x => x.GetFunctionInfo.addr)) :=
  ⟨sampleRoot_built true, rfl,
    C2_chain_reproduced_up_to_bodiless true false sampleRoot none false sampleRootNode
      (sampleRoot_built true) (.callSite 0) sampleCallee1Node rfl⟩

/-! ## C3 -/

theorem GetJitTimeDataFromFunctionInfoAddr_eq (n : FunctionJITTimeDataIDL) (a : intptr_t) :
    FunctionJITTimeInfo.GetJitTimeDataFromFunctionInfoAddr n a =
      if FunctionJITTimeInfo.GetFunctionInfoAddr n ≠ a then
        (match n.next with
          | none => none
          | some m => FunctionJITTimeInfo.GetJitTimeDataFromFunctionInfoAddr m a)
      else some n := by
  obtain ⟨d, inl, ldf, nxt⟩ := n
  cases nxt <;> rfl

theorem GetJitTimeDataFromFunctionInfoAddr_find (a : intptr_t)
    (l : List FunctionJITTimeDataIDL) :
    ∀ n : FunctionJITTimeDataIDL, n.chain = l →
      FunctionJITTimeInfo.GetJitTimeDataFromFunctionInfoAddr n a =
        l.find? (fun m => decide (FunctionJITTimeInfo.GetFunctionInfoAddr m = a)) := by
  induction l with
  | nil =>
    intro n hl
    rw [FunctionJITTimeDataIDL.chain_cons] at hl
    cases hl
  | cons x rest ih =>
    intro n hl
    rw [FunctionJITTimeDataIDL.chain_cons] at hl
    simp only [List.cons.injEq] at hl
    obtain ⟨hx, hrest⟩ := hl
    subst hx
    rw [GetJitTimeDataFromFunctionInfoAddr_eq, List.find?_cons]
    by_cases ha : FunctionJITTimeInfo.GetFunctionInfoAddr n = a
    · simp [ha]
    · simp only [ne_eq, ha, not_false_eq_true, if_true, decide_False]
      cases hn : n.next with
      | none =>
        rw [hn] at hrest
        simp [← hrest]
      | some m =>
        rw [hn] at hrest
        exact ih m hrest

/-- C3: on the polymorphic chain that starts at a node, `GetJitTimeDataFromFunctionInfoAddr(a)`
returns the first node (the starting node included) whose identity address is `a`; it
returns none iff no node of the chain has identity address `a`; and a node of the chain that
is the only one with address `a` is the node returned, whatever the length of the chain. -/
theorem C3_identity_search_first_match (n : FunctionJITTimeDataIDL) (a : intptr_t) :
    FunctionJITTimeInfo.GetJitTimeDataFromFunctionInfoAddr n a =
      n.chain.find? (fun m => decide (FunctionJITTimeInfo.GetFunctionInfoAddr m = a)) ∧
    (∀ m, FunctionJITTimeInfo.GetJitTimeDataFromFunctionInfoAddr n a = some m ↔
      FunctionJITTimeInfo.GetFunctionInfoAddr m = a ∧
      ∃ before after, n.chain = before ++ m :: after ∧
        ∀ x ∈ before, FunctionJITTimeInfo.GetFunctionInfoAddr x ≠ a) ∧
    (FunctionJITTimeInfo.GetJitTimeDataFromFunctionInfoAddr n a = none ↔
      ∀ m ∈ n.chain, FunctionJITTimeInfo.GetFunctionInfoAddr m ≠ a) ∧
    (∀ m ∈ n.chain, FunctionJITTimeInfo.GetFunctionInfoAddr m = a →
      (∀ x ∈ n.chain, FunctionJITTimeInfo.GetFunctionInfoAddr x = a → x = m) →
      FunctionJITTimeInfo.GetJitTimeDataFromFunctionInfoAddr n a = some m) := by
  have hfind := GetJitTimeDataFromFunctionInfoAddr_find a n.chain n rfl
  refine ⟨hfind, ?_, ?_, ?_⟩
  · intro m
    rw [hfind, List.find?_eq_some]
    simp
  · rw [hfind, List.find?_eq_none]
    simp
  · intro m hm ha huniq
    rw [hfind]
    cases hres : n.chain.find? (fun m => decide (FunctionJITTimeInfo.GetFunctionInfoAddr m = a)) with
    | none =>
      rw [List.find?_eq_none] at hres
      have := hres m hm
      simp [ha] at this
    | some x =>
      have hx := List.find?_some hres
      have hxmem := List.mem_of_find?_eq_some hres
      simp only [decide_eq_true_eq] at hx
      rw [huniq x hxmem hx]

theorem C3_identity_search_first_match_witness :
    FunctionJITTimeInfo.GetJitTimeDataFromFunctionInfoAddr sampleCallee1Node 20 =
      some sampleCallee2Node ∧
    FunctionJITTimeInfo.GetJitTimeDataFromFunctionInfoAddr sampleCallee1Node 99 = none ∧
    FunctionJITTimeInfo.GetJitTimeDataFromFunctionInfoAddr sampleCallee1Node 20 =
      sampleCallee1Node.chain.find?
        (fun m => decide (FunctionJITTimeInfo.GetFunctionInfoAddr m = 20)) :=
  ⟨rfl, rfl, (C3_identity_search_first_match sampleCallee1Node 20).1⟩

/-! ## C4 -/

/-- C4: on every node of a built tree that has a body, for every in-range call-site index
`i` and target address `t`, `GetInlineeForTargetInlineeRuntimeData(i, t)` returns the
runtime info of the first candidate of call site `i`'s chain whose own body address is `t`,
and it is a fault (a read through a null pointer), not a returned none, exactly when no
candidate of that chain has body address `t`, the empty slot included. -/
theorem C4_target_runtime_data_first_match_or_fatal (dbg dflt : Bool)
    (c : FunctionCodeGenJitTimeData) (rt : Option FunctionCodeGenRuntimeData) (f : Bool)
    (root : FunctionJITTimeDataIDL) (h : BuildJITTimeData dbg dflt c rt f = .ok root)
    (path : List Edge) (n : FunctionJITTimeDataIDL) (hn : root.follow path = some n)
    (body : FunctionBodyDataIDL) (hbody : FunctionJITTimeInfo.GetBody n = some body)
    (i : Nat) (hi : i < body.profiledCallSiteCount) (t : intptr_t) (dbg1 : Bool) :
    FunctionJITTimeInfo.GetInlineeForTargetInlineeRuntimeData dbg1 n i t =
      (match (callSiteChain n i).find? (fun m => decide (bodyAddr m = some t)) with
        | some m => .ok (FunctionJITTimeInfo.GetRuntimeInfo m)
        | none => .error .nullDeref) ∧
    ((∃ e, FunctionJITTimeInfo.GetInlineeForTargetInlineeRuntimeData dbg1 n i t = .error e) ↔
      ∀ m ∈ callSiteChain n i, bodyAddr m ≠ some t) := by
  obtain ⟨c1, rt1, f1, -, hb1, -, -⟩ := BuildJITTimeData_follow dbg dflt path c rt f root n h hn
  have hget := GetInlinee_built dbg dflt c1 rt1 f1 n hb1 dbg1 body hbody i hi
  have hmain : FunctionJITTimeInfo.GetInlineeForTargetInlineeRuntimeData dbg1 n i t =
      (match (callSiteChain n i).find? (fun m => decide (bodyAddr m = some t)) with
        | some m => .ok (FunctionJITTimeInfo.GetRuntimeInfo m)
        | none => .error .nullDeref) := by
    unfold FunctionJITTimeInfo.GetInlineeForTargetInlineeRuntimeData
    rw [hget]
    simp only [bind, Except.bind, callSiteChain]
    cases hslot : arraySlot n.inlinees i with
    | none => simp
    | some head =>
      obtain ⟨c2, rt2, -, hb2⟩ :=
        BuildJITTimeData_child _ _ _ _ _ _ _ hb1 (.callSite i) hslot
      exact targetScan_built dbg dflt t head.chain head c2 rt2 dflt rfl hb2
  refine ⟨hmain, ?_⟩
  rw [hmain]
  cases hfind : (callSiteChain n i).find? (fun m => decide (bodyAddr m = some t)) with
  | none =>
    rw [List.find?_eq_none] at hfind
    simp only [decide_eq_true_eq] at hfind
    simp only [Except.error.injEq, exists_eq', true_iff]
    exact hfind
  | some m =>
    have hm := List.find?_some hfind
    have hmem := List.mem_of_find?_eq_some hfind
    simp only [decide_eq_true_eq] at hm
    simp only [false_iff, not_forall, exists_false, reduceCtorEq]
    exact ⟨m, hmem, fun hne => hne hm⟩

theorem C4_target_runtime_data_first_match_or_fatal_witness :
    BuildJITTimeData true false sampleRoot none false = .ok sampleRootNode ∧
    FunctionJITTimeInfo.GetInlineeForTargetInlineeRuntimeData true sampleRootNode 0 200 =
      .ok (FunctionJITTimeInfo.GetRuntimeInfo sampleCallee2Node) ∧
    FunctionJITTimeInfo.GetInlineeForTargetInlineeRuntimeData true sampleRootNode 1 200 =
      .error .nullDeref ∧
    ((∃ e, FunctionJITTimeInfo.GetInlineeForTargetInlineeRuntimeData true sampleRootNode 0 300
        = .error e) ↔
      ∀ m ∈ callSiteChain sampleRootNode 0, bodyAddr m ≠ some 300) :=
  ⟨sampleRoot_built true, rfl, rfl,
    (C4_target_runtime_data_first_match_or_fatal true false sampleRoot none false sampleRootNode
      (sampleRoot_built true) [] sampleRootNode rfl
      { functionBodyAddr := 50, profiledCallSiteCount := 2, inlineCacheCount := 1,
        profileData := some ⟨7⟩ } rfl 0 (by decide) 300 true).2⟩

/-! ## C5 -/

theorem FunctionJITTimeDataIDL.chain_length_next (m : FunctionJITTimeDataIDL) :
    (2 ≤ m.chain.length ↔ m.next.isSome = true) ∧ (m.chain.length = 1 ↔ m.next.isSome = false) := by
  rw [FunctionJITTimeDataIDL.chain_cons]
  cases hn : m.next with
  | none => simp
  | some s =>
    simp only [List.length_cons, Option.isSome_some, iff_true, add_left_eq_self,
      List.length_eq_zero, Bool.true_eq_false, iff_false]
    rw [FunctionJITTimeDataIDL.chain_cons]
    simp

/-- C5: whenever `GetInlinee(i)` returns a candidate, `IsPolymorphicCallSite(i)` returns
whether that candidate's `GetNext()` is present: true for a call site whose chain has two or
more targets, false for a call site with exactly one target. -/
theorem C5_polymorphic_iff_next_present (dbg : Bool) (n : FunctionJITTimeDataIDL) (i : Nat)
    (first : FunctionJITTimeDataIDL)
    (hget : FunctionJITTimeInfo.GetInlinee dbg n i = .ok (some first)) :
    FunctionJITTimeInfo.IsPolymorphicCallSite dbg n i =
      .ok (FunctionJITTimeInfo.GetNext first).isSome ∧
    (FunctionJITTimeInfo.IsPolymorphicCallSite dbg n i = .ok true ↔ 2 ≤ first.chain.length) ∧
    (FunctionJITTimeInfo.IsPolymorphicCallSite dbg n i = .ok false ↔ first.chain.length = 1) := by
  have hmain : FunctionJITTimeInfo.IsPolymorphicCallSite dbg n i =
      .ok (FunctionJITTimeInfo.GetNext first).isSome := by
    unfold FunctionJITTimeInfo.GetInlinee at hget
    unfold FunctionJITTimeInfo.IsPolymorphicCallSite
    simp only [bind_eq_ok] at hget
    obtain ⟨_, hassert, hget⟩ := hget
    rw [hassert]
    cases hinl : n.inlinees with
    | none =>
      rw [hinl] at hget
      simp [pure, Except.pure] at hget
    | some arr =>
      rw [hinl] at hget
      simp only [bind_eq_ok] at hget
      obtain ⟨_, hassert2, hread⟩ := hget
      simp [bind, Except.bind, hassert2, hread, deref, pure, Except.pure,
        FunctionJITTimeInfo.GetNext]
  obtain ⟨h2, h1⟩ := FunctionJITTimeDataIDL.chain_length_next first
  refine ⟨hmain, ?_, ?_⟩
  · rw [hmain, h2]
    simp [FunctionJITTimeInfo.GetNext]
  · rw [hmain, h1]
    simp [FunctionJITTimeInfo.GetNext]

theorem C5_polymorphic_iff_next_present_witness :
    FunctionJITTimeInfo.GetInlinee true sampleRootNode 0 = .ok (some sampleCallee1Node) ∧
    FunctionJITTimeInfo.IsPolymorphicCallSite true sampleRootNode 0 = .ok true ∧
    FunctionJITTimeInfo.IsPolymorphicCallSite true sampleMixedRootNode 0 = .ok false ∧
    (FunctionJITTimeInfo.IsPolymorphicCallSite true sampleRootNode 0 = .ok true ↔
      2 ≤ sampleCallee1Node.chain.length) :=
  ⟨rfl, rfl, rfl,
    (C5_polymorphic_iff_next_present true sampleRootNode 0 sampleCallee1Node rfl).2.1⟩

/-! ## C6 -/

/-- C6 fails on the code: call site 1 of the snapshot of `sampleRoot` is in range and its
slot is empty (the source has no child there, and `GetInlinee(1)` returns none), yet
`IsPolymorphicCallSite(1)` reads `->next` through the null slot, in either build kind. -/
theorem C6_empty_slot_is_dereferenced :
    BuildJITTimeData true false sampleRoot none false = .ok sampleRootNode ∧
    sampleRoot.GetInlinee 1 = none ∧
    FunctionJITTimeInfo.GetInlinee true sampleRootNode 1 = .ok none ∧
    FunctionJITTimeInfo.IsPolymorphicCallSite true sampleRootNode 1 = .error .nullDeref ∧
    FunctionJITTimeInfo.IsPolymorphicCallSite false sampleRootNode 1 = .error .nullDeref :=
  ⟨rfl, rfl, rfl, rfl, rfl⟩

/-! ## C7 -/

/-- C7: `HasSharedPropertyGuard(p)` returns true iff `p` is one of the first
`sharedPropGuardCount` entries of the guard array, and it returns exactly that membership
test whenever the array holds `sharedPropGuardCount` entries; `HasSharedPropertyGuards()`
is true iff `sharedPropGuardCount` is non-zero; on the guard array `[7, 42, 100]` the
answers are true for 42, false for 99, and `HasSharedPropertyGuards()` is true. -/
theorem C7_guard_membership_is_linear_scan (n : FunctionJITTimeDataIDL) (p : PropertyId) :
    (FunctionJITTimeInfo.HasSharedPropertyGuard n p = .ok true ↔
      p ∈ (n.data.sharedPropertyGuards.getD []).take n.data.sharedPropGuardCount) ∧
    (∀ arr, n.data.sharedPropertyGuards = some arr → n.data.sharedPropGuardCount ≤ arr.length →
      FunctionJITTimeInfo.HasSharedPropertyGuard n p =
        .ok (decide (p ∈ arr.take n.data.sharedPropGuardCount))) ∧
    (FunctionJITTimeInfo.HasSharedPropertyGuards n = true ↔ n.data.sharedPropGuardCount ≠ 0) ∧
    FunctionJITTimeInfo.HasSharedPropertyGuard sampleGuardedNode 42 = .ok true ∧
    FunctionJITTimeInfo.HasSharedPropertyGuard sampleGuardedNode 99 = .ok false ∧
    FunctionJITTimeInfo.HasSharedPropertyGuards sampleGuardedNode = true := by
  refine ⟨?_, ?_, ?_, rfl, rfl, rfl⟩
  · unfold FunctionJITTimeInfo.HasSharedPropertyGuard
    cases hg : n.data.sharedPropertyGuards with
    | none =>
      have := guardScan_none p 0 n.data.sharedPropGuardCount
      simp [this]
    | some arr =>
      have := (guardScan_some arr p n.data.sharedPropGuardCount 0).1
      simpa using this
  · intro arr hg hle
    unfold FunctionJITTimeInfo.HasSharedPropertyGuard
    rw [hg]
    have := (guardScan_some arr p n.data.sharedPropGuardCount 0).2 (by omega)
    simpa using this
  · simp [FunctionJITTimeInfo.HasSharedPropertyGuards]

theorem C7_guard_membership_is_linear_scan_witness :
    sampleGuardedNode.data.sharedPropertyGuards = some [7, 42, 100] ∧
    sampleGuardedNode.data.sharedPropGuardCount ≤ ([7, 42, 100] : List PropertyId).length ∧
    FunctionJITTimeInfo.HasSharedPropertyGuard sampleGuardedNode 42 =
      .ok (decide ((42 : PropertyId) ∈
        ([7, 42, 100] : List PropertyId).take sampleGuardedNode.data.sharedPropGuardCount)) :=
  ⟨rfl, by decide,
    (C7_guard_membership_is_linear_scan sampleGuardedNode 42).2.1 [7, 42, 100] rfl (by decide)⟩

/-! ## C8 -/

theorem sampleInlinee_built (dbg : Bool) :
    BuildJITTimeData dbg false sampleInlinee (some sampleInlineeRuntime) true = .ok sampleInlineeNode := by
  cases dbg <;> rfl

/-- C8: a node built with `isInlinee = true` from a function whose body has profile data and
whose default entry point has a guard set iterating as `keys` has
`sharedPropGuardCount = keys.length` and guard array `keys`, in iteration order; on it
`HasSharedPropertyGuard(p)` holds iff `p` is one of the keys and
`HasSharedPropertyGuards()` holds iff there is at least one key. -/
theorem C8_inlinee_guards_drained_in_order (dbg dflt : Bool) (c : FunctionCodeGenJitTimeData)
    (rt : Option FunctionCodeGenRuntimeData) (n : FunctionJITTimeDataIDL)
    (fb : FunctionBody) (keys : List PropertyId)
    (h : BuildJITTimeData dbg dflt c rt true = .ok n)
    (hfb : c.GetFunctionInfo.functionBody = some fb)
    (hprofile : fb.HasDynamicProfileInfo = true)
    (hkeys : fb.defaultEntryPointInfo.sharedPropertyGuards = some keys) :
    n.data.sharedPropGuardCount = keys.length ∧
    n.data.sharedPropertyGuards = some keys ∧
    (∀ p, FunctionJITTimeInfo.HasSharedPropertyGuard n p = .ok (decide (p ∈ keys))) ∧
    (FunctionJITTimeInfo.HasSharedPropertyGuards n = true ↔ 0 < keys.length) := by
  obtain ⟨cg, inl, ldf, nxt⟩ := c
  obtain ⟨jd0, hcap, -, h2, h3⟩ := BuildJITTimeData_guards _ _ _ _ _ _ _ _ _ _ h hfb
  obtain ⟨-, hdrain, -⟩ := (captureProfileData_ok _ _ _ _ _ hcap).2.2.2 rfl hprofile
  obtain ⟨k2, k3⟩ := hdrain keys hkeys
  rw [k2] at h2
  rw [k3] at h3
  refine ⟨h2, h3, fun p => ?_, ?_⟩
  · unfold FunctionJITTimeInfo.HasSharedPropertyGuard
    rw [h2, h3]
    have := (guardScan_some keys p keys.length 0).2 (by omega)
    simpa using this
  · simp [FunctionJITTimeInfo.HasSharedPropertyGuards, h2, Nat.pos_iff_ne_zero]

theorem C8_inlinee_guards_drained_in_order_witness :
    BuildJITTimeData true false sampleInlinee (some sampleInlineeRuntime) true = .ok sampleInlineeNode ∧
    sampleInlineeNode.data.sharedPropGuardCount = [7, 42, 100].length ∧
    sampleInlineeNode.data.sharedPropertyGuards = some [7, 42, 100] ∧
    (∀ p, FunctionJITTimeInfo.HasSharedPropertyGuard sampleInlineeNode p =
      .ok (decide (p ∈ ([7, 42, 100] : List PropertyId)))) ∧
    (FunctionJITTimeInfo.HasSharedPropertyGuards sampleInlineeNode = true ↔
      0 < ([7, 42, 100] : List PropertyId).length) :=
  ⟨sampleInlinee_built true,
    C8_inlinee_guards_drained_in_order true false sampleInlinee (some sampleInlineeRuntime)
      sampleInlineeNode
      { dynamicProfileInfo := some 9
        defaultEntryPointInfo :=
          { callsCountAddr := 777, sharedPropertyGuards := some [7, 42, 100] } }
      [7, 42, 100] (sampleInlinee_built true) rfl rfl rfl⟩

/-! ## C9 -/

/-- C9: every node of a built tree is the result of a build of the source context at its
position, run below the root with the default `dflt` of the omitted `isInlinee` argument; if
the node's guard set is non-empty then that build ran with `isInlinee = true` (so the node
is the root when that default is `false`), the function has a body and the body has dynamic
profile data; a node built as a non-inlinee, without a body or without profile data has
guard count 0. -/
theorem C9_guards_only_on_profiled_inlinee (dbg dflt : Bool) (c : FunctionCodeGenJitTimeData)
    (rt : Option FunctionCodeGenRuntimeData) (f : Bool) (root : FunctionJITTimeDataIDL)
    (h : BuildJITTimeData dbg dflt c rt f = .ok root) (path : List Edge)
    (m : FunctionJITTimeDataIDL) (hm : root.follow path = some m) :
    ∃ c1 rt1 f1, c.follow path = some c1 ∧ BuildJITTimeData dbg dflt c1 rt1 f1 = .ok m ∧
      (path = [] → f1 = f) ∧ (path ≠ [] → f1 = dflt) ∧
      (FunctionJITTimeInfo.HasSharedPropertyGuards m = true →
        f1 = true ∧ (dflt = false → path = []) ∧
        ∃ fb, c1.GetFunctionInfo.functionBody = some fb ∧ fb.HasDynamicProfileInfo = true) ∧
      (f1 = false ∨ c1.GetFunctionInfo.HasBody = false ∨
          (∀ fb, c1.GetFunctionInfo.functionBody = some fb → fb.HasDynamicProfileInfo = false) →
        m.data.sharedPropGuardCount = 0) := by
  obtain ⟨c1, rt1, f1, hc1, hb1, hroot, hbelow⟩ :=
    BuildJITTimeData_follow dbg dflt path c rt f root m h hm
  refine ⟨c1, rt1, f1, hc1, hb1, fun hp => (hroot hp).2.2, hbelow, ?_, ?_⟩
  · intro hguards
    have hcount : m.data.sharedPropGuardCount ≠ 0 := by
      simpa [FunctionJITTimeInfo.HasSharedPropertyGuards] using hguards
    have hf1 : f1 = true := by
      cases hf : f1 with
      | true => rfl
      | false =>
        exact absurd (BuildJITTimeData_no_guards _ _ _ _ _ _ hb1 (Or.inl hf)).2.1 hcount
    refine ⟨hf1, ?_, ?_⟩
    · intro hd
      by_contra hne
      rw [hbelow hne, hd] at hf1
      cases hf1
    · cases hfb : c1.GetFunctionInfo.functionBody with
      | none =>
        have hnb : c1.GetFunctionInfo.HasBody = false := by
          simp [FunctionInfo.HasBody, hfb]
        exact absurd (BuildJITTimeData_no_guards _ _ _ _ _ _ hb1 (Or.inr (Or.inl hnb))).2.1 hcount
      | some fb =>
        refine ⟨fb, rfl, ?_⟩
        cases hp : fb.HasDynamicProfileInfo with
        | true => rfl
        | false =>
          have hall : ∀ fb1, c1.GetFunctionInfo.functionBody = some fb1 →
              fb1.HasDynamicProfileInfo = false := by
            intro fb1 h1
            rw [hfb] at h1
            simp only [Option.some.injEq] at h1
            rw [← h1]
            exact hp
          exact absurd
            (BuildJITTimeData_no_guards _ _ _ _ _ _ hb1 (Or.inr (Or.inr hall))).2.1 hcount
  · intro hcase
    exact (BuildJITTimeData_no_guards _ _ _ _ _ _ hb1 hcase).2.1

theorem C9_guards_only_on_profiled_inlinee_witness :
    BuildJITTimeData true false sampleInlinee (some sampleInlineeRuntime) true = .ok sampleInlineeNode ∧
    FunctionJITTimeInfo.HasSharedPropertyGuards sampleInlineeNode = true ∧
    FunctionJITTimeInfo.HasSharedPropertyGuards sampleCallee1Node = false ∧
    ∃ c1 rt1 f1, sampleInlinee.follow [] = some c1 ∧
      BuildJITTimeData true false c1 rt1 f1 = .ok sampleInlineeNode ∧
      (([] : List Edge) = [] → f1 = true) ∧ (([] : List Edge) ≠ [] → f1 = false) ∧
      (FunctionJITTimeInfo.HasSharedPropertyGuards sampleInlineeNode = true →
        f1 = true ∧ (false = false → ([] : List Edge) = []) ∧
        ∃ fb, c1.GetFunctionInfo.functionBody = some fb ∧ fb.HasDynamicProfileInfo = true) ∧
      (f1 = false ∨ c1.GetFunctionInfo.HasBody = false ∨
          (∀ fb, c1.GetFunctionInfo.functionBody = some fb → fb.HasDynamicProfileInfo = false) →
        sampleInlineeNode.data.sharedPropGuardCount = 0) :=
  ⟨sampleInlinee_built true, rfl, rfl,
    C9_guards_only_on_profiled_inlinee true false sampleInlinee (some sampleInlineeRuntime) true
      sampleInlineeNode (sampleInlinee_built true) [] sampleInlineeNode rfl⟩

/-! ## C10 -/

/-- C10: `ForceJITLoopBody()` returns true iff the loop-body phase is not off, the full-JIT
phase is not off, the function (which then has a body) is not a generator and has no try
region, and the loop-body phase is forced or the global `Prejit` flag is set; on a node with
a body it returns exactly that conjunction, so that switching either phase off, or making
the function a generator or giving it a try region, makes the result false whatever the two
forcing flags are. -/
theorem C10_force_loop_body_policy (flags : ConfigFlags) (n : FunctionJITTimeDataIDL) :
    (FunctionJITTimeInfo.ForceJITLoopBody flags n = .ok true ↔
      flags.PHASE_OFF .JITLoopBodyPhase n = false ∧
      flags.PHASE_OFF .FullJitPhase n = false ∧
      (∃ body, FunctionJITTimeInfo.GetBody n = some body ∧
        body.isGenerator = false ∧ body.hasTry = false) ∧
      (flags.PHASE_FORCE .JITLoopBodyPhase n = true ∨ flags.Prejit = some true)) ∧
    (∀ body, FunctionJITTimeInfo.GetBody n = some body →
      FunctionJITTimeInfo.ForceJITLoopBody flags n =
        .ok (!flags.PHASE_OFF .JITLoopBodyPhase n && !flags.PHASE_OFF .FullJitPhase n &&
          !body.isGenerator && !body.hasTry &&
          (flags.PHASE_FORCE .JITLoopBodyPhase n || flags.Prejit == some true))) ∧
    (flags.PHASE_OFF .JITLoopBodyPhase n = true →
      FunctionJITTimeInfo.ForceJITLoopBody flags n = .ok false) ∧
    (flags.PHASE_OFF .FullJitPhase n = true →
      FunctionJITTimeInfo.ForceJITLoopBody flags n = .ok false) ∧
    (∀ body, FunctionJITTimeInfo.GetBody n = some body → body.isGenerator = true →
      FunctionJITTimeInfo.ForceJITLoopBody flags n = .ok false) ∧
    (∀ body, FunctionJITTimeInfo.GetBody n = some body → body.hasTry = true →
      FunctionJITTimeInfo.ForceJITLoopBody flags n = .ok false) := by
  have hbody : ∀ body, FunctionJITTimeInfo.GetBody n = some body →
      FunctionJITTimeInfo.ForceJITLoopBody flags n =
        .ok (!flags.PHASE_OFF .JITLoopBodyPhase n && !flags.PHASE_OFF .FullJitPhase n &&
          !body.isGenerator && !body.hasTry &&
          (flags.PHASE_FORCE .JITLoopBodyPhase n || flags.Prejit == some true)) := by
    intro body hb
    have hb1 : n.data.bodyData = some body := hb
    unfold FunctionJITTimeInfo.ForceJITLoopBody
    cases h1 : flags.PHASE_OFF .JITLoopBodyPhase n <;>
    cases h2 : flags.PHASE_OFF .FullJitPhase n <;>
    cases h3 : body.isGenerator <;>
    cases h4 : body.hasTry <;>
    simp [hb1, deref, bind, Except.bind, pure, Except.pure, h3, h4]
  refine ⟨?_, hbody, ?_, ?_, ?_, ?_⟩
  · cases hb : FunctionJITTimeInfo.GetBody n with
    | none =>
      have hb1 : n.data.bodyData = none := hb
      unfold FunctionJITTimeInfo.ForceJITLoopBody
      cases h1 : flags.PHASE_OFF .JITLoopBodyPhase n <;>
      cases h2 : flags.PHASE_OFF .FullJitPhase n <;>
      simp [hb1, deref, bind, Except.bind, pure, Except.pure]
    | some body =>
      rw [hbody body hb]
      cases h1 : flags.PHASE_OFF .JITLoopBodyPhase n <;>
      cases h2 : flags.PHASE_OFF .FullJitPhase n <;>
      cases h3 : body.isGenerator <;>
      cases h4 : body.hasTry <;>
      simp [h3, h4]
  · intro h1
    unfold FunctionJITTimeInfo.ForceJITLoopBody
    simp [h1, pure, Except.pure]
  · intro h2
    unfold FunctionJITTimeInfo.ForceJITLoopBody
    cases h1 : flags.PHASE_OFF .JITLoopBodyPhase n <;> simp [h2, pure, Except.pure]
  · intro body hb h3
    rw [hbody body hb, h3]
    simp
  · intro body hb h4
    rw [hbody body hb, h4]
    simp

theorem C10_force_loop_body_policy_witness :
    FunctionJITTimeInfo.ForceJITLoopBody samplePrejitFlags sampleCallee1Node = .ok true ∧
    (FunctionJITTimeInfo.ForceJITLoopBody samplePrejitFlags sampleCallee1Node = .ok true ↔
      samplePrejitFlags.PHASE_OFF .JITLoopBodyPhase sampleCallee1Node = false ∧
      samplePrejitFlags.PHASE_OFF .FullJitPhase sampleCallee1Node = false ∧
      (∃ body, FunctionJITTimeInfo.GetBody sampleCallee1Node = some body ∧
        body.isGenerator = false ∧ body.hasTry = false) ∧
      (samplePrejitFlags.PHASE_FORCE .JITLoopBodyPhase sampleCallee1Node = true ∨
        samplePrejitFlags.Prejit = some true)) :=
  ⟨rfl, (C10_force_loop_body_policy samplePrejitFlags sampleCallee1Node).1⟩

/-! ## C11 -/

/-- C11 fails on the code for a source context id of 2^31 or more: the id is cast to `int`
and printed with `%d`, so the largest `uint` is written as `-1`, not as `4294967295`; for
the ids 3, 12 and 99 the buffer holds the text of the claim. -/
theorem C11_source_context_id_printed_signed :
    FunctionJITTimeInfo.GetDebugNumberSet true 42 sampleDebugNode = .ok " (#3.12), #99" ∧
    FunctionJITTimeInfo.GetDebugNumberSet true 42 sampleNoContextNode = .ok " (#-1.12), #99" ∧
    " (#" ++ Nat.repr 4294967295 ++ "." ++ Nat.repr 12 ++ "), #" ++ Nat.repr 99
      = " (#4294967295.12), #99" ∧
    FunctionJITTimeInfo.GetDebugNumberSet true 42 sampleNoContextNode ≠
      .ok (" (#" ++ Nat.repr 4294967295 ++ "." ++ Nat.repr 12 ++ "), #" ++ Nat.repr 99) := by
  have hsigned : FunctionJITTimeInfo.GetDebugNumberSet true 42 sampleNoContextNode =
      .ok " (#-1.12), #99" := rfl
  refine ⟨rfl, hsigned, by decide, fun h => ?_⟩
  rw [hsigned] at h
  exact absurd (Except.ok.inj h) (by decide)

/-! ## C12 -/

/-- On a built node with a body, a child array that was allocated has exactly the recorded
count of slots, and the recorded count is the body's. -/
theorem BuildJITTimeData_arrays_fit (dbg dflt : Bool) (c : FunctionCodeGenJitTimeData)
    (rt : Option FunctionCodeGenRuntimeData) (f : Bool) (n : FunctionJITTimeDataIDL)
    (h : BuildJITTimeData dbg dflt c rt f = .ok n) (body : FunctionBodyDataIDL)
    (hbody : FunctionJITTimeInfo.GetBody n = some body) :
    (∀ arr, n.inlinees = some arr →
      n.data.inlineeCount = body.profiledCallSiteCount ∧
      arr.length = body.profiledCallSiteCount) ∧
    (∀ arr, n.ldFldInlinees = some arr →
      n.data.ldFldInlineeCount = body.inlineCacheCount ∧
      arr.length = body.inlineCacheCount) := by
  obtain ⟨hhas, hno⟩ := BuildJITTimeData_counts _ _ _ _ _ _ h
  cases hb : c.GetFunctionInfo.HasBody with
  | false =>
    obtain ⟨-, hinl, -, hldf⟩ := hno hb
    rw [hinl, hldf]
    exact ⟨fun arr harr => (by cases harr), fun arr harr => (by cases harr)⟩
  | true =>
    obtain ⟨body1, -, hbody1, -, -, -, hcount, hslots, hlcount, hlslots⟩ := hhas hb
    rw [hbody] at hbody1
    simp only [Option.some.injEq] at hbody1
    subst hbody1
    refine ⟨fun arr harr => ?_, fun arr harr => ?_⟩
    · rw [harr] at hslots
      exact ⟨hcount, hslots⟩
    · rw [harr] at hlslots
      exact ⟨hlcount, hlslots⟩

/-- A structural lookup whose index passes the first bound and fits the allocated array
returns the content of the slot, in either build kind. -/
theorem GetLdFldInlinee_built (dbg dflt : Bool) (c : FunctionCodeGenJitTimeData)
    (rt : Option FunctionCodeGenRuntimeData) (f : Bool) (n : FunctionJITTimeDataIDL)
    (h : BuildJITTimeData dbg dflt c rt f = .ok n) (dbg1 : Bool) (body : FunctionBodyDataIDL)
    (hbody : FunctionJITTimeInfo.GetBody n = some body) (i : Nat)
    (hi : i < body.inlineCacheCount) :
    FunctionJITTimeInfo.GetLdFldInlinee dbg1 n i = .ok (arraySlot n.ldFldInlinees i) := by
  have hassert : AssertM dbg1 (do
      let body ← deref n.data.bodyData
      pure (decide (i < body.inlineCacheCount))) = .ok () := by
    rw [AssertM_eq_ok]
    intro _
    have : n.data.bodyData = some body := hbody
    rw [this]
    simp [deref, bind, Except.bind, pure, Except.pure, hi]
  unfold FunctionJITTimeInfo.GetLdFldInlinee
  rw [hassert]
  obtain ⟨-, hfit⟩ := BuildJITTimeData_arrays_fit _ _ _ _ _ _ h body hbody
  cases hldf : n.ldFldInlinees with
  | none =>
    simp [arraySlot, bind, Except.bind, pure, Except.pure]
  | some arr =>
    obtain ⟨hcount, hlen⟩ := hfit arr hldf
    have hassert2 : Assert dbg1 (decide (i < n.data.ldFldInlineeCount)) = .ok () := by
      rw [Assert_eq_ok]
      intro _
      simp [hcount, hi]
    simp only [bind, Except.bind, hassert2, arraySlot]
    exact readAt_eq_slotAt arr i (by omega)

theorem GetInlinee_out_of_range (n : FunctionJITTimeDataIDL) (body : FunctionBodyDataIDL)
    (hbody : FunctionJITTimeInfo.GetBody n = some body) (i : Nat)
    (hi : body.profiledCallSiteCount ≤ i) :
    FunctionJITTimeInfo.GetInlinee true n i = .error .assertion := by
  have hb : n.data.bodyData = some body := hbody
  have hlt : ¬ i < body.profiledCallSiteCount := by omega
  simp [FunctionJITTimeInfo.GetInlinee, AssertM, hb, deref, bind, Except.bind, pure,
    Except.pure, hlt]

theorem GetLdFldInlinee_out_of_range (n : FunctionJITTimeDataIDL) (body : FunctionBodyDataIDL)
    (hbody : FunctionJITTimeInfo.GetBody n = some body) (i : Nat)
    (hi : body.inlineCacheCount ≤ i) :
    FunctionJITTimeInfo.GetLdFldInlinee true n i = .error .assertion := by
  have hb : n.data.bodyData = some body := hbody
  have hlt : ¬ i < body.inlineCacheCount := by omega
  simp [FunctionJITTimeInfo.GetLdFldInlinee, AssertM, hb, deref, bind, Except.bind, pure,
    Except.pure, hlt]

/-- C12: on every node of a built tree that has a body, in a checked build `GetInlinee(i)`
ends in a failed assertion iff `i >= profiledCallSiteCount` and `GetLdFldInlinee(i)` iff
`i >= inlineCacheCount`; for an in-range `i`, in either build kind, the call returns the
content of slot `i`, and whenever the child array was allocated `i` is below the recorded
count and below the number of allocated slots. -/
theorem C12_lookups_bounds_checked (dbg dflt : Bool) (c : FunctionCodeGenJitTimeData)
    (rt : Option FunctionCodeGenRuntimeData) (f : Bool) (root : FunctionJITTimeDataIDL)
    (h : BuildJITTimeData dbg dflt c rt f = .ok root) (path : List Edge)
    (n : FunctionJITTimeDataIDL) (hn : root.follow path = some n)
    (body : FunctionBodyDataIDL) (hbody : FunctionJITTimeInfo.GetBody n = some body)
    (i : Nat) :
    ((∃ e, FunctionJITTimeInfo.GetInlinee true n i = .error e) ↔
      body.profiledCallSiteCount ≤ i) ∧
    (body.profiledCallSiteCount ≤ i →
      FunctionJITTimeInfo.GetInlinee true n i = .error .assertion) ∧
    (i < body.profiledCallSiteCount →
      (∀ dbg1, FunctionJITTimeInfo.GetInlinee dbg1 n i = .ok (arraySlot n.inlinees i)) ∧
      ∀ arr, n.inlinees = some arr → i < n.data.inlineeCount ∧ i < arr.length) ∧
    ((∃ e, FunctionJITTimeInfo.GetLdFldInlinee true n i = .error e) ↔
      body.inlineCacheCount ≤ i) ∧
    (body.inlineCacheCount ≤ i →
      FunctionJITTimeInfo.GetLdFldInlinee true n i = .error .assertion) ∧
    (i < body.inlineCacheCount →
      (∀ dbg1, FunctionJITTimeInfo.GetLdFldInlinee dbg1 n i =
        .ok (arraySlot n.ldFldInlinees i)) ∧
      ∀ arr, n.ldFldInlinees = some arr → i < n.data.ldFldInlineeCount ∧ i < arr.length) := by
  obtain ⟨c1, rt1, f1, -, hb1, -, -⟩ := BuildJITTimeData_follow dbg dflt path c rt f root n h hn
  obtain ⟨hfit, hlfit⟩ := BuildJITTimeData_arrays_fit _ _ _ _ _ _ hb1 body hbody
  have hin : i < body.profiledCallSiteCount →
      ∀ dbg1, FunctionJITTimeInfo.GetInlinee dbg1 n i = .ok (arraySlot n.inlinees i) :=
    fun hi dbg1 => GetInlinee_built dbg dflt c1 rt1 f1 n hb1 dbg1 body hbody i hi
  have hlin : i < body.inlineCacheCount →
      ∀ dbg1, FunctionJITTimeInfo.GetLdFldInlinee dbg1 n i =
        .ok (arraySlot n.ldFldInlinees i) :=
    fun hi dbg1 => GetLdFldInlinee_built dbg dflt c1 rt1 f1 n hb1 dbg1 body hbody i hi
  refine ⟨⟨fun ⟨e, he⟩ => ?_, fun hi => ⟨_, GetInlinee_out_of_range n body hbody i hi⟩⟩,
    GetInlinee_out_of_range n body hbody i, fun hi => ⟨hin hi, fun arr harr => ?_⟩,
    ⟨fun ⟨e, he⟩ => ?_, fun hi => ⟨_, GetLdFldInlinee_out_of_range n body hbody i hi⟩⟩,
    GetLdFldInlinee_out_of_range n body hbody i, fun hi => ⟨hlin hi, fun arr harr => ?_⟩⟩
  · by_contra hlt
    rw [hin (by omega) true] at he
    cases he
  · obtain ⟨h1, h2⟩ := hfit arr harr
    omega
  · by_contra hlt
    rw [hlin (by omega) true] at he
    cases he
  · obtain ⟨h1, h2⟩ := hlfit arr harr
    omega

theorem C12_lookups_bounds_checked_witness :
    BuildJITTimeData true false sampleRoot none false = .ok sampleRootNode ∧
    FunctionJITTimeInfo.GetInlinee true sampleRootNode 2 = .error .assertion ∧
    FunctionJITTimeInfo.GetInlinee true sampleRootNode 1 = .ok none ∧
    FunctionJITTimeInfo.GetLdFldInlinee true sampleRootNode 0 = .ok (some sampleBuiltinNode) ∧
    ((∃ e, FunctionJITTimeInfo.GetInlinee true sampleRootNode 5 = .error e) ↔ 2 ≤ 5) :=
  ⟨sampleRoot_built true, rfl, rfl, rfl,
    (C12_lookups_bounds_checked true false sampleRoot none false sampleRootNode
      (sampleRoot_built true) [] sampleRootNode rfl
      { functionBodyAddr := 50, profiledCallSiteCount := 2, inlineCacheCount := 1,
        profileData := some ⟨7⟩ } rfl 5).1⟩

/-! ## C13 -/

/-- The runtime-data record of one built node: the record built by lines 85-96 when the
function has a body, null when it has none. -/
theorem BuildJITTimeData_runtimeInfo (dbg dflt : Bool) (c : FunctionCodeGenJitTimeData)
    (rt : Option FunctionCodeGenRuntimeData) (f : Bool) (n : FunctionJITTimeDataIDL)
    (h : BuildJITTimeData dbg dflt c rt f = .ok n) :
    (c.GetFunctionInfo.HasBody = true →
      ∃ body ri, FunctionJITTimeInfo.GetBody n = some body ∧
        buildRuntimeInfo f rt body = .ok ri ∧
        FunctionJITTimeInfo.GetRuntimeInfo n = some ri) ∧
    (c.GetFunctionInfo.HasBody = false → FunctionJITTimeInfo.GetRuntimeInfo n = none) := by
  obtain ⟨cg, inl, ldf, nxt⟩ := c
  cases hfb : cg.functionInfo.functionBody with
  | none =>
    rw [BuildJITTimeData_nobody _ _ _ _ _ _ _ _ hfb] at h
    simp only [Except.ok.injEq] at h
    subst h
    refine ⟨fun hbody => ?_, fun _ => rfl⟩
    simp [FunctionCodeGenJitTimeData.GetFunctionInfo, FunctionCodeGenJitTimeData.fields,
      FunctionInfo.HasBody, hfb] at hbody
  | some fb =>
    refine ⟨fun _ => ?_, fun hbody => ?_⟩
    · obtain ⟨jd0, body, ri, _, _, _, _, -, -, hbd, hri, hdata, -, -, -⟩ :=
        BuildJITTimeData_body _ _ _ _ _ _ _ _ _ _ h hfb
      refine ⟨body, ri, ?_, hri, ?_⟩
      · simp [FunctionJITTimeInfo.GetBody, hdata, hbd]
      · simp [FunctionJITTimeInfo.GetRuntimeInfo, hdata]
    · simp [FunctionCodeGenJitTimeData.GetFunctionInfo, FunctionCodeGenJitTimeData.fields,
        FunctionInfo.HasBody, hfb] at hbody

/-- C13: every node of a built tree sits at the position of a source context; when that
context's function has a body, `GetRuntimeInfo()` of the node is present, whatever the
is-inlinee flag of its build and whether or not cloned inline caches exist; when the
function has no body, `GetRuntimeInfo()` is absent. -/
theorem C13_runtime_info_present_iff_body (dbg dflt : Bool) (c : FunctionCodeGenJitTimeData)
    (rt : Option FunctionCodeGenRuntimeData) (f : Bool) (root : FunctionJITTimeDataIDL)
    (h : BuildJITTimeData dbg dflt c rt f = .ok root) (path : List Edge)
    (m : FunctionJITTimeDataIDL) (hm : root.follow path = some m) :
    ∃ c1, c.follow path = some c1 ∧
      (c1.GetFunctionInfo.HasBody = true →
        (FunctionJITTimeInfo.GetRuntimeInfo m).isSome = true) ∧
      (c1.GetFunctionInfo.HasBody = false → FunctionJITTimeInfo.GetRuntimeInfo m = none) := by
  obtain ⟨c1, rt1, f1, hc1, hb1, -, -⟩ := BuildJITTimeData_follow dbg dflt path c rt f root m h hm
  obtain ⟨hhas, hno⟩ := BuildJITTimeData_runtimeInfo _ _ _ _ _ _ hb1
  refine ⟨c1, hc1, fun hbody => ?_, hno⟩
  obtain ⟨body, ri, -, -, hri⟩ := hhas hbody
  rw [hri]
  rfl

theorem C13_runtime_info_present_iff_body_witness :
    BuildJITTimeData true false sampleRoot none false = .ok sampleRootNode ∧
    sampleRootNode.follow [.ldFld 0] = some sampleBuiltinNode ∧
    FunctionJITTimeInfo.GetRuntimeInfo sampleRootNode = some {} ∧
    ∃ c1, sampleRoot.follow [.ldFld 0] = some c1 ∧
      (c1.GetFunctionInfo.HasBody = true →
        (FunctionJITTimeInfo.GetRuntimeInfo sampleBuiltinNode).isSome = true) ∧
      (c1.GetFunctionInfo.HasBody = false →
        FunctionJITTimeInfo.GetRuntimeInfo sampleBuiltinNode = none) :=
  ⟨sampleRoot_built true, rfl, rfl,
    C13_runtime_info_present_iff_body true false sampleRoot none false sampleRootNode
      (sampleRoot_built true) [.ldFld 0] sampleBuiltinNode rfl⟩

/-! ## C14 -/

theorem Assert_true (dbg : Bool) : Assert dbg true = .ok () := by
  cases dbg <;> rfl

theorem captureProfileData_returns (dbg : Bool) (fb : FunctionBody) (f : Bool)
    (jd : JITTimeDataFields) (b0 : FunctionBodyDataIDL) (hb : jd.bodyData = some b0)
    (hentry : fb.defaultEntryPointInfo.isFunctionEntryPointInfo = true) :
    ∃ jd0, captureProfileData dbg fb f jd = .ok jd0 := by
  unfold captureProfileData
  cases hp : fb.dynamicProfileInfo with
  | none => exact ⟨jd, rfl⟩
  | some profile =>
    simp only [hb, Option.isSome_some, Assert_true, hentry, deref, bind, Except.bind]
    cases f with
    | false => exact ⟨_, rfl⟩
    | true =>
      simp only [if_true]
      cases fb.defaultEntryPointInfo.sharedPropertyGuards with
      | none => exact ⟨_, rfl⟩
      | some keys => exact ⟨_, rfl⟩

theorem beginBody_returns (dbg : Bool) (cg : CodeGenFields) (fb : FunctionBody)
    (rt : Option FunctionCodeGenRuntimeData) (f : Bool) (jitBody : FunctionBodyDataIDL)
    (hflag : f = rt.isSome) (hjb : cg.bodyData = some jitBody)
    (hentry : fb.defaultEntryPointInfo.isFunctionEntryPointInfo = true) :
    ∃ jd body, beginBody dbg cg fb rt f = .ok (jd, body) ∧
      body.profiledCallSiteCount = jitBody.profiledCallSiteCount ∧
      body.inlineCacheCount = jitBody.inlineCacheCount := by
  have hcopy : (copyScalars cg).bodyData = some jitBody := hjb
  obtain ⟨jd0, hcap⟩ := captureProfileData_returns dbg fb f (copyScalars cg) jitBody hcopy hentry
  obtain ⟨hsame, hbody, -, -⟩ := captureProfileData_ok _ _ _ _ _ hcap
  have hassert : Assert dbg (f == rt.isSome) = .ok () := by
    rw [Assert_eq_ok]
    intro _
    simp [hflag]
  cases hbd : jd0.bodyData with
  | none =>
    exfalso
    unfold captureProfileData at hcap
    cases hp : fb.dynamicProfileInfo with
    | none =>
      simp only [hp] at hcap
      cases hcap
      rw [hcopy] at hbd
      cases hbd
    | some profile =>
      simp only [hp, bind_eq_ok, deref_eq_ok] at hcap
      obtain ⟨_, _, b1, _, hrest⟩ := hcap
      cases f with
      | false =>
        simp only [Bool.false_eq_true, if_false, pure_eq_ok] at hrest
        subst hrest
        cases hbd
      | true =>
        simp only [if_true, bind_eq_ok] at hrest
        obtain ⟨_, _, hrest⟩ := hrest
        cases hg : fb.defaultEntryPointInfo.sharedPropertyGuards with
        | none =>
          simp only [hg, pure_eq_ok] at hrest
          subst hrest
          cases hbd
        | some keys =>
          simp only [hg, pure_eq_ok] at hrest
          subst hrest
          cases hbd
  | some body =>
    obtain ⟨b0, hb0, hbeq⟩ := hbody body hbd
    rw [hcopy] at hb0
    simp only [Option.some.injEq] at hb0
    subst hb0
    have hc1 : body.profiledCallSiteCount = jitBody.profiledCallSiteCount := by rw [hbeq]
    have hc2 : body.inlineCacheCount = jitBody.inlineCacheCount := by rw [hbeq]
    unfold beginBody
    simp only [hassert, hcap, hbd, deref, bind, Except.bind]
    by_cases hpos : 0 < body.profiledCallSiteCount
    · simp only [hpos, if_true]
      exact ⟨_, _, rfl, hc1, hc2⟩
    · simp only [hpos, if_false]
      exact ⟨_, _, rfl, hc1, hc2⟩

theorem buildRuntimeInfo_returns (rt : Option FunctionCodeGenRuntimeData) (f : Bool)
    (body : FunctionBodyDataIDL) (hflag : f = rt.isSome) :
    ∃ ri, buildRuntimeInfo f rt body = .ok ri := by
  unfold buildRuntimeInfo
  cases f with
  | false => exact ⟨_, rfl⟩
  | true =>
    cases rt with
    | none => cases hflag
    | some r =>
      simp only [if_true, deref, bind, Except.bind]
      split <;> exact ⟨_, rfl⟩

theorem middleBody_returns (cg : CodeGenFields) (rt : Option FunctionCodeGenRuntimeData)
    (f : Bool) (body : FunctionBodyDataIDL) (jd : JITTimeDataFields)
    (hflag : f = rt.isSome) : ∃ jd1, middleBody cg rt f body jd = .ok jd1 := by
  obtain ⟨ri, hri⟩ := buildRuntimeInfo_returns rt f body hflag
  unfold middleBody
  simp only [hri, bind, Except.bind]
  by_cases hpos : 0 < body.inlineCacheCount
  · simp only [hpos, if_true]
    cases cg.objTypeSpecFldInfoArray with
    | none => exact ⟨_, rfl⟩
    | some arr => exact ⟨_, rfl⟩
  · simp only [hpos, if_false]
    exact ⟨_, rfl⟩

theorem globalBody_returns (dbg : Bool) (cg : CodeGenFields) (jd : JITTimeDataFields)
    (hglobal : 0 < cg.globalObjTypeSpecFldInfoCount →
      cg.globalObjTypeSpecFldInfoArray.isSome = true) :
    ∃ jd2, globalBody dbg cg jd = .ok jd2 := by
  unfold globalBody
  by_cases hpos : 0 < cg.globalObjTypeSpecFldInfoCount
  · have hassert : Assert dbg cg.globalObjTypeSpecFldInfoArray.isSome = .ok () := by
      rw [Assert_eq_ok]
      intro _
      exact hglobal hpos
    simp only [hpos, if_true, hassert, bind, Except.bind]
    exact ⟨_, rfl⟩
  · simp only [hpos, if_false]
    exact ⟨_, rfl⟩

theorem childArray_zero (loop : Except Fault (List (Option FunctionJITTimeDataIDL))) :
    childArray 0 loop = .ok none := rfl

theorem buildRuntimeInfo_no_caches (rt : Option FunctionCodeGenRuntimeData) (f : Bool)
    (body : FunctionBodyDataIDL) (ri : FunctionJITRuntimeIDL)
    (hzero : body.inlineCacheCount = 0) (h : buildRuntimeInfo f rt body = .ok ri) :
    ri.clonedCacheCount = 0 ∧ ri.clonedInlineCaches.getD [] = [] := by
  unfold buildRuntimeInfo at h
  cases f with
  | false =>
    simp only [Bool.false_eq_true, if_false, pure_eq_ok] at h
    subst h
    exact ⟨rfl, rfl⟩
  | true =>
    simp only [if_true, bind_eq_ok] at h
    obtain ⟨r, -, h⟩ := h
    cases hc : r.HasInlineCaches with
    | true =>
      simp only [hc, if_true, pure_eq_ok, hzero] at h
      subst h
      exact ⟨rfl, rfl⟩
    | false =>
      simp only [hc, Bool.false_eq_true, if_false, pure_eq_ok] at h
      subst h
      exact ⟨rfl, rfl⟩

/-- C14: for a function with a body whose `profiledCallSiteCount` and `inlineCacheCount` are
both 0, and either value of the is-inlinee flag: every node the build returns is a leaf
(`inlineeCount = 0` and no call-site array, `ldFldInlineeCount = 0` and no field-access
array) with a present runtime-data record that is empty (`clonedCacheCount = 0`, no cloned
cache entry); and the build does return when the flag agrees with the presence of the
runtime context, the default entry point is a function entry point, a counted global
type-specialization array is present and the build of the successor, if any, returns. -/
theorem C14_no_sites_builds_leaf (dbg dflt : Bool) (cg : CodeGenFields)
    (inl ldf : List (Option FunctionCodeGenJitTimeData))
    (nxt : Option FunctionCodeGenJitTimeData) (rt : Option FunctionCodeGenRuntimeData)
    (f : Bool) (fb : FunctionBody) (jitBody : FunctionBodyDataIDL)
    (hfb : cg.functionInfo.functionBody = some fb) (hjb : cg.bodyData = some jitBody)
    (hsites : jitBody.profiledCallSiteCount = 0) (hcaches : jitBody.inlineCacheCount = 0) :
    (∀ n, BuildJITTimeData dbg dflt (.mk cg inl ldf nxt) rt f = .ok n →
      n.data.inlineeCount = 0 ∧ n.inlinees = none ∧
      n.data.ldFldInlineeCount = 0 ∧ n.ldFldInlinees = none ∧
      ∃ ri, FunctionJITTimeInfo.GetRuntimeInfo n = some ri ∧
        ri.clonedCacheCount = 0 ∧ ri.clonedInlineCaches.getD [] = []) ∧
    (f = rt.isSome →
      fb.defaultEntryPointInfo.isFunctionEntryPointInfo = true →
      (0 < cg.globalObjTypeSpecFldInfoCount → cg.globalObjTypeSpecFldInfoArray.isSome = true) →
      (∀ c1, nxt = some c1 → ∃ rt1 m, nextRuntimeData f rt fb = .ok rt1 ∧
        BuildJITTimeData dbg dflt c1 rt1 dflt = .ok m) →
      ∃ n, BuildJITTimeData dbg dflt (.mk cg inl ldf nxt) rt f = .ok n) := by
  constructor
  · intro n h
    obtain ⟨jd0, body, ri, _, _, _, _, -, hcap, hbd, hri, hdata, hinl, hldfs, -⟩ :=
      BuildJITTimeData_body _ _ _ _ _ _ _ _ _ _ h hfb
    obtain ⟨b0, hb0, hbeq⟩ := (captureProfileData_ok _ _ _ _ _ hcap).2.1 body hbd
    have hb0' : cg.bodyData = some b0 := hb0
    rw [hjb] at hb0'
    simp only [Option.some.injEq] at hb0'
    subst hb0'
    have hc1 : body.profiledCallSiteCount = 0 := by rw [hbeq]; exact hsites
    have hc2 : body.inlineCacheCount = 0 := by rw [hbeq]; exact hcaches
    rw [hc1, childArray_zero] at hinl
    rw [hc2, childArray_zero] at hldfs
    simp only [Except.ok.injEq] at hinl hldfs
    refine ⟨?_, hinl.symm, ?_, hldfs.symm, ri, ?_, buildRuntimeInfo_no_caches rt f body ri hc2 hri⟩
    · rw [hdata]
      exact hc1
    · rw [hdata]
      exact hc2
    · simp [FunctionJITTimeInfo.GetRuntimeInfo, hdata]
  · intro hflag hentry hglobal hnext
    obtain ⟨jd, body, hbegin, hc1, hc2⟩ := beginBody_returns dbg cg fb rt f jitBody hflag hjb hentry
    rw [hsites] at hc1
    rw [hcaches] at hc2
    obtain ⟨jd1, hmid⟩ := middleBody_returns cg rt f body jd hflag
    obtain ⟨jd2, hglob⟩ := globalBody_returns dbg cg jd1 hglobal
    have hnx : ∃ nx, buildNext dbg dflt (nextRuntimeData f rt fb) nxt = .ok nx := by
      cases nxt with
      | none => exact ⟨none, rfl⟩
      | some c1 =>
        obtain ⟨rt1, m, hrt1, hm⟩ := hnext c1 rfl
        refine ⟨some m, ?_⟩
        simp [buildNext_some, hrt1, hm, bind, Except.bind, pure, Except.pure]
    obtain ⟨nx, hnx⟩ := hnx
    refine ⟨.mk jd2 none none nx, ?_⟩
    rw [BuildJITTimeData_eq]
    simp only [hfb, hbegin, hc1, hc2, childArray_zero, hmid, hglob, hnx, bind, Except.bind,
      pure, Except.pure]

theorem C14_no_sites_builds_leaf_witness :
    BuildJITTimeData true false sampleInlinee (some sampleInlineeRuntime) true = .ok sampleInlineeNode ∧
    (sampleInlineeNode.data.inlineeCount = 0 ∧ sampleInlineeNode.inlinees = none ∧
      sampleInlineeNode.data.ldFldInlineeCount = 0 ∧ sampleInlineeNode.ldFldInlinees = none ∧
      ∃ ri, FunctionJITTimeInfo.GetRuntimeInfo sampleInlineeNode = some ri ∧
        ri.clonedCacheCount = 0 ∧ ri.clonedInlineCaches.getD [] = []) ∧
    ∃ n, BuildJITTimeData true false sampleInlinee (some sampleInlineeRuntime) true = .ok n :=
  have hleaf := C14_no_sites_builds_leaf true false
    { functionInfo :=
        { addr := 40, localFunctionId := 8
          functionBody := some
            { dynamicProfileInfo := some 9
              defaultEntryPointInfo :=
                { callsCountAddr := 777, sharedPropertyGuards := some [7, 42, 100] } } }
      bodyData := some { functionBodyAddr := 400 } } [] [] none
    (some sampleInlineeRuntime) true
    { dynamicProfileInfo := some 9
      defaultEntryPointInfo :=
        { callsCountAddr := 777, sharedPropertyGuards := some [7, 42, 100] } }
    { functionBodyAddr := 400 } rfl rfl rfl rfl
  ⟨sampleInlinee_built true, hleaf.1 sampleInlineeNode (sampleInlinee_built true),
    hleaf.2 rfl rfl (fun hpos => absurd hpos (by decide)) (fun c1 hc1 => by cases hc1)⟩

/-! ## C15 -/

theorem slotAt_clearSlot {α : Type} (tbl : List (Option α)) (j k : Nat) :
    slotAt (clearSlot tbl j) k = if k = j then none else slotAt tbl k := by
  induction tbl generalizing j k with
  | nil => cases j <;> simp [clearSlot, slotAt]
  | cons x rest ih =>
    cases j with
    | zero =>
      cases k with
      | zero => simp [clearSlot, slotAt]
      | succ k => simp [clearSlot, slotAt]
    | succ j =>
      cases k with
      | zero => simp [clearSlot, slotAt]
      | succ k => simp [clearSlot, slotAt, ih]

theorem clearSlot_replicate_none {α : Type} (k j : Nat) :
    clearSlot (List.replicate k (none : Option α)) j = List.replicate k none := by
  induction k generalizing j with
  | zero => rfl
  | succ k ih =>
    cases j with
    | zero => rfl
    | succ j =>
      simp only [List.replicate_succ, clearSlot, ih]

/-- A slot of a built child array is filled whenever the source has a child there. -/
theorem buildSlots_filled (dbg dflt : Bool)
    (sel : Nat → Except Fault (Option FunctionCodeGenRuntimeData))
    (tbl : List (Option FunctionCodeGenJitTimeData)) (i k : Nat)
    (arr : List (Option FunctionJITTimeDataIDL))
    (h : buildSlots dbg dflt sel tbl i k = .ok arr) (j : Nat) (hj : j < k)
    (c1 : FunctionCodeGenJitTimeData) (hc1 : slotAt tbl j = some c1) :
    ∃ m, slotAt arr j = some m := by
  induction tbl generalizing i k arr j with
  | nil => simp [slotAt] at hc1
  | cons x rest ih =>
    cases k with
    | zero => omega
    | succ k =>
      cases x with
      | none =>
        simp only [buildSlots_cons_none, bind_eq_ok, pure_eq_ok] at h
        obtain ⟨_, _, others, hothers, rfl⟩ := h
        cases j with
        | zero => simp [slotAt] at hc1
        | succ j => exact ih _ _ _ hothers j (by omega) hc1
      | some c =>
        simp only [buildSlots_cons_some, bind_eq_ok, pure_eq_ok] at h
        obtain ⟨rt0, hrt0, node, hnode, others, hothers, rfl⟩ := h
        cases j with
        | zero => exact ⟨node, rfl⟩
        | succ j => exact ih _ _ _ hothers j (by omega) hc1

/-- Making a child context null leaves the loop successful and empties exactly its slot. -/
theorem buildSlots_clearSlot (dbg dflt : Bool)
    (sel : Nat → Except Fault (Option FunctionCodeGenRuntimeData))
    (tbl : List (Option FunctionCodeGenJitTimeData)) (i k : Nat)
    (arr : List (Option FunctionJITTimeDataIDL))
    (h : buildSlots dbg dflt sel tbl i k = .ok arr) (j : Nat) :
    buildSlots dbg dflt sel (clearSlot tbl j) i k = .ok (clearSlot arr j) := by
  induction tbl generalizing i k arr j with
  | nil =>
    cases k with
    | zero =>
      rw [buildSlots_zero] at h ⊢
      simp only [Except.ok.injEq] at h
      subst h
      cases j <;> rfl
    | succ k =>
      have hclear : clearSlot ([] : List (Option FunctionCodeGenJitTimeData)) j = [] := by
        cases j <;> rfl
      rw [hclear, h]
      rw [buildSlots_nil] at h
      rw [skipSlots_ok _ _ _ _ h, clearSlot_replicate_none]
  | cons x rest ih =>
    cases k with
    | zero =>
      rw [buildSlots_zero] at h ⊢
      simp only [Except.ok.injEq] at h
      subst h
      cases j <;> rfl
    | succ k =>
      cases x with
      | none =>
        simp only [buildSlots_cons_none, bind_eq_ok, pure_eq_ok] at h
        obtain ⟨rt0, hrt0, others, hothers, rfl⟩ := h
        cases j with
        | zero =>
          simp [clearSlot, buildSlots_cons_none, hrt0, hothers, bind, Except.bind, pure,
            Except.pure]
        | succ j =>
          simp [clearSlot, buildSlots_cons_none, hrt0, ih _ _ _ hothers j, bind, Except.bind,
            pure, Except.pure]
      | some c =>
        simp only [buildSlots_cons_some, bind_eq_ok, pure_eq_ok] at h
        obtain ⟨rt0, hrt0, node, hnode, others, hothers, rfl⟩ := h
        cases j with
        | zero =>
          simp [clearSlot, buildSlots_cons_none, hrt0, hothers, bind, Except.bind, pure,
            Except.pure]
        | succ j =>
          simp [clearSlot, buildSlots_cons_some, hrt0, hnode, ih _ _ _ hothers j, bind,
            Except.bind, pure, Except.pure]

theorem childArray_clearSlot (count : Nat)
    (loop loop1 : Except Fault (List (Option FunctionJITTimeDataIDL)))
    (res : Option (List (Option FunctionJITTimeDataIDL))) (j : Nat)
    (h : childArray count loop = .ok res)
    (hloop : ∀ arr, loop = .ok arr → loop1 = .ok (clearSlot arr j)) :
    childArray count loop1 = .ok (res.map (fun arr => clearSlot arr j)) := by
  rcases childArray_ok _ _ _ h with ⟨hz, hnone⟩ | ⟨hpos, arr, harr, hsome⟩
  · rw [hz, hnone]
    rfl
  · rw [hsome]
    simp [childArray, hpos, hloop arr harr, bind, Except.bind, pure, Except.pure]

/-- The stages of a build of a function with a body, as an equivalence. -/
theorem BuildJITTimeData_stages (dbg dflt : Bool) (cg : CodeGenFields)
    (inl ldf : List (Option FunctionCodeGenJitTimeData))
    (nxt : Option FunctionCodeGenJitTimeData) (rt : Option FunctionCodeGenRuntimeData)
    (f : Bool) (n : FunctionJITTimeDataIDL) (fb : FunctionBody)
    (hfb : cg.functionInfo.functionBody = some fb) :
    BuildJITTimeData dbg dflt (.mk cg inl ldf nxt) rt f = .ok n ↔
      ∃ jd body inlinees jd1 ldFlds jd2 next,
        beginBody dbg cg fb rt f = .ok (jd, body) ∧
        childArray body.profiledCallSiteCount
          (buildSlots dbg dflt (inlineeRuntimeData f rt fb) inl 0 body.profiledCallSiteCount)
          = .ok inlinees ∧
        middleBody cg rt f body jd = .ok jd1 ∧
        childArray body.inlineCacheCount
          (buildSlots dbg dflt (ldFldInlineeRuntimeData f rt fb) ldf 0 body.inlineCacheCount)
          = .ok ldFlds ∧
        globalBody dbg cg jd1 = .ok jd2 ∧
        buildNext dbg dflt (nextRuntimeData f rt fb) nxt = .ok next ∧
        n = .mk jd2 inlinees ldFlds next := by
  rw [BuildJITTimeData_eq]
  simp only [hfb, bind_eq_ok, pure_eq_ok]
  constructor
  · rintro ⟨⟨jd, body⟩, h1, inlinees, h2, jd1, h3, ldFlds, h4, jd2, h5, next, h6, h7⟩
    exact ⟨jd, body, inlinees, jd1, ldFlds, jd2, next, h1, h2, h3, h4, h5, h6, h7.symm⟩
  · rintro ⟨jd, body, inlinees, jd1, ldFlds, jd2, next, h1, h2, h3, h4, h5, h6, h7⟩
    exact ⟨(jd, body), h1, inlinees, h2, jd1, h3, ldFlds, h4, jd2, h5, next, h6, h7.symm⟩

/-- A build that succeeds still succeeds when one child context is missing, and returns the
same node with that one slot empty. -/
theorem BuildJITTimeData_without_child (dbg dflt : Bool) (c : FunctionCodeGenJitTimeData)
    (rt : Option FunctionCodeGenRuntimeData) (f : Bool) (n : FunctionJITTimeDataIDL)
    (h : BuildJITTimeData dbg dflt c rt f = .ok n) (j : Nat) :
    BuildJITTimeData dbg dflt (c.withoutInlinee j) rt f = .ok (n.withoutInlinee j) ∧
    BuildJITTimeData dbg dflt (c.withoutLdFldInlinee j) rt f = .ok (n.withoutLdFldInlinee j) := by
  obtain ⟨cg, inl, ldf, nxt⟩ := c
  cases hfb : cg.functionInfo.functionBody with
  | none =>
    rw [BuildJITTimeData_nobody _ _ _ _ _ _ _ _ hfb] at h
    simp only [Except.ok.injEq] at h
    subst h
    exact ⟨BuildJITTimeData_nobody _ _ _ _ _ _ _ _ hfb, BuildJITTimeData_nobody _ _ _ _ _ _ _ _ hfb⟩
  | some fb =>
    obtain ⟨jd, body, inlinees, jd1, ldFlds, jd2, next, h1, h2, h3, h4, h5, h6, rfl⟩ :=
      (BuildJITTimeData_stages _ _ _ _ _ _ _ _ _ _ hfb).1 h
    constructor
    · refine (BuildJITTimeData_stages dbg dflt cg (clearSlot inl j) ldf nxt rt f _ fb hfb).2
        ⟨jd, body, _, jd1, ldFlds, jd2, next, h1, ?_, h3, h4, h5, h6, rfl⟩
      exact childArray_clearSlot _ _ _ _ j h2
        (fun arr harr => buildSlots_clearSlot _ _ _ _ _ _ _ harr j)
    · refine (BuildJITTimeData_stages dbg dflt cg inl (clearSlot ldf j) nxt rt f _ fb hfb).2
        ⟨jd, body, inlinees, jd1, _, jd2, next, h1, h2, h3, ?_, h5, h6, rfl⟩
      exact childArray_clearSlot _ _ _ _ j h4
        (fun arr harr => buildSlots_clearSlot _ _ _ _ _ _ _ harr j)

theorem arraySlot_map_clearSlot (arr : Option (List (Option FunctionJITTimeDataIDL)))
    (j k : Nat) :
    arraySlot (arr.map (fun slots => clearSlot slots j)) k =
      if k = j then none else arraySlot arr k := by
  cases arr with
  | none => simp [arraySlot]
  | some slots => simp [arraySlot, slotAt_clearSlot]

/-- The in-range slots of a built node with a body: slot `i` is empty iff the source has no
child at `i`, and otherwise holds the node built, with the default of the omitted
`isInlinee` argument, from that child and the runtime child selected for `i`. -/
theorem BuildJITTimeData_slots (dbg dflt : Bool) (c : FunctionCodeGenJitTimeData)
    (rt : Option FunctionCodeGenRuntimeData) (f : Bool) (m : FunctionJITTimeDataIDL)
    (fb : FunctionBody) (h : BuildJITTimeData dbg dflt c rt f = .ok m)
    (hfb : c.GetFunctionInfo.functionBody = some fb) :
    ∃ body, FunctionJITTimeInfo.GetBody m = some body ∧
      (∀ i, i < body.profiledCallSiteCount →
        (arraySlot m.inlinees i = none ↔ c.GetInlinee i = none) ∧
        ∀ child, c.GetInlinee i = some child →
          ∃ rtc node, arraySlot m.inlinees i = some node ∧
            inlineeRuntimeData f rt fb i = .ok rtc ∧
            BuildJITTimeData dbg dflt child rtc dflt = .ok node) ∧
      (∀ i, i < body.inlineCacheCount →
        (arraySlot m.ldFldInlinees i = none ↔ c.GetLdFldInlinee i = none) ∧
        ∀ child, c.GetLdFldInlinee i = some child →
          ∃ rtc node, arraySlot m.ldFldInlinees i = some node ∧
            ldFldInlineeRuntimeData f rt fb i = .ok rtc ∧
            BuildJITTimeData dbg dflt child rtc dflt = .ok node) := by
  obtain ⟨cg, inl, ldf, nxt⟩ := c
  obtain ⟨jd0, body, ri, _, _, _, _, -, -, hbd, -, hdata, hinl, hldf, -⟩ :=
    BuildJITTimeData_body _ _ _ _ _ _ _ _ _ _ h hfb
  have key : ∀ (sel : Nat → Except Fault (Option FunctionCodeGenRuntimeData))
      (tbl : List (Option FunctionCodeGenJitTimeData)) (count : Nat)
      (res : Option (List (Option FunctionJITTimeDataIDL))),
      childArray count (buildSlots dbg dflt sel tbl 0 count) = .ok res →
      ∀ i, i < count →
        (arraySlot res i = none ↔ slotAt tbl i = none) ∧
        ∀ child, slotAt tbl i = some child →
          ∃ rtc node, arraySlot res i = some node ∧ sel i = .ok rtc ∧
            BuildJITTimeData dbg dflt child rtc dflt = .ok node := by
    intro sel tbl count res hres i hi
    rcases childArray_ok _ _ _ hres with ⟨hz, -⟩ | ⟨-, arr, harr, hsome⟩
    · omega
    · subst hsome
      simp only [arraySlot]
      have hchild : ∀ child, slotAt tbl i = some child →
          ∃ rtc node, slotAt arr i = some node ∧ sel i = .ok rtc ∧
            BuildJITTimeData dbg dflt child rtc dflt = .ok node := by
        intro child hchild
        obtain ⟨node, hnode⟩ := buildSlots_filled _ _ _ _ _ _ _ harr i hi child hchild
        obtain ⟨c1, rt1, h1, h2, h3⟩ := buildSlots_slotAt _ _ _ _ _ _ _ harr i node hnode
        rw [hchild] at h1
        simp only [Option.some.injEq] at h1
        subst h1
        rw [Nat.zero_add] at h2
        exact ⟨rt1, node, hnode, h2, h3⟩
      refine ⟨⟨fun hnone => ?_, fun hnone => ?_⟩, hchild⟩
      · cases hs : slotAt tbl i with
        | none => rfl
        | some child =>
          obtain ⟨_, node, hnode, -, -⟩ := hchild child hs
          rw [hnone] at hnode
          cases hnode
      · cases hs : slotAt arr i with
        | none => rfl
        | some node =>
          obtain ⟨c1, _, h1, -, -⟩ := buildSlots_slotAt _ _ _ _ _ _ _ harr i node hs
          rw [hnone] at h1
          cases h1
  refine ⟨body, ?_, key _ inl _ _ hinl, key _ ldf _ _ hldf⟩
  simp [FunctionJITTimeInfo.GetBody, hdata, hbd]

/-- C15: every node of a built tree is the result of a build of the source context at its
position. When that context's function has a body, for every in-range index the call-site
slot is empty iff the context has no child at that call site and otherwise holds the node
built from that child, whose identity address is the child's function-info address; likewise
for the field-access slots. A build that succeeds still succeeds when the child at any one
call site or inline cache is missing, and it returns the same node with that one slot empty:
every other slot, the scalar fields and the successor are unchanged. -/
theorem C15_slot_empty_iff_child_missing (dbg dflt : Bool) (c : FunctionCodeGenJitTimeData)
    (rt : Option FunctionCodeGenRuntimeData) (f : Bool) (root : FunctionJITTimeDataIDL)
    (h : BuildJITTimeData dbg dflt c rt f = .ok root) (path : List Edge)
    (m : FunctionJITTimeDataIDL) (hm : root.follow path = some m) :
    ∃ c1 rt1 f1, c.follow path = some c1 ∧ BuildJITTimeData dbg dflt c1 rt1 f1 = .ok m ∧
      (c1.GetFunctionInfo.HasBody = true →
        ∃ body, FunctionJITTimeInfo.GetBody m = some body ∧
          (∀ i, i < body.profiledCallSiteCount →
            (arraySlot m.inlinees i = none ↔ c1.GetInlinee i = none) ∧
            ∀ child, c1.GetInlinee i = some child →
              ∃ rtc node, arraySlot m.inlinees i = some node ∧
                BuildJITTimeData dbg dflt child rtc dflt = .ok node ∧
                FunctionJITTimeInfo.GetFunctionInfoAddr node = child.GetFunctionInfo.addr) ∧
          (∀ i, i < body.inlineCacheCount →
            (arraySlot m.ldFldInlinees i = none ↔ c1.GetLdFldInlinee i = none) ∧
            ∀ child, c1.GetLdFldInlinee i = some child →
              ∃ rtc node, arraySlot m.ldFldInlinees i = some node ∧
                BuildJITTimeData dbg dflt child rtc dflt = .ok node ∧
                FunctionJITTimeInfo.GetFunctionInfoAddr node = child.GetFunctionInfo.addr)) ∧
      (∀ j, BuildJITTimeData dbg dflt (c1.withoutInlinee j) rt1 f1 = .ok (m.withoutInlinee j) ∧
        (m.withoutInlinee j).data = m.data ∧
        arraySlot (m.withoutInlinee j).inlinees j = none ∧
        (∀ k, k ≠ j → arraySlot (m.withoutInlinee j).inlinees k = arraySlot m.inlinees k) ∧
        (m.withoutInlinee j).ldFldInlinees = m.ldFldInlinees ∧
        (m.withoutInlinee j).next = m.next) ∧
      (∀ j, BuildJITTimeData dbg dflt (c1.withoutLdFldInlinee j) rt1 f1
          = .ok (m.withoutLdFldInlinee j) ∧
        (m.withoutLdFldInlinee j).data = m.data ∧
        arraySlot (m.withoutLdFldInlinee j).ldFldInlinees j = none ∧
        (∀ k, k ≠ j →
          arraySlot (m.withoutLdFldInlinee j).ldFldInlinees k = arraySlot m.ldFldInlinees k) ∧
        (m.withoutLdFldInlinee j).inlinees = m.inlinees ∧
        (m.withoutLdFldInlinee j).next = m.next) := by
  obtain ⟨c1, rt1, f1, hc1, hb1, -, -⟩ := BuildJITTimeData_follow dbg dflt path c rt f root m h hm
  refine ⟨c1, rt1, f1, hc1, hb1, fun hbody => ?_, fun j => ?_, fun j => ?_⟩
  · cases hfb : c1.GetFunctionInfo.functionBody with
    | none => simp [FunctionInfo.HasBody, hfb] at hbody
    | some fb =>
      obtain ⟨body, hbd, hcs, hlf⟩ := BuildJITTimeData_slots _ _ _ _ _ _ fb hb1 hfb
      refine ⟨body, hbd, fun i hi => ⟨(hcs i hi).1, fun child hchild => ?_⟩,
        fun i hi => ⟨(hlf i hi).1, fun child hchild => ?_⟩⟩
      · obtain ⟨rtc, node, h1, -, h3⟩ := (hcs i hi).2 child hchild
        exact ⟨rtc, node, h1, h3, (BuildJITTimeData_scalars _ _ _ _ _ _ h3).1⟩
      · obtain ⟨rtc, node, h1, -, h3⟩ := (hlf i hi).2 child hchild
        exact ⟨rtc, node, h1, h3, (BuildJITTimeData_scalars _ _ _ _ _ _ h3).1⟩
  · refine ⟨(BuildJITTimeData_without_child _ _ _ _ _ _ hb1 j).1, ?_⟩
    obtain ⟨d, inl, ldf, nxt⟩ := m
    refine ⟨rfl, ?_, fun k hk => ?_, rfl, rfl⟩
    · show arraySlot (inl.map (fun arr => clearSlot arr j)) j = none
      simp [arraySlot_map_clearSlot]
    · show arraySlot (inl.map (fun arr => clearSlot arr j)) k = arraySlot inl k
      simp [arraySlot_map_clearSlot, hk]
  · refine ⟨(BuildJITTimeData_without_child _ _ _ _ _ _ hb1 j).2, ?_⟩
    obtain ⟨d, inl, ldf, nxt⟩ := m
    refine ⟨rfl, ?_, fun k hk => ?_, rfl, rfl⟩
    · show arraySlot (ldf.map (fun arr => clearSlot arr j)) j = none
      simp [arraySlot_map_clearSlot]
    · show arraySlot (ldf.map (fun arr => clearSlot arr j)) k = arraySlot ldf k
      simp [arraySlot_map_clearSlot, hk]

theorem C15_slot_empty_iff_child_missing_witness :
    BuildJITTimeData true false sampleRoot none false = .ok sampleRootNode ∧
    arraySlot sampleRootNode.inlinees 0 = some sampleCallee1Node ∧
    arraySlot sampleRootNode.inlinees 1 = none ∧
    sampleRoot.GetInlinee 1 = none ∧
    ∃ c1 rt1 f1, sampleRoot.follow [] = some c1 ∧
      BuildJITTimeData true false c1 rt1 f1 = .ok sampleRootNode ∧
      ∀ j, BuildJITTimeData true false (c1.withoutInlinee j) rt1 f1
        = .ok (sampleRootNode.withoutInlinee j) :=
  have hslots := C15_slot_empty_iff_child_missing true false sampleRoot none false sampleRootNode
    (sampleRoot_built true) [] sampleRootNode rfl
  ⟨sampleRoot_built true, rfl, rfl, rfl,
    hslots.elim fun c1 h1 => h1.elim fun rt1 h2 => h2.elim fun f1 h3 =>
      ⟨c1, rt1, f1, h3.1, h3.2.1, fun j => (h3.2.2.2.1 j).1⟩⟩

/-! ## C16 -/

/-- C16: the node returned for a code-gen context, with or without a body, reproduces the
context's scalar fields: `GetFunctionInfoAddr()` is the function-info address,
`GetWeakFuncRef()` the weak-function-reference address, `GetLocalFunctionId()` the local
function id, `IsAggressiveInliningEnabled()` and `IsInlined()` the two flags,
`GetInlineesBV()` the bitvector reference, and `HasBody()` holds iff the context's body
reference is non-null. -/
theorem C16_scalar_fields_copied (dbg dflt : Bool) (c : FunctionCodeGenJitTimeData)
    (rt : Option FunctionCodeGenRuntimeData) (f : Bool) (n : FunctionJITTimeDataIDL)
    (h : BuildJITTimeData dbg dflt c rt f = .ok n) :
    FunctionJITTimeInfo.GetFunctionInfoAddr n = c.GetFunctionInfo.addr ∧
    FunctionJITTimeInfo.GetWeakFuncRef n = c.fields.weakFuncRef ∧
    FunctionJITTimeInfo.GetLocalFunctionId n = c.GetFunctionInfo.localFunctionId ∧
    FunctionJITTimeInfo.IsAggressiveInliningEnabled n = c.fields.isAggressiveInliningEnabled ∧
    FunctionJITTimeInfo.IsInlined n = c.fields.isInlined ∧
    FunctionJITTimeInfo.GetInlineesBV n = c.fields.inlineesBv ∧
    (FunctionJITTimeInfo.HasBody n = true ↔ c.GetJITBody ≠ none) := by
  obtain ⟨h1, h2, h3, h4, h5, h6, h7⟩ := BuildJITTimeData_scalars _ _ _ _ _ _ h
  refine ⟨h1, h5, h2, h3, h4, h6, ?_⟩
  unfold FunctionJITTimeInfo.HasBody
  rw [h7]
  cases c.GetJITBody <;> simp

theorem C16_scalar_fields_copied_witness :
    BuildJITTimeData true false sampleInlinee (some sampleInlineeRuntime) true = .ok sampleInlineeNode ∧
    FunctionJITTimeInfo.GetFunctionInfoAddr sampleInlineeNode = 40 ∧
    FunctionJITTimeInfo.GetLocalFunctionId sampleInlineeNode = 8 ∧
    FunctionJITTimeInfo.GetFunctionInfoAddr sampleInlineeNode =
      sampleInlinee.GetFunctionInfo.addr :=
  ⟨sampleInlinee_built true, rfl, rfl,
    (C16_scalar_fields_copied true false sampleInlinee (some sampleInlineeRuntime) true
      sampleInlineeNode (sampleInlinee_built true)).1⟩

/-! ## C17 -/

theorem GetInlineeRuntimeData_none (dbg : Bool) (n : FunctionJITTimeDataIDL) (i : Nat)
    (h : FunctionJITTimeInfo.GetInlinee dbg n i = .ok none) :
    FunctionJITTimeInfo.GetInlineeRuntimeData dbg n i = .ok none := by
  unfold FunctionJITTimeInfo.GetInlineeRuntimeData
  simp [h, bind, Except.bind, pure, Except.pure]

theorem GetInlineeRuntimeData_some (dbg : Bool) (n : FunctionJITTimeDataIDL) (i : Nat)
    (m : FunctionJITTimeDataIDL)
    (h : FunctionJITTimeInfo.GetInlinee dbg n i = .ok (some m)) :
    FunctionJITTimeInfo.GetInlineeRuntimeData dbg n i =
      .ok (FunctionJITTimeInfo.GetRuntimeInfo m) := by
  unfold FunctionJITTimeInfo.GetInlineeRuntimeData
  simp [h, bind, Except.bind, pure, Except.pure, deref]

theorem GetLdFldInlineeRuntimeData_none (dbg : Bool) (n : FunctionJITTimeDataIDL) (i : Nat)
    (h : FunctionJITTimeInfo.GetLdFldInlinee dbg n i = .ok none) :
    FunctionJITTimeInfo.GetLdFldInlineeRuntimeData dbg n i = .ok none := by
  unfold FunctionJITTimeInfo.GetLdFldInlineeRuntimeData
  simp [h, bind, Except.bind, pure, Except.pure]

theorem GetLdFldInlineeRuntimeData_some (dbg : Bool) (n : FunctionJITTimeDataIDL) (i : Nat)
    (m : FunctionJITTimeDataIDL)
    (h : FunctionJITTimeInfo.GetLdFldInlinee dbg n i = .ok (some m)) :
    FunctionJITTimeInfo.GetLdFldInlineeRuntimeData dbg n i =
      .ok (FunctionJITTimeInfo.GetRuntimeInfo m) := by
  unfold FunctionJITTimeInfo.GetLdFldInlineeRuntimeData
  simp [h, bind, Except.bind, pure, Except.pure, deref]

/-- C17: on every node of a built tree that has a body, for every in-range call-site index
`GetInlinee(i)` returns, and `GetInlineeRuntimeData(i)` returns none when `GetInlinee(i)` is
none and `GetInlinee(i).GetRuntimeInfo()` otherwise; likewise `GetLdFldInlineeRuntimeData(i)`
for every in-range inline-cache index and `GetLdFldInlinee(i)`. An empty slot is answered
with none, in either build kind. -/
theorem C17_runtime_data_follows_lookup (dbg dflt : Bool) (c : FunctionCodeGenJitTimeData)
    (rt : Option FunctionCodeGenRuntimeData) (f : Bool) (root : FunctionJITTimeDataIDL)
    (h : BuildJITTimeData dbg dflt c rt f = .ok root) (path : List Edge)
    (n : FunctionJITTimeDataIDL) (hn : root.follow path = some n)
    (body : FunctionBodyDataIDL) (hbody : FunctionJITTimeInfo.GetBody n = some body)
    (i : Nat) (dbg1 : Bool) :
    (i < body.profiledCallSiteCount →
      ∃ r, FunctionJITTimeInfo.GetInlinee dbg1 n i = .ok r ∧
        r = arraySlot n.inlinees i ∧
        (r = none → FunctionJITTimeInfo.GetInlineeRuntimeData dbg1 n i = .ok none) ∧
        (∀ m, r = some m → FunctionJITTimeInfo.GetInlineeRuntimeData dbg1 n i =
          .ok (FunctionJITTimeInfo.GetRuntimeInfo m))) ∧
    (i < body.inlineCacheCount →
      ∃ r, FunctionJITTimeInfo.GetLdFldInlinee dbg1 n i = .ok r ∧
        r = arraySlot n.ldFldInlinees i ∧
        (r = none → FunctionJITTimeInfo.GetLdFldInlineeRuntimeData dbg1 n i = .ok none) ∧
        (∀ m, r = some m → FunctionJITTimeInfo.GetLdFldInlineeRuntimeData dbg1 n i =
          .ok (FunctionJITTimeInfo.GetRuntimeInfo m))) := by
  obtain ⟨c1, rt1, f1, -, hb1, -, -⟩ := BuildJITTimeData_follow dbg dflt path c rt f root n h hn
  constructor
  · intro hi
    have hget := GetInlinee_built dbg dflt c1 rt1 f1 n hb1 dbg1 body hbody i hi
    refine ⟨_, hget, rfl, fun hnone => ?_, fun m hsome => ?_⟩
    · rw [hnone] at hget
      exact GetInlineeRuntimeData_none dbg1 n i hget
    · rw [hsome] at hget
      exact GetInlineeRuntimeData_some dbg1 n i m hget
  · intro hi
    have hget := GetLdFldInlinee_built dbg dflt c1 rt1 f1 n hb1 dbg1 body hbody i hi
    refine ⟨_, hget, rfl, fun hnone => ?_, fun m hsome => ?_⟩
    · rw [hnone] at hget
      exact GetLdFldInlineeRuntimeData_none dbg1 n i hget
    · rw [hsome] at hget
      exact GetLdFldInlineeRuntimeData_some dbg1 n i m hget

theorem C17_runtime_data_follows_lookup_witness :
    BuildJITTimeData true false sampleRoot none false = .ok sampleRootNode ∧
    FunctionJITTimeInfo.GetInlineeRuntimeData true sampleRootNode 0 = .ok (some {}) ∧
    FunctionJITTimeInfo.GetInlineeRuntimeData true sampleRootNode 1 = .ok none ∧
    FunctionJITTimeInfo.GetLdFldInlineeRuntimeData true sampleRootNode 0 = .ok none ∧
    ∃ r, FunctionJITTimeInfo.GetInlinee true sampleRootNode 1 = .ok r ∧
      r = arraySlot sampleRootNode.inlinees 1 ∧
      (r = none → FunctionJITTimeInfo.GetInlineeRuntimeData true sampleRootNode 1 = .ok none) ∧
      (∀ m, r = some m → FunctionJITTimeInfo.GetInlineeRuntimeData true sampleRootNode 1 =
        .ok (FunctionJITTimeInfo.GetRuntimeInfo m)) :=
  ⟨sampleRoot_built true, rfl, rfl, rfl,
    (C17_runtime_data_follows_lookup true false sampleRoot none false sampleRootNode
      (sampleRoot_built true) [] sampleRootNode rfl
      { functionBodyAddr := 50, profiledCallSiteCount := 2, inlineCacheCount := 1,
        profileData := some ⟨7⟩ } rfl 1 true).1 (by decide)⟩

/-! ## C18 -/

theorem sampleCachedInlinee_built (dbg : Bool) :
    BuildJITTimeData dbg false sampleCachedInlinee (some sampleCachedRuntime) true =
      .ok sampleCachedInlineeNode := by
  cases dbg <;> rfl

theorem buildRuntimeInfo_cases (rt : Option FunctionCodeGenRuntimeData) (f : Bool)
    (body : FunctionBodyDataIDL) (ri : FunctionJITRuntimeIDL)
    (h : buildRuntimeInfo f rt body = .ok ri) :
    (∀ r, f = true → rt = some r → r.HasInlineCaches = true →
      ri = { clonedCacheCount := body.inlineCacheCount
             clonedInlineCaches :=
               some ((List.range body.inlineCacheCount).map r.GetInlineCache) }) ∧
    ((f = false ∨ ∃ r, rt = some r ∧ r.HasInlineCaches = false) → ri = {}) := by
  unfold buildRuntimeInfo at h
  cases f with
  | false =>
    simp only [Bool.false_eq_true, if_false, pure_eq_ok] at h
    subst h
    exact ⟨fun r hf => (by cases hf), fun _ => rfl⟩
  | true =>
    simp only [if_true, bind_eq_ok, deref_eq_ok] at h
    obtain ⟨r, hr, h⟩ := h
    subst hr
    cases hc : r.HasInlineCaches with
    | true =>
      simp only [hc, if_true, pure_eq_ok] at h
      subst h
      refine ⟨fun r1 _ hr1 _ => ?_, fun hcase => ?_⟩
      · simp only [Option.some.injEq] at hr1
        subst hr1
        rfl
      · rcases hcase with hf | ⟨r1, hr1, hno⟩
        · cases hf
        · simp only [Option.some.injEq] at hr1
          subst hr1
          rw [hc] at hno
          cases hno
    | false =>
      simp only [hc, Bool.false_eq_true, if_false, pure_eq_ok] at h
      subst h
      refine ⟨fun r1 _ hr1 hyes => ?_, fun _ => rfl⟩
      simp only [Option.some.injEq] at hr1
      subst hr1
      rw [hc] at hyes
      cases hyes

/-- C18: for a node built from a function with a body, the runtime-data record is present;
when the build ran with `isInlinee = true` and its runtime-profiling context has cloned
inline caches, the record has `clonedCacheCount` equal to the body's `inlineCacheCount` and a
cache array of that many entries whose entry `j` is the address of the runtime context's
cloned inline cache `j`; when the flag is false, or the runtime context has no cloned caches,
the record has `clonedCacheCount = 0` and no cache array. -/
theorem C18_cloned_caches_copied (dbg dflt : Bool) (c : FunctionCodeGenJitTimeData)
    (rt : Option FunctionCodeGenRuntimeData) (f : Bool) (n : FunctionJITTimeDataIDL)
    (h : BuildJITTimeData dbg dflt c rt f = .ok n) (hbody : c.GetFunctionInfo.HasBody = true) :
    ∃ body jitBody ri, FunctionJITTimeInfo.GetBody n = some body ∧
      c.GetJITBody = some jitBody ∧ body.inlineCacheCount = jitBody.inlineCacheCount ∧
      FunctionJITTimeInfo.GetRuntimeInfo n = some ri ∧
      (∀ r, f = true → rt = some r → r.HasInlineCaches = true →
        ri.clonedCacheCount = body.inlineCacheCount ∧
        ∃ caches, ri.clonedInlineCaches = some caches ∧
          caches.length = body.inlineCacheCount ∧
          ∀ j, j < body.inlineCacheCount → caches[j]? = some (r.GetInlineCache j)) ∧
      ((f = false ∨ ∃ r, rt = some r ∧ r.HasInlineCaches = false) →
        ri.clonedCacheCount = 0 ∧ ri.clonedInlineCaches = none) := by
  obtain ⟨body, ri, hbd, hri, hget⟩ := (BuildJITTimeData_runtimeInfo _ _ _ _ _ _ h).1 hbody
  obtain ⟨body1, jitBody, hbd1, hjit, -, hicc, -⟩ := (BuildJITTimeData_counts _ _ _ _ _ _ h).1 hbody
  rw [hbd] at hbd1
  simp only [Option.some.injEq] at hbd1
  subst hbd1
  obtain ⟨hyes, hno⟩ := buildRuntimeInfo_cases rt f body ri hri
  refine ⟨body, jitBody, ri, hbd, hjit, hicc, hget, fun r hf hr hc => ?_, fun hcase => ?_⟩
  · rw [hyes r hf hr hc]
    refine ⟨rfl, _, rfl, by simp, fun j hj => ?_⟩
    simp [List.getElem?_map, List.getElem?_range, hj]
  · rw [hno hcase]
    exact ⟨rfl, rfl⟩

theorem C18_cloned_caches_copied_witness :
    BuildJITTimeData true false sampleCachedInlinee (some sampleCachedRuntime) true =
      .ok sampleCachedInlineeNode ∧
    FunctionJITTimeInfo.GetRuntimeInfo sampleCachedInlineeNode =
      some { clonedCacheCount := 3, clonedInlineCaches := some [900, 901, 902] } ∧
    ∃ body jitBody ri, FunctionJITTimeInfo.GetBody sampleCachedInlineeNode = some body ∧
      sampleCachedInlinee.GetJITBody = some jitBody ∧
      body.inlineCacheCount = jitBody.inlineCacheCount ∧
      FunctionJITTimeInfo.GetRuntimeInfo sampleCachedInlineeNode = some ri ∧
      (∀ r, true = true → some sampleCachedRuntime = some r → r.HasInlineCaches = true →
        ri.clonedCacheCount = body.inlineCacheCount ∧
        ∃ caches, ri.clonedInlineCaches = some caches ∧
          caches.length = body.inlineCacheCount ∧
          ∀ j, j < body.inlineCacheCount → caches[j]? = some (r.GetInlineCache j)) ∧
      ((true = false ∨ ∃ r, some sampleCachedRuntime = some r ∧ r.HasInlineCaches = false) →
        ri.clonedCacheCount = 0 ∧ ri.clonedInlineCaches = none) :=
  ⟨sampleCachedInlinee_built true, rfl,
    C18_cloned_caches_copied true false sampleCachedInlinee (some sampleCachedRuntime) true
      sampleCachedInlineeNode (sampleCachedInlinee_built true) rfl⟩

/-! ## C19 -/

/-- The successor of a built node with a body is built from the source's next candidate and
the runtime counterpart selected by `nextRuntimeData`. -/
theorem BuildJITTimeData_next_runtime (dbg dflt : Bool) (c : FunctionCodeGenJitTimeData)
    (rt : Option FunctionCodeGenRuntimeData) (f : Bool) (m : FunctionJITTimeDataIDL)
    (fb : FunctionBody) (h : BuildJITTimeData dbg dflt c rt f = .ok m)
    (hfb : c.GetFunctionInfo.functionBody = some fb)
    (c2 : FunctionCodeGenJitTimeData) (hc2 : c.GetNext = some c2) :
    ∃ rtn node, nextRuntimeData f rt fb = .ok rtn ∧ m.next = some node ∧
      BuildJITTimeData dbg dflt c2 rtn dflt = .ok node := by
  obtain ⟨cg, inl, ldf, nxt⟩ := c
  obtain ⟨jd0, body, ri, _, _, _, _, -, -, -, -, -, -, -, hnext⟩ :=
    BuildJITTimeData_body _ _ _ _ _ _ _ _ _ _ h hfb
  simp only [FunctionCodeGenJitTimeData.GetNext] at hc2
  subst hc2
  simp only [buildNext_some, bind_eq_ok, pure_eq_ok] at hnext
  obtain ⟨rtn, hrtn, node, hnode, heq⟩ := hnext
  exact ⟨rtn, node, hrtn, heq.symm, hnode⟩

/-- The ternary of line 77: the body's table for a non-inlinee, the runtime context passed
in (which is then dereferenced) for an inlinee. -/
theorem inlineeRuntimeData_cases (f : Bool) (rt : Option FunctionCodeGenRuntimeData)
    (fb : FunctionBody) (i : Nat) (rtc : Option FunctionCodeGenRuntimeData)
    (h : inlineeRuntimeData f rt fb i = .ok rtc) :
    (f = false → rtc = fb.GetInlineeCodeGenRuntimeData i) ∧
    (f = true → ∃ r, rt = some r ∧ rtc = r.GetInlinee i) := by
  cases f with
  | false =>
    simp only [inlineeRuntimeData, Bool.false_eq_true, if_false, pure_eq_ok] at h
    exact ⟨fun _ => h.symm, fun hf => by cases hf⟩
  | true =>
    simp only [inlineeRuntimeData, if_true, bind_eq_ok, deref_eq_ok, pure_eq_ok] at h
    obtain ⟨r, hr, hrtc⟩ := h
    exact ⟨fun hf => (by cases hf), fun _ => ⟨r, hr, hrtc.symm⟩⟩

/-- The ternary of line 112, as `inlineeRuntimeData_cases`. -/
theorem ldFldInlineeRuntimeData_cases (f : Bool) (rt : Option FunctionCodeGenRuntimeData)
    (fb : FunctionBody) (i : Nat) (rtc : Option FunctionCodeGenRuntimeData)
    (h : ldFldInlineeRuntimeData f rt fb i = .ok rtc) :
    (f = false → rtc = fb.GetLdFldInlineeCodeGenRuntimeData i) ∧
    (f = true → ∃ r, rt = some r ∧ rtc = r.GetLdFldInlinee i) := by
  cases f with
  | false =>
    simp only [ldFldInlineeRuntimeData, Bool.false_eq_true, if_false, pure_eq_ok] at h
    exact ⟨fun _ => h.symm, fun hf => by cases hf⟩
  | true =>
    simp only [ldFldInlineeRuntimeData, if_true, bind_eq_ok, deref_eq_ok, pure_eq_ok] at h
    obtain ⟨r, hr, hrtc⟩ := h
    exact ⟨fun hf => (by cases hf), fun _ => ⟨r, hr, hrtc.symm⟩⟩

/-- The ternary of line 132, as `inlineeRuntimeData_cases`. -/
theorem nextRuntimeData_cases (f : Bool) (rt : Option FunctionCodeGenRuntimeData)
    (fb : FunctionBody) (rtn : Option FunctionCodeGenRuntimeData)
    (h : nextRuntimeData f rt fb = .ok rtn) :
    (f = false → rtn = slotAt fb.codeGenRuntimeDataWithLock 1) ∧
    (f = true → ∃ r, rt = some r ∧ rtn = r.GetNext) := by
  cases f with
  | false =>
    simp only [nextRuntimeData, Bool.false_eq_true, if_false, pure_eq_ok] at h
    exact ⟨fun _ => h.symm, fun hf => by cases hf⟩
  | true =>
    simp only [nextRuntimeData, if_true, bind_eq_ok, deref_eq_ok, pure_eq_ok] at h
    obtain ⟨r, hr, hrtn⟩ := h
    exact ⟨fun hf => (by cases hf), fun _ => ⟨r, hr, hrtn.symm⟩⟩

theorem sampleInlineeParent_built (dbg : Bool) :
    BuildJITTimeData dbg false sampleInlineeParent (some sampleInlineeRuntime) true =
      .ok sampleInlineeParentNode := by
  cases dbg <;> rfl

theorem sampleGuardedRoot_built (dbg : Bool) :
    BuildJITTimeData dbg true sampleGuardedRoot none false = .ok sampleGuardedRootNode := by
  cases dbg <;> rfl

/-- C19 fails as stated, whatever value the omitted `isInlinee` argument defaults to. For
both values the build of `sampleMixedRoot` returns a tree whose call-site child, a function
without a body, has no runtime-data record at all. When the default is `true`, the build of
the non-inlinee root `sampleGuardedRoot` returns a tree whose call-site child was built
with `isInlinee = true` from the runtime data the root's body records for that call site:
it has three shared property guards and the call-count address of its entry point. -/
theorem C19_non_root_nodes_counterexample :
    BuildJITTimeData true false sampleMixedRoot none false = .ok sampleMixedRootNode ∧
    BuildJITTimeData true true sampleMixedRoot none false = .ok sampleMixedRootNode ∧
    sampleMixedRootNode.follow [.callSite 0] = some sampleMixedHeadNode ∧
    FunctionJITTimeInfo.GetRuntimeInfo sampleMixedHeadNode = none ∧
    BuildJITTimeData true true sampleGuardedRoot none false = .ok sampleGuardedRootNode ∧
    sampleGuardedRootNode.follow [.callSite 0] = some sampleInlineeNode ∧
    BuildJITTimeData true true sampleInlinee (some sampleInlineeRuntime) true
      = .ok sampleInlineeNode ∧
    FunctionJITTimeInfo.HasSharedPropertyGuards sampleInlineeNode = true ∧
    sampleInlineeNode.data.sharedPropGuardCount = 3 ∧
    sampleInlineeNode.data.callsCountAddress = 777 :=
  ⟨rfl, rfl, rfl, rfl, rfl, rfl, rfl, rfl, rfl, rfl⟩

/-- C19, amended: the recursive calls pass no flag, so for either value of the root's
is-inlinee flag every node below the root of a built tree (reached through call-site,
field-access or successor edges) is the result of a build that ran with the default `dflt`
of the omitted argument, and a node whose function has no body has no runtime-data record.
When that default is `false`, the node has no shared property guards, a zero call-count
address and, when its function has a body, the zeroed runtime-data record
(`clonedCacheCount = 0`, no cache array). Each of its own children and its successor is
built with a runtime context that, when the default is `false`, is read from its body's
tables (`GetInlineeCodeGenRuntimeData(i)`, `GetLdFldInlineeCodeGenRuntimeData(i)`,
`GetCodeGenRuntimeDataWithLock()[1]`) and, when the default is `true`, from the runtime
context passed to it (`GetInlinee(i)`, `GetLdFldInlinee(i)`, `GetNext()`). -/
theorem C19_children_built_with_default_flag (dbg dflt : Bool)
    (c : FunctionCodeGenJitTimeData)
    (rt : Option FunctionCodeGenRuntimeData) (f : Bool) (root : FunctionJITTimeDataIDL)
    (h : BuildJITTimeData dbg dflt c rt f = .ok root) (path : List Edge) (hne : path ≠ [])
    (m : FunctionJITTimeDataIDL) (hm : root.follow path = some m) :
    ∃ c1 rt1, c.follow path = some c1 ∧ BuildJITTimeData dbg dflt c1 rt1 dflt = .ok m ∧
      (c1.GetFunctionInfo.HasBody = false → FunctionJITTimeInfo.GetRuntimeInfo m = none) ∧
      (dflt = false →
        FunctionJITTimeInfo.HasSharedPropertyGuards m = false ∧
        m.data.sharedPropGuardCount = 0 ∧ m.data.sharedPropertyGuards = none ∧
        m.data.callsCountAddress = 0 ∧
        (c1.GetFunctionInfo.HasBody = true →
          FunctionJITTimeInfo.GetRuntimeInfo m = some {}) ∧
        (∀ ri, FunctionJITTimeInfo.GetRuntimeInfo m = some ri →
          ri.clonedCacheCount = 0 ∧ ri.clonedInlineCaches = none)) ∧
      (∀ fb, c1.GetFunctionInfo.functionBody = some fb →
        ∃ body, FunctionJITTimeInfo.GetBody m = some body ∧
          (∀ i child, i < body.profiledCallSiteCount → c1.GetInlinee i = some child →
            ∃ rtc node, arraySlot m.inlinees i = some node ∧
              BuildJITTimeData dbg dflt child rtc dflt = .ok node ∧
              (dflt = false → rtc = fb.GetInlineeCodeGenRuntimeData i) ∧
              (dflt = true → ∃ r, rt1 = some r ∧ rtc = r.GetInlinee i)) ∧
          (∀ i child, i < body.inlineCacheCount → c1.GetLdFldInlinee i = some child →
            ∃ rtc node, arraySlot m.ldFldInlinees i = some node ∧
              BuildJITTimeData dbg dflt child rtc dflt = .ok node ∧
              (dflt = false → rtc = fb.GetLdFldInlineeCodeGenRuntimeData i) ∧
              (dflt = true → ∃ r, rt1 = some r ∧ rtc = r.GetLdFldInlinee i)) ∧
          (∀ c2, c1.GetNext = some c2 →
            ∃ rtn node, m.next = some node ∧
              BuildJITTimeData dbg dflt c2 rtn dflt = .ok node ∧
              (dflt = false → rtn = slotAt fb.codeGenRuntimeDataWithLock 1) ∧
              (dflt = true → ∃ r, rt1 = some r ∧ rtn = r.GetNext))) := by
  obtain ⟨c1, rt1, f1, hc1, hb1, -, hbelow⟩ :=
    BuildJITTimeData_follow dbg dflt path c rt f root m h hm
  have hf1 : f1 = dflt := hbelow hne
  rw [hf1] at hb1
  obtain ⟨hhas, hno⟩ := BuildJITTimeData_runtimeInfo _ _ _ _ _ _ hb1
  refine ⟨c1, rt1, hc1, hb1, hno, fun hd => ?_, fun fb hfb => ?_⟩
  · obtain ⟨hcca, hcount, hguards⟩ :=
      BuildJITTimeData_no_guards _ _ _ _ _ _ hb1 (Or.inl hd)
    have hrec : c1.GetFunctionInfo.HasBody = true →
        FunctionJITTimeInfo.GetRuntimeInfo m = some {} := by
      intro hbody
      obtain ⟨body, ri, -, hri, hget⟩ := hhas hbody
      have : ri = {} := by
        rw [hd] at hri
        simp only [buildRuntimeInfo, Bool.false_eq_true, if_false, pure_eq_ok] at hri
        exact hri.symm
      rw [hget, this]
    refine ⟨?_, hcount, hguards, hcca, hrec, fun ri hri => ?_⟩
    · simp [FunctionJITTimeInfo.HasSharedPropertyGuards, hcount]
    · cases hbody : c1.GetFunctionInfo.HasBody with
      | true =>
        rw [hrec hbody] at hri
        simp only [Option.some.injEq] at hri
        subst hri
        exact ⟨rfl, rfl⟩
      | false =>
        rw [hno hbody] at hri
        cases hri
  · obtain ⟨body, hbd, hcs, hlf⟩ := BuildJITTimeData_slots _ _ _ _ _ _ fb hb1 hfb
    refine ⟨body, hbd, fun i child hi hchild => ?_, fun i child hi hchild => ?_,
      fun c2 hc2 => ?_⟩
    · obtain ⟨rtc, node, h1, h2, h3⟩ := (hcs i hi).2 child hchild
      obtain ⟨hfalse, htrue⟩ := inlineeRuntimeData_cases _ _ _ _ _ h2
      exact ⟨rtc, node, h1, h3, hfalse, htrue⟩
    · obtain ⟨rtc, node, h1, h2, h3⟩ := (hlf i hi).2 child hchild
      obtain ⟨hfalse, htrue⟩ := ldFldInlineeRuntimeData_cases _ _ _ _ _ h2
      exact ⟨rtc, node, h1, h3, hfalse, htrue⟩
    · obtain ⟨rtn, node, h1, h2, h3⟩ :=
        BuildJITTimeData_next_runtime _ _ _ _ _ _ fb hb1 hfb c2 hc2
      obtain ⟨hfalse, htrue⟩ := nextRuntimeData_cases _ _ _ _ h1
      exact ⟨rtn, node, h2, h3, hfalse, htrue⟩

theorem C19_children_built_with_default_flag_witness :
    (BuildJITTimeData true false sampleInlineeParent (some sampleInlineeRuntime) true =
      .ok sampleInlineeParentNode ∧
    sampleInlineeParentNode.follow [.callSite 0] = some sampleCallee2Node ∧
    ∃ c1 rt1, sampleInlineeParent.follow [.callSite 0] = some c1 ∧
      BuildJITTimeData true false c1 rt1 false = .ok sampleCallee2Node ∧
      (false = false →
        FunctionJITTimeInfo.HasSharedPropertyGuards sampleCallee2Node = false ∧
        sampleCallee2Node.data.sharedPropGuardCount = 0 ∧
        sampleCallee2Node.data.sharedPropertyGuards = none ∧
        sampleCallee2Node.data.callsCountAddress = 0 ∧
        (c1.GetFunctionInfo.HasBody = true →
          FunctionJITTimeInfo.GetRuntimeInfo sampleCallee2Node = some {}) ∧
        (∀ ri, FunctionJITTimeInfo.GetRuntimeInfo sampleCallee2Node = some ri →
          ri.clonedCacheCount = 0 ∧ ri.clonedInlineCaches = none))) ∧
    (BuildJITTimeData true true sampleGuardedRoot none false = .ok sampleGuardedRootNode ∧
    sampleGuardedRootNode.follow [.callSite 0] = some sampleInlineeNode ∧
    ∃ c1 rt1, sampleGuardedRoot.follow [.callSite 0] = some c1 ∧
      BuildJITTimeData true true c1 rt1 true = .ok sampleInlineeNode) :=
  have hfalse := C19_children_built_with_default_flag true false sampleInlineeParent
    (some sampleInlineeRuntime) true sampleInlineeParentNode (sampleInlineeParent_built true)
    [.callSite 0] (List.cons_ne_nil _ _) sampleCallee2Node rfl
  have htrue := C19_children_built_with_default_flag true true sampleGuardedRoot none false
    sampleGuardedRootNode (sampleGuardedRoot_built true) [.callSite 0]
    (List.cons_ne_nil _ _) sampleInlineeNode rfl
  ⟨⟨sampleInlineeParent_built true, rfl,
      hfalse.elim fun c1 h1 => h1.elim fun rt1 h2 => ⟨c1, rt1, h2.1, h2.2.1, h2.2.2.2.1⟩⟩,
    ⟨sampleGuardedRoot_built true, rfl,
      htrue.elim fun c1 h1 => h1.elim fun rt1 h2 => ⟨c1, rt1, h2.1, h2.2.1⟩⟩⟩

/-! ## C20 -/

theorem natRepr_length_pos (n : Nat) : 0 < (Nat.repr n).length := by
  simp only [Nat.repr, Nat.toDigits, String.length, List.asString]
  simp only [Nat.toDigitsCore]
  split
  · simp
  · rw [Nat.toDigitsCore_lens_eq]
    omega

theorem formatD_castToInt (s : Nat) (hs : s < 2 ^ 31) : formatD (castToInt s) = Nat.repr s := by
  have hmod : s % 2 ^ 32 = s := Nat.mod_eq_of_lt (by omega)
  have hcast : castToInt s = (s : Int) := by
    simp only [castToInt, hmod]
    rw [if_pos hs]
  rw [hcast]
  simp only [formatD]
  rw [if_neg (by omega)]
  simp

theorem formatU_eq (u : Nat) (hu : u < 2 ^ 32) : formatU u = Nat.repr u := by
  simp only [formatU, Nat.mod_eq_of_lt hu]

/-- For a source context id below 2^31 the buffer receives the unsigned text, its length
exceeds 8, and a buffer of 40 or more characters holds it. -/
theorem GetDebugNumberSet_small_id (dbg : Bool) (size : Nat) (n : FunctionJITTimeDataIDL)
    (body : FunctionBodyDataIDL) (hbody : FunctionJITTimeInfo.GetBody n = some body)
    (hs : body.sourceContextId < 2 ^ 31)
    (hl : FunctionJITTimeInfo.GetLocalFunctionId n < 2 ^ 32)
    (hf : body.functionNumber < 2 ^ 32) (hsize : 40 ≤ size) :
    FunctionJITTimeInfo.GetDebugNumberSet dbg size n =
      .ok (" (#" ++ Nat.repr body.sourceContextId ++ "." ++
        Nat.repr (FunctionJITTimeInfo.GetLocalFunctionId n) ++ "), #" ++
        Nat.repr body.functionNumber) ∧
    8 < (" (#" ++ Nat.repr body.sourceContextId ++ "." ++
        Nat.repr (FunctionJITTimeInfo.GetLocalFunctionId n) ++ "), #" ++
        Nat.repr body.functionNumber).length := by
  have hb : n.data.bodyData = some body := hbody
  have h1 := natRepr_length_pos body.sourceContextId
  have h2 := natRepr_length_pos (FunctionJITTimeInfo.GetLocalFunctionId n)
  have h3 := natRepr_length_pos body.functionNumber
  have g1 := Nat.repr_length body.sourceContextId 10 (by decide) (by omega)
  have g2 := Nat.repr_length (FunctionJITTimeInfo.GetLocalFunctionId n) 10 (by decide) (by omega)
  have g3 := Nat.repr_length body.functionNumber 10 (by decide) (by omega)
  have hlen : (" (#" ++ Nat.repr body.sourceContextId ++ "." ++
        Nat.repr (FunctionJITTimeInfo.GetLocalFunctionId n) ++ "), #" ++
        Nat.repr body.functionNumber).length =
      8 + (Nat.repr body.sourceContextId).length +
        (Nat.repr (FunctionJITTimeInfo.GetLocalFunctionId n)).length +
        (Nat.repr body.functionNumber).length := by
    simp only [String.length_append]
    have e1 : " (#".length = 3 := by decide
    have e2 : ".".length = 1 := by decide
    have e3 : "), #".length = 4 := by decide
    rw [e1, e2, e3]
    omega
  refine ⟨?_, by rw [hlen]; omega⟩
  unfold FunctionJITTimeInfo.GetDebugNumberSet FunctionJITTimeInfo.GetSourceContextId
  have hhas : FunctionJITTimeInfo.HasBody n = true := by
    simp [FunctionJITTimeInfo.HasBody, hb]
  simp only [hhas, Assert_true, hbody, deref, bind, Except.bind, pure, Except.pure,
    formatD_castToInt _ hs, formatU_eq _ hl, formatU_eq _ hf, swprintf_s]
  rw [if_pos (by rw [hlen]; omega)]
  simp only []
  have hgt : decide (((" (#" ++ Nat.repr body.sourceContextId ++ "." ++
        Nat.repr (FunctionJITTimeInfo.GetLocalFunctionId n) ++ "), #" ++
        Nat.repr body.functionNumber).length : Int) > 8) = true := by
    rw [hlen]
    simp only [decide_eq_true_eq]
    omega
  rw [hgt, Assert_true]

end JITTimeInfo
